import Mathlib

/-! Flow offload table core (net/netfilter/nf_flow_table_core.c)

A shallow embedding of the flow offload table core: the two-direction hash
index, the garbage collector, the NAT port rewrite and the hardware-sink slot.

Conventions of the embedding.
* Pointers are natural numbers, `0` is `NULL`; heap objects live in maps
  from addresses to values.
* Machine integers are natural numbers with explicit reduction modulo `2^w`.
* `__be16` values are 16-bit numbers; a packet is a byte memory addressed from
  the network header.
-/

namespace NfFlowTable

/-! ## Constants taken from the kernel headers -/

/-- Direction index of the originating side, `enum flow_offload_tuple_dir`. -/
def FLOW_OFFLOAD_DIR_ORIGINAL : Nat := 0
/-- Direction index of the replying side, `enum flow_offload_tuple_dir`. -/
def FLOW_OFFLOAD_DIR_REPLY : Nat := 1

/-- Modelled from the spec: the header nf_flow_table.h is not among the sources;
the flag set of section 3 is a bitset over SNAT, DNAT, DYING, TEARDOWN, KEEP, HW,
each flag one bit of the `flags` word. -/
def FLOW_OFFLOAD_SNAT : Nat := 0x1
/-- Modelled from the spec: flag bit DNAT of the `flags` word. -/
def FLOW_OFFLOAD_DNAT : Nat := 0x2
/-- Modelled from the spec: flag bit DYING of the `flags` word. -/
def FLOW_OFFLOAD_DYING : Nat := 0x4
/-- Modelled from the spec: flag bit TEARDOWN of the `flags` word. -/
def FLOW_OFFLOAD_TEARDOWN : Nat := 0x8
/-- Modelled from the spec: flag bit HW of the `flags` word. -/
def FLOW_OFFLOAD_HW : Nat := 0x10
/-- Modelled from the spec: flag bit KEEP of the `flags` word. -/
def FLOW_OFFLOAD_KEEP : Nat := 0x80

/-- Conntrack status bit numbers and masks (nf_conntrack_common.h). -/
def IPS_SRC_NAT : Nat := 0x10
/-- Destination NAT status mask. -/
def IPS_DST_NAT : Nat := 0x20
/-- Bit number of the dying status. -/
def IPS_DYING_BIT : Nat := 9
/-- Bit number of the offload status. -/
def IPS_OFFLOAD_BIT : Nat := 14

/-- Layer 3 family numbers. -/
def NFPROTO_IPV4 : Nat := 2
/-- Layer 3 family number of IPv6. -/
def NFPROTO_IPV6 : Nat := 10
/-- Layer 4 protocol numbers. -/
def IPPROTO_TCP : Nat := 6
/-- Layer 4 protocol number of UDP. -/
def IPPROTO_UDP : Nat := 17

/-- Verdict constant `NF_DROP` of uapi/linux/netfilter.h. -/
def NF_DROP : Int := 0

/-- Conntrack TCP state index `TCP_CONNTRACK_ESTABLISHED`. -/
def TCP_CONNTRACK_ESTABLISHED : Nat := 3
/-- Conntrack UDP timeout index `UDP_CT_REPLIED`. -/
def UDP_CT_REPLIED : Nat := 1

/-- Values of `skb->ip_summed`. -/
def CHECKSUM_NONE : Nat := 0
/-- Checksum already verified. -/
def CHECKSUM_UNNECESSARY : Nat := 1
/-- Full packet sum kept in `skb->csum`. -/
def CHECKSUM_COMPLETE : Nat := 2
/-- Checksum to be completed by the device. -/
def CHECKSUM_PARTIAL : Nat := 3

/-- The all-ones checksum that stands for a computed zero. -/
def CSUM_MANGLED_0 : Nat := 0xffff

/-- Error numbers. -/
def EAGAIN : Int := 11
/-- Error number of a busy resource. -/
def EBUSY : Int := 16
/-- Error number of an unsupported operation. -/
def EOPNOTSUPP : Int := 95

/-- Header sizes in bytes: `struct flow_ports`, `struct tcphdr`, `struct udphdr`. -/
def sizeof_flow_ports : Nat := 4
/-- Size of `struct tcphdr`. -/
def sizeof_tcphdr : Nat := 20
/-- Size of `struct udphdr`. -/
def sizeof_udphdr : Nat := 8

/-! ## Machine arithmetic -/

/-- Truncation to an unsigned 32-bit value, the cast `(u32)`. -/
def u32 (x : Nat) : Nat := x % 2 ^ 32

/-- Unsigned 32-bit subtraction. -/
def u32_sub (a b : Nat) : Nat := (u32 a + (2 ^ 32 - u32 b)) % 2 ^ 32

/-- Reinterpretation of the low 32 bits as a signed number, the cast `(__s32)`. -/
def s32 (x : Nat) : Int :=
  if u32 x < 2 ^ 31 then (u32 x : Int) else (u32 x : Int) - 2 ^ 32

/-- Bit test on a word, `test_bit`. -/
def test_bit (nr : Nat) (w : Nat) : Bool := w &&& (1 <<< nr) != 0

/-- Clearing one bit of a word, `clear_bit`. -/
def clear_bit (nr : Nat) (w : Nat) : Nat := w ^^^ (w &&& (1 <<< nr))

/-- Update of one cell of a heap or of a byte memory. -/
def heap_set {α : Type} (h : Nat → α) (p : Nat) (v : α) : Nat → α :=
  fun q => if q = p then v else h q

/-! ## Data model -/

/-- The directional flow key `struct flow_offload_tuple`. The fields up to
`l4proto` precede `dir` in memory and form the hashed prefix. -/
structure flow_offload_tuple where
  src : Nat
  dst : Nat
  src_port : Nat
  dst_port : Nat
  iifidx : Int
  l3proto : Nat
  l4proto : Nat
  dir : Nat
  oifidx : Int
  mtu : Nat
  dst_cache : Nat
deriving DecidableEq

/-- The hash link node with its tuple, `struct flow_offload_tuple_rhash`; the
link itself is kept by the index. -/
structure flow_offload_tuple_rhash where
  tuple : flow_offload_tuple
deriving DecidableEq

/-- One bidirectional flow, `struct flow_offload`. -/
structure flow_offload where
  tuplehash : Nat → flow_offload_tuple_rhash
  flags : Nat
  timeout : Nat

/-- The allocation unit `struct flow_offload_entry`: the flow and its
tracked connection. -/
structure flow_offload_entry where
  flow : flow_offload
  ct : Nat

/-- One direction of a conntrack tuple, `struct nf_conntrack_tuple`. -/
structure nf_conntrack_tuple where
  src_u3 : Nat
  src_port : Nat
  src_l3num : Nat
  dst_u3 : Nat
  dst_port : Nat
  dst_protonum : Nat
deriving DecidableEq

/-- Conntrack TCP window state, `struct ip_ct_tcp`. -/
structure ip_ct_tcp where
  state : Nat
  seen0_td_maxwin : Nat
  seen1_td_maxwin : Nat
deriving DecidableEq

/-- A tracked connection, `struct nf_conn`, reduced to the fields the core reads
or writes. -/
structure nf_conn where
  use : Nat
  status : Nat
  timeout : Nat
  tuplehash : Nat → nf_conntrack_tuple
  tcp : ip_ct_tcp

/-- A route cache entry, `struct dst_entry`: its reference count and the two
path MTU values the routing subsystem reports for it. -/
structure dst_entry where
  refcnt : Nat
  mtu_v4 : Nat
  mtu_v6 : Nat
deriving DecidableEq

/-- One direction of a route descriptor, `struct nf_flow_route` member. -/
structure nf_flow_route_tuple where
  dst : Nat
  ifindex : Int
deriving DecidableEq

/-- Two-direction route descriptor, `struct nf_flow_route`. -/
structure nf_flow_route where
  tuple : Nat → nf_flow_route_tuple

/-- The address of a hash node: the flow that embeds it and the slot of the
`tuplehash` array it occupies. -/
structure rhash_node where
  flow : Nat
  slot : Nat
deriving DecidableEq

/-- A call made to the registered hardware backend. -/
inductive hw_call where
  | add (flow : Nat) (ct : Nat)
  | del (flow : Nat)
deriving DecidableEq

/-- The kernel state the core works on: the clock, the heaps of flows,
connections and route entries, the hash index of the flow table, the
hardware-sink slot and the trace of backend calls. -/
structure State where
  jiffies : Nat
  HZ : Nat
  flows : Nat → flow_offload_entry
  cts : Nat → nf_conn
  dsts : Nat → dst_entry
  get_timeouts : Nat → Nat → Option (Nat → Nat)
  rhashtable : List rhash_node
  freed : List Nat
  nf_flow_table_hw_hook : Nat
  hw_calls : List hw_call
  warnings : Nat

/-- The tuple stored in a hash node. -/
def node_tuple (s : State) (n : rhash_node) : flow_offload_tuple :=
  ((s.flows n.flow).flow.tuplehash n.slot).tuple

/-- The bytes of a tuple that precede `dir`, the range
`offsetof(struct flow_offload_tuple, dir)` covers. -/
def tuple_key (t : flow_offload_tuple) : Nat × Nat × Nat × Nat × Int × Nat × Nat :=
  (t.src, t.dst, t.src_port, t.dst_port, t.iifidx, t.l3proto, t.l4proto)

/-- The compare callback `flow_offload_hash_cmp`: 1 when the key bytes
differ, 0 when they are equal. -/
def flow_offload_hash_cmp (key : flow_offload_tuple) (x : flow_offload_tuple) : Nat :=
  if tuple_key x ≠ tuple_key key then 1 else 0

/-! ## The hash index

Modelled from the spec: the hash index of section 4.C is the kernel rhashtable,
which is not among the sources. A node with a given key sits in the bucket
of that key; insertion links the node at the head of its chain without looking
for duplicates, lookup returns the first node of the chain the compare callback
accepts, removal unlinks the given node. All nodes with equal key share a
chain, so one list in chain order gives the same answers. Insertion is taken
to succeed, as `flow_offload_add` ignores its result. -/

/-- Modelled from the spec: head insertion into the hash index. -/
def rhashtable_insert_fast (ht : List rhash_node) (obj : rhash_node) : List rhash_node :=
  obj :: ht

/-- Modelled from the spec: unlinking of one node from the hash index. -/
def rhashtable_remove_fast (ht : List rhash_node) (obj : rhash_node) : List rhash_node :=
  ht.erase obj

/-- Modelled from the spec: the first node whose key the compare callback
reports equal. -/
def rhashtable_lookup_fast (s : State) (key : flow_offload_tuple) : Option rhash_node :=
  s.rhashtable.find? (fun n => flow_offload_hash_cmp key (node_tuple s n) == 0)

/-! ## Connection tracker interface -/

/-- The conntrack clock `nfct_time_stamp`, the low 32 bits of `jiffies`. -/
def nfct_time_stamp (s : State) : Nat := u32 s.jiffies

/-- Remaining lifetime of a connection, `nf_ct_expires`. -/
def nf_ct_expires (s : State) (ct : nf_conn) : Nat :=
  let timeout := s32 (u32_sub ct.timeout (nfct_time_stamp s))
  if timeout > 0 then timeout.toNat else 0

/-- One day in clock ticks, the constant `DAY`. -/
def DAY (s : State) : Nat := 86400 * s.HZ

/-- The function `nf_ct_offload_timeout`: a connection with less than half a day
left gets one day. -/
def nf_ct_offload_timeout (s : State) (flow : Nat) : State :=
  let ct := (s.flows flow).ct
  let c := s.cts ct
  if nf_ct_expires s c < DAY s / 2 then
    { s with cts := heap_set s.cts ct { c with timeout := u32 (nfct_time_stamp s + DAY s) } }
  else s

/-- The function `flow_offload_add` on the flow table of the state: refresh the
connection, stamp the flow with the clock and link both directions into the
index. -/
def flow_offload_add (s : State) (flow : Nat) : State × Int :=
  let s1 := nf_ct_offload_timeout s flow
  let e := s1.flows flow
  let f := e.flow
  let e1 : flow_offload_entry := { e with flow := { f with timeout := u32 s1.jiffies } }
  let s2 := { s1 with flows := heap_set s1.flows flow e1 }
  let ht1 := rhashtable_insert_fast s2.rhashtable ⟨flow, FLOW_OFFLOAD_DIR_ORIGINAL⟩
  let ht2 := rhashtable_insert_fast ht1 ⟨flow, FLOW_OFFLOAD_DIR_REPLY⟩
  ({ s2 with rhashtable := ht2 }, 0)

/-- The function `flow_offload_lookup`: the matching node, unless its flow
is dying or torn down. The address of a node records the flow that embeds it,
which is what `container_of` computes from the stored `dir` of a tuple that
`flow_offload_fill_dir` has filled. -/
def flow_offload_lookup (s : State) (tuple : flow_offload_tuple) : Option rhash_node :=
  match rhashtable_lookup_fast s tuple with
  | none => none
  | some tuplehash =>
    let flow := (s.flows tuplehash.flow).flow
    if flow.flags &&& (FLOW_OFFLOAD_DYING ||| FLOW_OFFLOAD_TEARDOWN) ≠ 0 then none
    else some tuplehash

/-! ## Removal and teardown -/

/-- Layer 4 protocol of a connection, `nf_ct_protonum`. -/
def nf_ct_protonum (ct : nf_conn) : Nat := (ct.tuplehash 0).dst_protonum

/-- Layer 3 family of a connection, `nf_ct_l3num`. -/
def nf_ct_l3num (ct : nf_conn) : Nat := (ct.tuplehash 0).src_l3num

/-- The function `flow_offload_fixup_tcp`. -/
def flow_offload_fixup_tcp (tcp : ip_ct_tcp) : ip_ct_tcp :=
  { tcp with state := TCP_CONNTRACK_ESTABLISHED, seen0_td_maxwin := 0, seen1_td_maxwin := 0 }

/-- The function `flow_offload_fixup_ct_state`. The field `get_timeouts` of the
state stands for the protocol lookup followed by its `get_timeouts` callback;
`none` is a null result of either. -/
def flow_offload_fixup_ct_state (s : State) (ctp : Nat) : State :=
  let ct := s.cts ctp
  let l4num := nf_ct_protonum ct
  let ct1 : nf_conn :=
    if l4num = IPPROTO_TCP then { ct with tcp := flow_offload_fixup_tcp ct.tcp } else ct
  let s1 : State := { s with cts := heap_set s.cts ctp ct1 }
  match s.get_timeouts (nf_ct_l3num ct) l4num with
  | none => s1
  | some timeouts =>
    if l4num = IPPROTO_TCP then
      let ct2 : nf_conn :=
        { ct1 with timeout := u32 (nfct_time_stamp s + timeouts TCP_CONNTRACK_ESTABLISHED) }
      { s1 with cts := heap_set s.cts ctp ct2 }
    else if l4num = IPPROTO_UDP then
      let ct2 : nf_conn :=
        { ct1 with timeout := u32 (nfct_time_stamp s + timeouts UDP_CT_REPLIED) }
      { s1 with cts := heap_set s.cts ctp ct2 }
    else s1

/-- Modelled from the spec: release of one reference on a route handle,
`dst_release`; a null handle is ignored. -/
def dst_release (s : State) (dst : Nat) : State :=
  if dst = 0 then s
  else
    let d := s.dsts dst
    { s with dsts := heap_set s.dsts dst { d with refcnt := d.refcnt - 1 } }

/-- Modelled from the spec: release of one reference on a tracked connection,
`nf_ct_put`. -/
def nf_ct_put (s : State) (ctp : Nat) : State :=
  if ctp = 0 then s
  else
    let ct := s.cts ctp
    { s with cts := heap_set s.cts ctp { ct with use := ct.use - 1 } }

/-- Modelled from the spec: the tracker deletes a connection, `nf_ct_delete`:
unless it is already dying it is marked dying and the reference the tracker
holds on it is dropped. -/
def nf_ct_delete (s : State) (ctp : Nat) : State :=
  let ct := s.cts ctp
  if test_bit IPS_DYING_BIT ct.status then s
  else
    let ct1 : nf_conn := { ct with status := ct.status ||| (1 <<< IPS_DYING_BIT) }
    nf_ct_put { s with cts := heap_set s.cts ctp ct1 } ctp

/-- The function `flow_offload_free`. -/
def flow_offload_free (s : State) (flow : Nat) : State :=
  let e := s.flows flow
  let s1 := dst_release s (e.flow.tuplehash FLOW_OFFLOAD_DIR_ORIGINAL).tuple.dst_cache
  let s2 := dst_release s1 (e.flow.tuplehash FLOW_OFFLOAD_DIR_REPLY).tuple.dst_cache
  let s3 := if e.flow.flags &&& FLOW_OFFLOAD_DYING ≠ 0 then nf_ct_delete s2 e.ct else s2
  let s4 := nf_ct_put s3 e.ct
  { s4 with freed := flow :: s4.freed }

/-- The predicate `nf_flow_in_hw`. -/
def nf_flow_in_hw (flow : flow_offload) : Bool := flow.flags &&& FLOW_OFFLOAD_HW != 0

/-- The function `nf_flow_offload_hw_del`: the registered backend, if any, is
asked to delete the flow. -/
def nf_flow_offload_hw_del (s : State) (flow : Nat) : State :=
  if s.nf_flow_table_hw_hook ≠ 0 then { s with hw_calls := hw_call.del flow :: s.hw_calls }
  else s

/-- The function `nf_flow_offload_hw_add`. -/
def nf_flow_offload_hw_add (s : State) (flow : Nat) (ct : Nat) : State :=
  if s.nf_flow_table_hw_hook ≠ 0 then { s with hw_calls := hw_call.add flow ct :: s.hw_calls }
  else s

/-- The function `flow_offload_del`. -/
def flow_offload_del (s : State) (flow : Nat) : State :=
  let e := s.flows flow
  let s1 := if nf_flow_in_hw e.flow then nf_flow_offload_hw_del s flow else s
  let ht1 := rhashtable_remove_fast s1.rhashtable ⟨flow, FLOW_OFFLOAD_DIR_ORIGINAL⟩
  let ht2 := rhashtable_remove_fast ht1 ⟨flow, FLOW_OFFLOAD_DIR_REPLY⟩
  let s3 : State := { s1 with rhashtable := ht2 }
  let ct := s3.cts e.ct
  let ct1 : nf_conn := { ct with status := clear_bit IPS_OFFLOAD_BIT ct.status }
  let s4 : State := { s3 with cts := heap_set s3.cts e.ct ct1 }
  let s5 := if e.flow.flags &&& FLOW_OFFLOAD_TEARDOWN = 0 then flow_offload_fixup_ct_state s4 e.ct
            else s4
  flow_offload_free s5 flow

/-- The function `flow_offload_teardown`. -/
def flow_offload_teardown (s : State) (flow : Nat) : State :=
  let e := s.flows flow
  let f := e.flow
  let e1 : flow_offload_entry := { e with flow := { f with flags := f.flags ||| FLOW_OFFLOAD_TEARDOWN } }
  let s1 : State := { s with flows := heap_set s.flows flow e1 }
  flow_offload_fixup_ct_state s1 e.ct

/-! ## Garbage collector -/

/-- The predicate `nf_flow_has_expired`: the signed 32-bit distance from the
clock to the deadline is not positive. -/
def nf_flow_has_expired (s : State) (flow : flow_offload) : Bool :=
  decide (s32 (u32_sub flow.timeout (u32 s.jiffies)) ≤ 0)

/-- What the hash table walker hands out at one step: a node, or an error
pointer carrying an error number. -/
inductive walk_item where
  | node (n : rhash_node)
  | err (e : Int)
deriving DecidableEq

/-- The items a walk over a table at rest hands out: every linked node once,
in chain order. A node the visitor has unlinked by then is the REPLY node of
the flow being removed, which the loop would skip anyway. -/
def rhashtable_walk (s : State) : List walk_item :=
  s.rhashtable.map walk_item.node

/-- The body of the loop of `nf_flow_offload_gc_step` for one node handed out by
the walker; `container_of` on a node whose stored `dir` is 0 yields the flow
that embeds it. -/
def nf_flow_offload_gc_visit (s : State) (tuplehash : rhash_node) : State :=
  if (node_tuple s tuplehash).dir ≠ 0 then s
  else
    let flow := tuplehash.flow
    let f := (s.flows flow).flow
    let teardown : Bool := f.flags &&& (FLOW_OFFLOAD_DYING ||| FLOW_OFFLOAD_TEARDOWN) != 0
    let s1 := if !teardown then nf_ct_offload_timeout s flow else s
    if (f.flags &&& FLOW_OFFLOAD_KEEP != 0) && !teardown then s1
    else if nf_flow_has_expired s1 f || teardown then flow_offload_del s1 flow
    else s1

/-- The loop of `nf_flow_offload_gc_step` over the items the walker hands out:
an error other than the resize signal leaves the loop, the resize signal is
skipped, a node is visited. -/
def nf_flow_offload_gc_loop (s : State) : List walk_item → State
  | [] => s
  | walk_item.err e :: rest =>
    if e ≠ -EAGAIN then s else nf_flow_offload_gc_loop s rest
  | walk_item.node tuplehash :: rest =>
    nf_flow_offload_gc_loop (nf_flow_offload_gc_visit s tuplehash) rest

/-- The function `nf_flow_offload_gc_step`; `walk_init_err` is the result of
`rhashtable_walk_init`. -/
def nf_flow_offload_gc_step (s : State) (walk_init_err : Int) (yields : List walk_item) :
    State × Int :=
  if walk_init_err ≠ 0 then (s, 0)
  else (nf_flow_offload_gc_loop s yields, 1)

/-! ## Hardware-sink slot -/

/-- The function `nf_flow_table_hw_register`. -/
def nf_flow_table_hw_register (s : State) (offload : Nat) : State × Int :=
  if s.nf_flow_table_hw_hook ≠ 0 then (s, -EBUSY)
  else ({ s with nf_flow_table_hw_hook := offload }, 0)

/-- The function `nf_flow_table_hw_unregister`; a failed `WARN_ON` is counted. -/
def nf_flow_table_hw_unregister (s : State) (offload : Nat) : State :=
  let s1 : State :=
    if s.nf_flow_table_hw_hook ≠ offload then { s with warnings := s.warnings + 1 } else s
  { s1 with nf_flow_table_hw_hook := 0 }

/-! ## Packet buffers and checksums -/

/-- A packet buffer, `struct sk_buff`, seen from its network header: the bytes,
how many of them the packet holds, the checksum state, the running sum of
`CHECKSUM_COMPLETE`, and whether a private writable copy cannot be had. -/
structure sk_buff where
  data : Nat → Nat
  len : Nat
  ip_summed : Nat
  csum : Nat
  cow_fails : Bool

/-- Modelled from the spec: the packet-buffer helper `pskb_may_pull`: the first
`len` bytes can be made contiguous exactly when the packet holds that many. -/
def pskb_may_pull (skb : sk_buff) (len : Nat) : Bool := decide (len ≤ skb.len)

/-- Modelled from the spec: the packet-buffer helper `skb_try_make_writable`:
non-zero when the packet cannot be made writable. -/
def skb_try_make_writable (skb : sk_buff) (_write_len : Nat) : Bool := skb.cow_fails

/-- Load of a 16-bit field stored at a byte offset. -/
def load16 (data : Nat → Nat) (off : Nat) : Nat :=
  (data off % 256) * 256 + data (off + 1) % 256

/-- Store of a 16-bit field at a byte offset. -/
def store16 (data : Nat → Nat) (off : Nat) (v : Nat) : Nat → Nat :=
  heap_set (heap_set data off (v / 256 % 256)) (off + 1) (v % 256)

/-- Store of a 16-bit header field of a packet. -/
def skb_store16 (skb : sk_buff) (off : Nat) (v : Nat) : sk_buff :=
  { skb with data := store16 skb.data off v }

/-- Byte offsets of the fields of `struct flow_ports`, `struct tcphdr` and
`struct udphdr`. -/
def off_source : Nat := 0
/-- Offset of the destination port. -/
def off_dest : Nat := 2
/-- Offset of `check` in `struct tcphdr`. -/
def off_tcp_check : Nat := 16
/-- Offset of `check` in `struct udphdr`. -/
def off_udp_check : Nat := 6

/-- Complement of a 32-bit word. -/
def not32 (x : Nat) : Nat := 2 ^ 32 - 1 - x % 2 ^ 32

/-- Complement of a 16-bit word. -/
def not16 (x : Nat) : Nat := 2 ^ 16 - 1 - x % 2 ^ 16

/-- Modelled from the spec: ones-complement addition of 32-bit partial sums with
end-around carry, the kernel helper `csum_add`. -/
def csum_add (csum addend : Nat) : Nat :=
  let res := (csum % 2 ^ 32 + addend % 2 ^ 32) % 2 ^ 32
  (res + (if res < addend % 2 ^ 32 then 1 else 0)) % 2 ^ 32

/-- Modelled from the spec: ones-complement subtraction, the kernel helper
`csum_sub`. -/
def csum_sub (csum addend : Nat) : Nat := csum_add csum (not32 addend)

/-- Modelled from the spec: folding of a 32-bit partial sum into the complemented
16-bit checksum, the kernel helper `csum_fold`. -/
def csum_fold (csum : Nat) : Nat :=
  let sum0 := csum % 2 ^ 32
  let sum1 := sum0 % 2 ^ 16 + sum0 / 2 ^ 16
  let sum2 := sum1 % 2 ^ 16 + sum1 / 2 ^ 16
  not16 sum2

/-- Modelled from the spec: zero extension of a 16-bit checksum, `csum_unfold`. -/
def csum_unfold (n : Nat) : Nat := n % 2 ^ 16

/-- Modelled from the spec: the incremental checksum replace of the glossary
(RFC 1624), the kernel helper `csum_replace4`. -/
def csum_replace4 (sum frm to_ : Nat) : Nat :=
  let tmp := csum_sub (not32 (csum_unfold sum)) frm
  csum_fold (csum_add tmp to_)

/-- Modelled from the spec: the kernel helper `inet_proto_csum_replace4` applied
to the 16-bit checksum field at byte offset `sum_off` of the packet. -/
def inet_proto_csum_replace4 (skb : sk_buff) (sum_off : Nat) (frm to_ : Nat)
    (pseudohdr : Bool) : sk_buff :=
  let sum := load16 skb.data sum_off
  if skb.ip_summed ≠ CHECKSUM_PARTIAL then
    let skb1 : sk_buff := { skb with data := store16 skb.data sum_off (csum_replace4 sum frm to_) }
    if skb.ip_summed = CHECKSUM_COMPLETE && pseudohdr then
      { skb1 with csum := not32 (csum_add (csum_sub (not32 skb.csum) frm) to_) }
    else skb1
  else if pseudohdr then
    let v := not16 (csum_fold (csum_add (csum_sub (csum_unfold sum) frm) to_))
    { skb with data := store16 skb.data sum_off v }
  else skb

/-- Modelled from the spec: the kernel helper `inet_proto_csum_replace2`, which
widens both 16-bit values and calls the 32-bit helper. -/
def inet_proto_csum_replace2 (skb : sk_buff) (sum_off : Nat) (frm to_ : Nat)
    (pseudohdr : Bool) : sk_buff :=
  inet_proto_csum_replace4 skb sum_off (frm % 2 ^ 16) (to_ % 2 ^ 16) pseudohdr

/-! ## NAT port rewrite -/

/-- The function `nf_flow_nat_port_tcp`. The offset `thoff` is an `unsigned int`
and the length handed to `pskb_may_pull` and `skb_try_make_writable`, whose
parameter is an `unsigned int`, is the sum truncated to 32 bits; the header
itself is addressed at `thoff`. -/
def nf_flow_nat_port_tcp (skb : sk_buff) (thoff : Nat) (port new_port : Nat) :
    sk_buff × Int :=
  if !pskb_may_pull skb (u32 (thoff + sizeof_tcphdr)) ||
      skb_try_make_writable skb (u32 (thoff + sizeof_tcphdr)) then (skb, -1)
  else (inet_proto_csum_replace2 skb (thoff + off_tcp_check) port new_port true, 0)

/-- The function `nf_flow_nat_port_udp`, with the same 32-bit length as
`nf_flow_nat_port_tcp`. -/
def nf_flow_nat_port_udp (skb : sk_buff) (thoff : Nat) (port new_port : Nat) :
    sk_buff × Int :=
  if !pskb_may_pull skb (u32 (thoff + sizeof_udphdr)) ||
      skb_try_make_writable skb (u32 (thoff + sizeof_udphdr)) then (skb, -1)
  else if load16 skb.data (thoff + off_udp_check) ≠ 0 ∨ skb.ip_summed = CHECKSUM_PARTIAL then
    let skb1 := inet_proto_csum_replace2 skb (thoff + off_udp_check) port new_port true
    if load16 skb1.data (thoff + off_udp_check) = 0 then
      (skb_store16 skb1 (thoff + off_udp_check) CSUM_MANGLED_0, 0)
    else (skb1, 0)
  else (skb, 0)

/-- The function `nf_flow_nat_port`. -/
def nf_flow_nat_port (skb : sk_buff) (thoff : Nat) (protocol : Nat) (port new_port : Nat) :
    sk_buff × Int :=
  if protocol = IPPROTO_TCP then
    let r := nf_flow_nat_port_tcp skb thoff port new_port
    if r.2 < 0 then (r.1, NF_DROP) else (r.1, 0)
  else if protocol = IPPROTO_UDP then
    let r := nf_flow_nat_port_udp skb thoff port new_port
    if r.2 < 0 then (r.1, NF_DROP) else (r.1, 0)
  else (skb, 0)

/-- The function `nf_flow_snat_port`. The length of the check on the port pair
is `thoff + sizeof(*hdr)` truncated to the 32 bits of the `unsigned int`
parameter of `pskb_may_pull` and `skb_try_make_writable`, so that it wraps for
`thoff` within 4 of 2^32; the port pair itself is addressed at `thoff`. -/
def nf_flow_snat_port (flow : flow_offload) (skb : sk_buff) (thoff : Nat) (protocol : Nat)
    (dir : Nat) : sk_buff × Int :=
  if !pskb_may_pull skb (u32 (thoff + sizeof_flow_ports)) ||
      skb_try_make_writable skb (u32 (thoff + sizeof_flow_ports)) then (skb, -1)
  else if dir = FLOW_OFFLOAD_DIR_ORIGINAL then
    let port := load16 skb.data (thoff + off_source)
    let new_port := (flow.tuplehash FLOW_OFFLOAD_DIR_REPLY).tuple.dst_port
    let skb1 := skb_store16 skb (thoff + off_source) new_port
    nf_flow_nat_port skb1 thoff protocol port new_port
  else if dir = FLOW_OFFLOAD_DIR_REPLY then
    let port := load16 skb.data (thoff + off_dest)
    let new_port := (flow.tuplehash FLOW_OFFLOAD_DIR_ORIGINAL).tuple.src_port
    let skb1 := skb_store16 skb (thoff + off_dest) new_port
    nf_flow_nat_port skb1 thoff protocol port new_port
  else (skb, -1)

/-- The function `nf_flow_dnat_port`, with the same 32-bit length of the check on
the port pair as `nf_flow_snat_port`. -/
def nf_flow_dnat_port (flow : flow_offload) (skb : sk_buff) (thoff : Nat) (protocol : Nat)
    (dir : Nat) : sk_buff × Int :=
  if !pskb_may_pull skb (u32 (thoff + sizeof_flow_ports)) ||
      skb_try_make_writable skb (u32 (thoff + sizeof_flow_ports)) then (skb, -1)
  else if dir = FLOW_OFFLOAD_DIR_ORIGINAL then
    let port := load16 skb.data (thoff + off_dest)
    let new_port := (flow.tuplehash FLOW_OFFLOAD_DIR_REPLY).tuple.src_port
    let skb1 := skb_store16 skb (thoff + off_dest) new_port
    nf_flow_nat_port skb1 thoff protocol port new_port
  else if dir = FLOW_OFFLOAD_DIR_REPLY then
    let port := load16 skb.data (thoff + off_source)
    let new_port := (flow.tuplehash FLOW_OFFLOAD_DIR_ORIGINAL).tuple.dst_port
    let skb1 := skb_store16 skb (thoff + off_source) new_port
    nf_flow_nat_port skb1 thoff protocol port new_port
  else (skb, -1)

/-! ## Entry construction -/

/-- The predicate `nf_ct_is_dying`: the dying bit of the status word. -/
def nf_ct_is_dying (ct : nf_conn) : Bool := test_bit IPS_DYING_BIT ct.status

/-- Modelled from the spec: the saturating-from-zero increment of section 4.B,
`atomic_inc_not_zero`, on the reference count of a tracked connection: a count
of zero stays and the call reports failure. -/
def atomic_inc_not_zero_use (s : State) (ctp : Nat) : State × Bool :=
  let ct := s.cts ctp
  if ct.use = 0 then (s, false)
  else ({ s with cts := heap_set s.cts ctp { ct with use := ct.use + 1 } }, true)

/-- Modelled from the spec: acquisition of one reference on a route handle,
`dst_hold_safe`, the same increment on the count of the route entry. -/
def dst_hold_safe (s : State) (dst : Nat) : State × Bool :=
  let d := s.dsts dst
  if d.refcnt = 0 then (s, false)
  else ({ s with dsts := heap_set s.dsts dst { d with refcnt := d.refcnt + 1 } }, true)

/-- Modelled from the spec: the forward path MTU of an IPv4 route,
`ip_dst_mtu_maybe_forward`, as the routing subsystem reports it. -/
def ip_dst_mtu_maybe_forward (s : State) (dst : Nat) : Nat := (s.dsts dst).mtu_v4

/-- Modelled from the spec: the forwarding MTU of an IPv6 route,
`ip6_dst_mtu_forward`. -/
def ip6_dst_mtu_forward (s : State) (dst : Nat) : Nat := (s.dsts dst).mtu_v6

/-- The address a tuple holds after the `switch` of `flow_offload_fill_dir`: for
IPv4 the first four bytes of the union are overwritten, for IPv6 all of it,
for any other family nothing. -/
def fill_addr (l3num : Nat) (old u3 : Nat) : Nat :=
  if l3num = NFPROTO_IPV4 then old / 2 ^ 32 * 2 ^ 32 + u3 % 2 ^ 32
  else if l3num = NFPROTO_IPV6 then u3
  else old

/-- The function `flow_offload_fill_dir`; the flow is the first member of its
entry and shares its address. -/
def flow_offload_fill_dir (s : State) (flow : Nat) (ct : Nat) (route : nf_flow_route)
    (dir : Nat) : State :=
  let e := s.flows flow
  let f := e.flow
  let ft := (f.tuplehash dir).tuple
  let ctt := (s.cts ct).tuplehash dir
  let dst := (route.tuple dir).dst
  let mtu :=
    if ctt.src_l3num = NFPROTO_IPV4 then ip_dst_mtu_maybe_forward s dst % 2 ^ 16
    else if ctt.src_l3num = NFPROTO_IPV6 then ip6_dst_mtu_forward s dst % 2 ^ 16
    else ft.mtu
  let ft1 : flow_offload_tuple :=
    { src := fill_addr ctt.src_l3num ft.src ctt.src_u3,
      dst := fill_addr ctt.src_l3num ft.dst ctt.dst_u3,
      src_port := ctt.src_port,
      dst_port := ctt.dst_port,
      iifidx := (route.tuple dir).ifindex,
      l3proto := ctt.src_l3num % 2 ^ 8,
      l4proto := ctt.dst_protonum,
      dir := dir,
      oifidx := (route.tuple (if dir = 0 then 1 else 0)).ifindex,
      mtu := mtu,
      dst_cache := dst }
  let e1 : flow_offload_entry := { e with flow := { f with tuplehash := heap_set f.tuplehash dir ⟨ft1⟩ } }
  { s with flows := heap_set s.flows flow e1 }

/-- The all-zero tuple of freshly zeroed memory. -/
def zero_tuple : flow_offload_tuple :=
  { src := 0, dst := 0, src_port := 0, dst_port := 0, iifidx := 0, l3proto := 0, l4proto := 0,
    dir := 0, oifidx := 0, mtu := 0, dst_cache := 0 }

/-- The entry `kzalloc` returns: every field zero. -/
def zero_entry : flow_offload_entry :=
  { flow := { tuplehash := fun _ => ⟨zero_tuple⟩, flags := 0, timeout := 0 }, ct := 0 }

/-- The effect of a successful `kzalloc`: the memory at the address it returns
holds an all-zero entry. -/
def kzalloc (s : State) (entry : Nat) : State :=
  { s with flows := heap_set s.flows entry zero_entry }

/-- The effect of `kfree` on an entry: its address is recorded as freed. -/
def kfree (s : State) (entry : Nat) : State := { s with freed := entry :: s.freed }

/-- The tail of `flow_offload_alloc`, reached once the connection and both route
handles are held: the entry records its connection, both directions are
filled and the NAT flags are taken from the status of the connection. -/
def flow_offload_alloc_fill (s : State) (entry : Nat) (ct : Nat) (route : nf_flow_route) :
    State :=
  let e := s.flows entry
  let s2 : State := { s with flows := heap_set s.flows entry { e with ct := ct } }
  let s3 := flow_offload_fill_dir s2 entry ct route FLOW_OFFLOAD_DIR_ORIGINAL
  let s4 := flow_offload_fill_dir s3 entry ct route FLOW_OFFLOAD_DIR_REPLY
  let status := (s4.cts ct).status
  let e4 := s4.flows entry
  let f4 := e4.flow
  let fl1 := if status &&& IPS_SRC_NAT ≠ 0 then f4.flags ||| FLOW_OFFLOAD_SNAT else f4.flags
  let fl2 := if status &&& IPS_DST_NAT ≠ 0 then fl1 ||| FLOW_OFFLOAD_DNAT else fl1
  let e5 : flow_offload_entry := { e4 with flow := { f4 with flags := fl2 } }
  { s4 with flows := heap_set s4.flows entry e5 }

/-- The function `flow_offload_alloc`. `entry` is what `kzalloc` returns: 0
when the allocation fails, else the address of a zeroed entry. The result is
the new state and the pointer returned, 0 for `NULL`. -/
def flow_offload_alloc (s : State) (ct : Nat) (route : nf_flow_route) (entry : Nat) :
    State × Nat :=
  if nf_ct_is_dying (s.cts ct) then (s, 0)
  else
    let r := atomic_inc_not_zero_use s ct
    if !r.2 then (s, 0)
    else if entry = 0 then (nf_ct_put r.1 ct, 0)
    else
      let s1 := kzalloc r.1 entry
      let h0 := dst_hold_safe s1 (route.tuple FLOW_OFFLOAD_DIR_ORIGINAL).dst
      if !h0.2 then (nf_ct_put (kfree h0.1 entry) ct, 0)
      else
        let h1 := dst_hold_safe h0.1 (route.tuple FLOW_OFFLOAD_DIR_REPLY).dst
        if !h1.2 then
          (nf_ct_put (kfree (dst_release h1.1 (route.tuple FLOW_OFFLOAD_DIR_ORIGINAL).dst) entry) ct, 0)
        else (flow_offload_alloc_fill h1.1 entry ct route, entry)

/-! ## Walk with a visitor and device-down cleanup -/

/-- The loop of `nf_flow_table_iterate` over the items the walker hands out.
`err` is the local variable of that name; `calls` records, in order, the flows
the visitor has been invoked on. An error other than the resize signal leaves
the loop, the resize signal is skipped, a node whose stored `dir` is not 0 is
skipped, and on any other node the visitor runs on the flow that embeds
it. -/
def nf_flow_table_iterate_loop (iter : State → Nat → State) (s : State) (err : Int)
    (calls : List Nat) : List walk_item → State × Int × List Nat
  | [] => (s, err, calls)
  | walk_item.err e :: rest =>
    if e ≠ -EAGAIN then (s, e, calls)
    else nf_flow_table_iterate_loop iter s e calls rest
  | walk_item.node tuplehash :: rest =>
    if (node_tuple s tuplehash).dir ≠ 0 then nf_flow_table_iterate_loop iter s err calls rest
    else
      nf_flow_table_iterate_loop iter (iter s tuplehash.flow) err (calls ++ [tuplehash.flow]) rest

/-- The function `nf_flow_table_iterate`: the state after the walk, the value
returned and the flows the visitor has been invoked on; `walk_init_err` is the
result of `rhashtable_walk_init`. -/
def nf_flow_table_iterate (s : State) (iter : State → Nat → State) (walk_init_err : Int)
    (yields : List walk_item) : State × Int × List Nat :=
  if walk_init_err ≠ 0 then (s, walk_init_err, [])
  else nf_flow_table_iterate_loop iter s walk_init_err [] yields

/-- Modelled from the spec: the inline helper `flow_offload_dead` of the header
nf_flow_table.h, which is not among the sources: it sets DYING on the flow. -/
def flow_offload_dead (s : State) (flow : Nat) : State :=
  let e := s.flows flow
  let f := e.flow
  let e1 : flow_offload_entry := { e with flow := { f with flags := f.flags ||| FLOW_OFFLOAD_DYING } }
  { s with flows := heap_set s.flows flow e1 }

/-- The function `nf_flow_table_do_cleanup`; the device argument is reduced to
its `ifindex`, `none` being the null pointer. -/
def nf_flow_table_do_cleanup (s : State) (flow : Nat) (dev : Option Int) : State :=
  match dev with
  | none => flow_offload_teardown s flow
  | some ifindex =>
    let f := (s.flows flow).flow
    if (f.tuplehash 0).tuple.iifidx = ifindex ∨ (f.tuplehash 1).tuple.iifidx = ifindex then
      flow_offload_dead s flow
    else s

/-- The nodes among the items a walk hands out. -/
def walk_nodes : List walk_item → List rhash_node
  | [] => []
  | walk_item.err _ :: rest => walk_nodes rest
  | walk_item.node n :: rest => n :: walk_nodes rest

/-! ## Sample data

The first scenario of the spec: a TCP connection from 10.0.0.1:1000 to
10.0.0.2:80 that enters on interface 2 and whose replies enter on interface 3.
-/

/-- ORIGINAL tuple of the sample flow. -/
def sample_orig : flow_offload_tuple :=
  { src := 0x0a000001, dst := 0x0a000002, src_port := 1000, dst_port := 80, iifidx := 2,
    l3proto := NFPROTO_IPV4, l4proto := IPPROTO_TCP, dir := 0, oifidx := 3, mtu := 1500,
    dst_cache := 1 }

/-- REPLY tuple of the sample flow. -/
def sample_reply : flow_offload_tuple :=
  { src := 0x0a000002, dst := 0x0a000001, src_port := 80, dst_port := 1000, iifidx := 3,
    l3proto := NFPROTO_IPV4, l4proto := IPPROTO_TCP, dir := 1, oifidx := 2, mtu := 1500,
    dst_cache := 2 }

/-- The sample flow with a given flag word and deadline. -/
def sample_flow (flags timeout : Nat) : flow_offload :=
  { tuplehash := fun d => if d = 0 then ⟨sample_orig⟩ else ⟨sample_reply⟩,
    flags := flags, timeout := timeout }

/-- A flow whose two directions carry the same key bytes: a connection of
10.0.0.1:1000 to itself seen on interface 2 both ways. -/
def mirror_flow : flow_offload :=
  { tuplehash := fun d =>
      ⟨{ src := 0x0a000001, dst := 0x0a000001, src_port := 1000, dst_port := 1000, iifidx := 2,
         l3proto := NFPROTO_IPV4, l4proto := IPPROTO_TCP, dir := d, oifidx := 2, mtu := 1500,
         dst_cache := 1 }⟩,
    flags := 0, timeout := 0 }

/-- A tracked TCP connection for the sample flow. -/
def sample_ct : nf_conn :=
  { use := 2, status := 0, timeout := 500,
    tuplehash := fun d =>
      if d = 0 then ⟨0x0a000001, 1000, NFPROTO_IPV4, 0x0a000002, 80, IPPROTO_TCP⟩
      else ⟨0x0a000002, 80, NFPROTO_IPV4, 0x0a000001, 1000, IPPROTO_TCP⟩,
    tcp := ⟨5, 4096, 4096⟩ }

/-- A state at clock 100 with the given flow at every address, the given
linked nodes and an empty hardware slot. -/
def sample_state (f : flow_offload) (ht : List rhash_node) : State :=
  { jiffies := 100, HZ := 100,
    flows := fun _ => ⟨f, 1⟩,
    cts := fun _ => sample_ct,
    dsts := fun _ => ⟨1, 1500, 1500⟩,
    get_timeouts := fun _ _ => some (fun _ => 3000),
    rhashtable := ht, freed := [], nf_flow_table_hw_hook := 0, hw_calls := [], warnings := 0 }

/-- A table at clock 100 that links both nodes of the sample flow at address 7,
the flow carrying the given flags and the deadline 0. -/
def gc_sample (flags : Nat) : State :=
  sample_state (sample_flow flags 0) [⟨7, 1⟩, ⟨7, 0⟩]

/-- The sample flow under source NAT: the replies are addressed to
192.0.2.1:54321. -/
def snat_flow : flow_offload :=
  { tuplehash := fun d =>
      if d = 0 then ⟨sample_orig⟩
      else ⟨{ sample_reply with dst := 0xc0000201, dst_port := 54321 }⟩,
    flags := FLOW_OFFLOAD_SNAT, timeout := 0 }

/-- A packet whose transport header starts at offset 0 with source port 1000,
destination port 80 and the checksum 0x1234 both where TCP and where UDP keep
it; `len` bytes of it are present. -/
def sample_skb (len : Nat) (ip_summed : Nat) : sk_buff :=
  { data := fun i =>
      if i = 0 then 0x03 else if i = 1 then 0xe8 else if i = 3 then 80
      else if i = 6 then 0x12 else if i = 7 then 0x34
      else if i = 16 then 0x12 else if i = 17 then 0x34 else 0,
    len := len, ip_summed := ip_summed, csum := 0, cow_fails := false }

/-- The sample flow under destination NAT: the replies come from port 8080. -/
def dnat_flow : flow_offload :=
  { tuplehash := fun d =>
      if d = 0 then ⟨sample_orig⟩
      else ⟨{ sample_reply with src := 0xc0a80101, src_port := 8080 }⟩,
    flags := FLOW_OFFLOAD_DNAT, timeout := 0 }

/-- An 8-byte packet all of whose bytes are 0xff, so that its UDP checksum
field reads 0xffff. -/
def ones_skb : sk_buff :=
  { data := fun _ => 0xff, len := 8, ip_summed := CHECKSUM_NONE, csum := 0, cow_fails := false }

/-- Layer 4 protocol number of ICMP, a protocol without ports. -/
def IPPROTO_ICMP : Nat := 1

/-- A state with the given backend pointer in the hardware-sink slot. -/
def hw_state (hook : Nat) : State :=
  { sample_state (sample_flow 0 0) [] with nf_flow_table_hw_hook := hook }

/-- The states of the hardware-sink slot that register and unregister calls
reach from an empty slot. -/
inductive hw_reachable : State → Prop where
  | empty (s : State) (h : s.nf_flow_table_hw_hook = 0) : hw_reachable s
  | register (s : State) (offload : Nat) (h : hw_reachable s) :
      hw_reachable (nf_flow_table_hw_register s offload).1
  | unregister (s : State) (offload : Nat) (h : hw_reachable s) :
      hw_reachable (nf_flow_table_hw_unregister s offload)

/-- A tracked UDP connection. -/
def sample_udp_ct : nf_conn :=
  { sample_ct with tuplehash := fun d =>
      if d = 0 then ⟨0x0a000001, 1000, NFPROTO_IPV4, 0x0a000002, 53, IPPROTO_UDP⟩
      else ⟨0x0a000002, 53, NFPROTO_IPV4, 0x0a000001, 1000, IPPROTO_UDP⟩ }

/-- The sample state with the given connection at every address and the
timeouts 432000 for TCP ESTABLISHED and 180 for UDP REPLIED. -/
def ct_state (ct : nf_conn) : State :=
  { sample_state (sample_flow FLOW_OFFLOAD_SNAT 0) [⟨7, 1⟩, ⟨7, 0⟩] with
    cts := fun _ => ct,
    get_timeouts := fun _ l4 =>
      some (fun i => if l4 = IPPROTO_TCP then (if i = TCP_CONNTRACK_ESTABLISHED then 432000 else 60)
        else (if i = UDP_CT_REPLIED then 180 else 30)) }

/-- A table at clock 100 with the sample flow at 7 and 8, entering on interfaces
2 and 3, and a flow entering on interfaces 5 and 6 at every other address; the
nodes of the flows 7, 8 and 9 are linked. -/
def walk_state : State :=
  { sample_state (sample_flow 0 0) [⟨9, 1⟩, ⟨9, 0⟩, ⟨8, 1⟩, ⟨8, 0⟩, ⟨7, 1⟩, ⟨7, 0⟩] with
    flows := fun p =>
      if p = 7 ∨ p = 8 then ⟨sample_flow 0 0, 1⟩
      else ⟨{ tuplehash := fun d =>
                if d = 0 then ⟨{ sample_orig with iifidx := 5 }⟩
                else ⟨{ sample_reply with iifidx := 6 }⟩,
              flags := 0, timeout := 0 }, 1⟩ }

/-- A walk over the table of `walk_state` that hands the six nodes out in
another order and meets one resize signal. -/
def walk_yields : List walk_item :=
  [walk_item.node ⟨8, 0⟩, walk_item.node ⟨9, 1⟩, walk_item.err (-EAGAIN), walk_item.node ⟨7, 1⟩,
    walk_item.node ⟨9, 0⟩, walk_item.node ⟨8, 1⟩, walk_item.node ⟨7, 0⟩]

/-- The route of the sample flow: route entry 1 on interface 2 one way, route
entry 2 on interface 3 back. -/
def sample_route : nf_flow_route :=
  { tuple := fun d => if d = 0 then ⟨1, 2⟩ else ⟨2, 3⟩ }

/-- The sample state in which the route entry 2 has the given reference
count. -/
def alloc_state (refcnt2 : Nat) : State :=
  { sample_state (sample_flow 0 0) [] with
    dsts := fun d => if d = 2 then ⟨refcnt2, 1400, 1400⟩ else ⟨1, 1500, 1500⟩ }

theorem heap_set_same {α : Type} (h : Nat → α) (p : Nat) (v : α) : heap_set h p v p = v := by
  simp [heap_set]

theorem heap_set_other {α : Type} (h : Nat → α) (p q : Nat) (v : α) (hne : q ≠ p) :
    heap_set h p v q = h q := by
  simp [heap_set, hne]

theorem nf_ct_offload_timeout_flows (s : State) (flow : Nat) :
    (nf_ct_offload_timeout s flow).flows = s.flows := by
  unfold nf_ct_offload_timeout
  dsimp only
  split <;> rfl

theorem nf_ct_offload_timeout_jiffies (s : State) (flow : Nat) :
    (nf_ct_offload_timeout s flow).jiffies = s.jiffies := by
  unfold nf_ct_offload_timeout
  dsimp only
  split <;> rfl

theorem nf_ct_offload_timeout_rhashtable (s : State) (flow : Nat) :
    (nf_ct_offload_timeout s flow).rhashtable = s.rhashtable := by
  unfold nf_ct_offload_timeout
  dsimp only
  split <;> rfl

theorem flow_offload_fixup_ct_state_flows (s : State) (ctp : Nat) :
    (flow_offload_fixup_ct_state s ctp).flows = s.flows := by
  unfold flow_offload_fixup_ct_state
  dsimp only
  split
  · rfl
  · split
    · rfl
    · split <;> rfl

theorem flow_offload_fixup_ct_state_jiffies (s : State) (ctp : Nat) :
    (flow_offload_fixup_ct_state s ctp).jiffies = s.jiffies := by
  unfold flow_offload_fixup_ct_state
  dsimp only
  split
  · rfl
  · split
    · rfl
    · split <;> rfl

theorem flow_offload_fixup_ct_state_rhashtable (s : State) (ctp : Nat) :
    (flow_offload_fixup_ct_state s ctp).rhashtable = s.rhashtable := by
  unfold flow_offload_fixup_ct_state
  dsimp only
  split
  · rfl
  · split
    · rfl
    · split <;> rfl

theorem flow_offload_add_rhashtable (s : State) (flow : Nat) :
    (flow_offload_add s flow).1.rhashtable = ⟨flow, 1⟩ :: ⟨flow, 0⟩ :: s.rhashtable := by
  simp [flow_offload_add, rhashtable_insert_fast, nf_ct_offload_timeout_rhashtable,
    FLOW_OFFLOAD_DIR_ORIGINAL, FLOW_OFFLOAD_DIR_REPLY]

theorem flow_offload_add_node_tuple (s : State) (flow : Nat) (n : rhash_node) :
    node_tuple (flow_offload_add s flow).1 n = node_tuple s n := by
  simp only [node_tuple, flow_offload_add, nf_ct_offload_timeout_flows, heap_set]
  split
  · next h => rw [h]
  · rfl

theorem flow_offload_add_flags (s : State) (flow : Nat) (p : Nat) :
    ((flow_offload_add s flow).1.flows p).flow.flags = (s.flows p).flow.flags := by
  simp only [flow_offload_add, nf_ct_offload_timeout_flows, heap_set]
  split
  · next h => rw [h]
  · rfl

theorem flow_offload_hash_cmp_self (t : flow_offload_tuple) : flow_offload_hash_cmp t t = 0 := by
  simp [flow_offload_hash_cmp]

theorem flow_offload_hash_cmp_eq_zero (key x : flow_offload_tuple) :
    flow_offload_hash_cmp key x = 0 ↔ tuple_key x = tuple_key key := by
  unfold flow_offload_hash_cmp
  split
  · next h => simp [h]
  · next h => simpa using h

/-! ## Insertion and lookup -/

/-- C1, as stated, fails: for the flow whose two directions carry the same key
bytes, inserted into an empty table and carrying no flag, the lookup with the
ORIGINAL key returns the REPLY node (slot 1) and not the ORIGINAL node
(slot 0). -/
theorem flow_offload_add_lookup_mirror_counterexample :
    (mirror_flow.flags &&& (FLOW_OFFLOAD_DYING ||| FLOW_OFFLOAD_TEARDOWN) = 0 ∧
      (∀ n ∈ (sample_state mirror_flow []).rhashtable, ∀ d, d = 0 ∨ d = 1 →
        tuple_key (node_tuple (sample_state mirror_flow []) n) ≠
          tuple_key (mirror_flow.tuplehash d).tuple)) ∧
    flow_offload_lookup (flow_offload_add (sample_state mirror_flow []) 7).1
        (mirror_flow.tuplehash FLOW_OFFLOAD_DIR_ORIGINAL).tuple = some ⟨7, 1⟩ ∧
    flow_offload_lookup (flow_offload_add (sample_state mirror_flow []) 7).1
        (mirror_flow.tuplehash FLOW_OFFLOAD_DIR_ORIGINAL).tuple
      ≠ some ⟨7, FLOW_OFFLOAD_DIR_ORIGINAL⟩ := by
  refine ⟨⟨by decide, by simp [sample_state]⟩, by decide, by decide⟩

/-- C1, amended: for every table and every entry without DYING or TEARDOWN whose
two key prefixes are not already present in the table and differ from each
other, after `flow_offload_add` the lookup with the ORIGINAL key returns the
ORIGINAL node of the entry and the lookup with the REPLY key returns its REPLY
node, so both lookups resolve to the same entry. -/
theorem flow_offload_add_lookup (s : State) (flow : Nat)
    (hflags : (s.flows flow).flow.flags &&& (FLOW_OFFLOAD_DYING ||| FLOW_OFFLOAD_TEARDOWN) = 0)
    (hfresh : ∀ n ∈ s.rhashtable, ∀ d, d = 0 ∨ d = 1 →
      tuple_key (node_tuple s n) ≠ tuple_key ((s.flows flow).flow.tuplehash d).tuple)
    (hdiff : tuple_key ((s.flows flow).flow.tuplehash FLOW_OFFLOAD_DIR_ORIGINAL).tuple ≠
      tuple_key ((s.flows flow).flow.tuplehash FLOW_OFFLOAD_DIR_REPLY).tuple) :
    flow_offload_lookup (flow_offload_add s flow).1
        ((s.flows flow).flow.tuplehash FLOW_OFFLOAD_DIR_ORIGINAL).tuple
      = some ⟨flow, FLOW_OFFLOAD_DIR_ORIGINAL⟩ ∧
    flow_offload_lookup (flow_offload_add s flow).1
        ((s.flows flow).flow.tuplehash FLOW_OFFLOAD_DIR_REPLY).tuple
      = some ⟨flow, FLOW_OFFLOAD_DIR_REPLY⟩ := by
  have _ := hfresh
  simp only [FLOW_OFFLOAD_DIR_ORIGINAL, FLOW_OFFLOAD_DIR_REPLY] at hdiff ⊢
  have hne : flow_offload_hash_cmp ((s.flows flow).flow.tuplehash 0).tuple
      (node_tuple s ⟨flow, 1⟩) ≠ 0 := by
    rw [Ne, flow_offload_hash_cmp_eq_zero]
    exact fun h => hdiff h.symm
  have heq0 : flow_offload_hash_cmp ((s.flows flow).flow.tuplehash 0).tuple
      (node_tuple s ⟨flow, 0⟩) = 0 := by
    rw [flow_offload_hash_cmp_eq_zero]; rfl
  have heq1 : flow_offload_hash_cmp ((s.flows flow).flow.tuplehash 1).tuple
      (node_tuple s ⟨flow, 1⟩) = 0 := by
    rw [flow_offload_hash_cmp_eq_zero]; rfl
  have h0 : rhashtable_lookup_fast (flow_offload_add s flow).1
      ((s.flows flow).flow.tuplehash 0).tuple = some ⟨flow, 0⟩ := by
    unfold rhashtable_lookup_fast
    rw [flow_offload_add_rhashtable]
    simp [List.find?_cons, flow_offload_add_node_tuple, hne, heq0]
  have h1 : rhashtable_lookup_fast (flow_offload_add s flow).1
      ((s.flows flow).flow.tuplehash 1).tuple = some ⟨flow, 1⟩ := by
    unfold rhashtable_lookup_fast
    rw [flow_offload_add_rhashtable]
    simp [List.find?_cons, flow_offload_add_node_tuple, heq1]
  constructor
  · unfold flow_offload_lookup
    rw [h0]
    simp [flow_offload_add_flags, hflags]
  · unfold flow_offload_lookup
    rw [h1]
    simp [flow_offload_add_flags, hflags]

/-- Witness for C1: the sample flow of the first scenario, added to an empty
table. -/
theorem flow_offload_add_lookup_witness :
    flow_offload_lookup (flow_offload_add (sample_state (sample_flow 0 0) []) 7).1
        (((sample_state (sample_flow 0 0) []).flows 7).flow.tuplehash
          FLOW_OFFLOAD_DIR_ORIGINAL).tuple
      = some ⟨7, FLOW_OFFLOAD_DIR_ORIGINAL⟩ ∧
    flow_offload_lookup (flow_offload_add (sample_state (sample_flow 0 0) []) 7).1
        (((sample_state (sample_flow 0 0) []).flows 7).flow.tuplehash
          FLOW_OFFLOAD_DIR_REPLY).tuple
      = some ⟨7, FLOW_OFFLOAD_DIR_REPLY⟩ :=
  flow_offload_add_lookup (sample_state (sample_flow 0 0) []) 7 (by decide)
    (by simp [sample_state]) (by decide)

/-! ## Lookup of dying and torn down entries -/

theorem flow_offload_teardown_rhashtable (s : State) (flow : Nat) :
    (flow_offload_teardown s flow).rhashtable = s.rhashtable := by
  simp [flow_offload_teardown, flow_offload_fixup_ct_state_rhashtable]

theorem flow_offload_teardown_node_tuple (s : State) (flow : Nat) (n : rhash_node) :
    node_tuple (flow_offload_teardown s flow) n = node_tuple s n := by
  simp only [node_tuple, flow_offload_teardown, flow_offload_fixup_ct_state_flows, heap_set]
  split
  · next h => rw [h]
  · rfl

theorem flow_offload_teardown_flags (s : State) (flow : Nat) :
    ((flow_offload_teardown s flow).flows flow).flow.flags =
      (s.flows flow).flow.flags ||| FLOW_OFFLOAD_TEARDOWN := by
  simp [flow_offload_teardown, flow_offload_fixup_ct_state_flows, heap_set]

theorem flow_offload_teardown_flags_other (s : State) (flow p : Nat) (hne : p ≠ flow) :
    ((flow_offload_teardown s flow).flows p).flow.flags = (s.flows p).flow.flags := by
  simp [flow_offload_teardown, flow_offload_fixup_ct_state_flows, heap_set, hne]

theorem flow_offload_teardown_lookup_fast (s : State) (flow : Nat) (key : flow_offload_tuple) :
    rhashtable_lookup_fast (flow_offload_teardown s flow) key = rhashtable_lookup_fast s key := by
  unfold rhashtable_lookup_fast
  rw [flow_offload_teardown_rhashtable]
  congr 1
  funext n
  rw [flow_offload_teardown_node_tuple]

theorem teardown_bit_set (f : Nat) :
    (f ||| FLOW_OFFLOAD_TEARDOWN) &&& (FLOW_OFFLOAD_DYING ||| FLOW_OFFLOAD_TEARDOWN) ≠ 0 := by
  intro h
  have h3 : Nat.testBit ((f ||| FLOW_OFFLOAD_TEARDOWN) &&&
      (FLOW_OFFLOAD_DYING ||| FLOW_OFFLOAD_TEARDOWN)) 3 = true := by
    rw [Nat.testBit_and, Nat.testBit_or]
    have a : Nat.testBit FLOW_OFFLOAD_TEARDOWN 3 = true := by decide
    have b : Nat.testBit (FLOW_OFFLOAD_DYING ||| FLOW_OFFLOAD_TEARDOWN) 3 = true := by decide
    simp [a, b]
  rw [h] at h3
  simp at h3

/-- C2: `flow_offload_lookup` returns none whenever the flow that owns the
matched hash node has DYING or TEARDOWN set; and right after
`flow_offload_teardown` of an entry, a lookup with the key of either of its
directions, for which the index matches a node of that entry, returns none,
while the index still links the same nodes. -/
theorem flow_offload_lookup_hides_dying (s : State) :
    (∀ key n, rhashtable_lookup_fast s key = some n →
      (s.flows n.flow).flow.flags &&& (FLOW_OFFLOAD_DYING ||| FLOW_OFFLOAD_TEARDOWN) ≠ 0 →
      flow_offload_lookup s key = none) ∧
    (∀ flow d n, (d = FLOW_OFFLOAD_DIR_ORIGINAL ∨ d = FLOW_OFFLOAD_DIR_REPLY) →
      rhashtable_lookup_fast s ((s.flows flow).flow.tuplehash d).tuple = some n →
      n.flow = flow →
      flow_offload_lookup (flow_offload_teardown s flow)
          ((s.flows flow).flow.tuplehash d).tuple = none ∧
        (flow_offload_teardown s flow).rhashtable = s.rhashtable ∧
        n ∈ (flow_offload_teardown s flow).rhashtable) := by
  constructor
  · intro key n hn hfl
    unfold flow_offload_lookup
    rw [hn]
    simp [hfl]
  · intro flow d n _ hn hown
    refine ⟨?_, flow_offload_teardown_rhashtable s flow, ?_⟩
    · unfold flow_offload_lookup
      rw [flow_offload_teardown_lookup_fast, hn]
      have := teardown_bit_set (s.flows flow).flow.flags
      simp [hown, flow_offload_teardown_flags, this]
    · rw [flow_offload_teardown_rhashtable]
      unfold rhashtable_lookup_fast at hn
      exact List.mem_of_find?_eq_some hn

/-- Witness for C2: the sample flow is linked and visible; after its teardown
both lookups return none and both nodes are still linked. -/
theorem flow_offload_lookup_hides_dying_witness :
    flow_offload_lookup (sample_state (sample_flow 0 0) [⟨7, 1⟩, ⟨7, 0⟩]) sample_orig
      = some ⟨7, 0⟩ ∧
    flow_offload_lookup (sample_state (sample_flow 0 0) [⟨7, 1⟩, ⟨7, 0⟩]) sample_reply
      = some ⟨7, 1⟩ ∧
    (flow_offload_lookup (flow_offload_teardown (sample_state (sample_flow 0 0) [⟨7, 1⟩, ⟨7, 0⟩]) 7)
        sample_orig = none ∧
      (flow_offload_teardown (sample_state (sample_flow 0 0) [⟨7, 1⟩, ⟨7, 0⟩]) 7).rhashtable
        = [⟨7, 1⟩, ⟨7, 0⟩] ∧
      (⟨7, 0⟩ : rhash_node) ∈
        (flow_offload_teardown (sample_state (sample_flow 0 0) [⟨7, 1⟩, ⟨7, 0⟩]) 7).rhashtable) ∧
    (flow_offload_lookup (flow_offload_teardown (sample_state (sample_flow 0 0) [⟨7, 1⟩, ⟨7, 0⟩]) 7)
        sample_reply = none ∧
      (flow_offload_teardown (sample_state (sample_flow 0 0) [⟨7, 1⟩, ⟨7, 0⟩]) 7).rhashtable
        = [⟨7, 1⟩, ⟨7, 0⟩] ∧
      (⟨7, 1⟩ : rhash_node) ∈
        (flow_offload_teardown (sample_state (sample_flow 0 0) [⟨7, 1⟩, ⟨7, 0⟩]) 7).rhashtable) :=
  ⟨by decide, by decide,
    (flow_offload_lookup_hides_dying (sample_state (sample_flow 0 0) [⟨7, 1⟩, ⟨7, 0⟩])).2
      7 0 ⟨7, 0⟩ (by decide) (by decide) rfl,
    (flow_offload_lookup_hides_dying (sample_state (sample_flow 0 0) [⟨7, 1⟩, ⟨7, 0⟩])).2
      7 1 ⟨7, 1⟩ (by decide) (by decide) rfl⟩

/-! ## The deadline stamped at insertion -/

theorem flow_offload_add_stamp (s : State) (flow : Nat) :
    ((flow_offload_add s flow).1.flows flow).flow.timeout = u32 s.jiffies := by
  simp [flow_offload_add, heap_set, nf_ct_offload_timeout_jiffies]

theorem has_expired_of_stamp (s : State) (f : flow_offload) (j k : Nat)
    (hj : s.jiffies = j + k) (hk : k ≤ 2 ^ 31) (hf : f.timeout = u32 j) :
    nf_flow_has_expired s f = true := by
  simp only [nf_flow_has_expired, s32, u32_sub, u32, decide_eq_true_eq, hj, hf]
  norm_num
  split <;> omega

/-- C3, as stated, fails: no strictly positive default timeout exists such that
insertion at time t stamps the deadline t plus that default and keeps the entry
unexpired before it. The sample flow inserted at clock 100 gets the deadline
100 and is reported expired at clock 100 itself. -/
theorem flow_offload_add_timeout_counterexample :
    (((flow_offload_add (sample_state (sample_flow 0 0) []) 7).1.flows 7).flow.timeout = 100 ∧
      nf_flow_has_expired (flow_offload_add (sample_state (sample_flow 0 0) []) 7).1
        ((flow_offload_add (sample_state (sample_flow 0 0) []) 7).1.flows 7).flow = true) ∧
    ¬ ∃ default_timeout : Nat, 0 < default_timeout ∧ ∀ (s : State) (flow : Nat),
      ((flow_offload_add s flow).1.flows flow).flow.timeout = u32 (s.jiffies + default_timeout) ∧
      ∀ now, s.jiffies ≤ now → now < s.jiffies + default_timeout →
        nf_flow_has_expired
          (let s1 := (flow_offload_add s flow).1
           { s1 with jiffies := now })
          ((flow_offload_add s flow).1.flows flow).flow = false := by
  refine ⟨⟨by decide, by decide⟩, ?_⟩
  rintro ⟨d, hd, h⟩
  have h1 := (h (sample_state (sample_flow 0 0) []) 7).2 100 (Nat.le_refl _)
    (by simp only [sample_state]; omega)
  have h2 : nf_flow_has_expired
      (let s1 := (flow_offload_add (sample_state (sample_flow 0 0) []) 7).1
       { s1 with jiffies := 100 })
      ((flow_offload_add (sample_state (sample_flow 0 0) []) 7).1.flows 7).flow = true := by
    decide
  rw [h1] at h2
  exact Bool.noConfusion h2

/-- C3, amended: `flow_offload_add` performed at time t stamps the deadline of
the entry with t itself, truncated to 32 bits, and adds no default timeout; so
an entry nobody touches is reported expired by `nf_flow_has_expired` at time t
and at every time t + k with k at most 2^31. -/
theorem flow_offload_add_timeout (s : State) (flow : Nat) (k : Nat) (hk : k ≤ 2 ^ 31) :
    ((flow_offload_add s flow).1.flows flow).flow.timeout = u32 s.jiffies ∧
    nf_flow_has_expired
      (let s1 := (flow_offload_add s flow).1
       { s1 with jiffies := s.jiffies + k })
      ((flow_offload_add s flow).1.flows flow).flow = true :=
  ⟨flow_offload_add_stamp s flow,
    has_expired_of_stamp _ _ s.jiffies k rfl hk (flow_offload_add_stamp s flow)⟩

/-- Witness for C3: the sample flow inserted at clock 100 and examined 50 ticks
later. -/
theorem flow_offload_add_timeout_witness :
    ((flow_offload_add (sample_state (sample_flow 0 0) []) 7).1.flows 7).flow.timeout
      = u32 (sample_state (sample_flow 0 0) []).jiffies ∧
    nf_flow_has_expired
      (let s1 := (flow_offload_add (sample_state (sample_flow 0 0) []) 7).1
       { s1 with jiffies := (sample_state (sample_flow 0 0) []).jiffies + 50 })
      ((flow_offload_add (sample_state (sample_flow 0 0) []) 7).1.flows 7).flow = true :=
  flow_offload_add_timeout (sample_state (sample_flow 0 0) []) 7 50 (by norm_num)

/-! ## Garbage collection -/

theorem dst_release_frame (s : State) (dst : Nat) :
    (dst_release s dst).flows = s.flows ∧ (dst_release s dst).jiffies = s.jiffies ∧
      (dst_release s dst).rhashtable = s.rhashtable := by
  unfold dst_release
  split <;> exact ⟨rfl, rfl, rfl⟩

theorem nf_ct_put_frame (s : State) (ctp : Nat) :
    (nf_ct_put s ctp).flows = s.flows ∧ (nf_ct_put s ctp).jiffies = s.jiffies ∧
      (nf_ct_put s ctp).rhashtable = s.rhashtable := by
  unfold nf_ct_put
  split <;> exact ⟨rfl, rfl, rfl⟩

theorem nf_ct_delete_frame (s : State) (ctp : Nat) :
    (nf_ct_delete s ctp).flows = s.flows ∧ (nf_ct_delete s ctp).jiffies = s.jiffies ∧
      (nf_ct_delete s ctp).rhashtable = s.rhashtable := by
  unfold nf_ct_delete
  dsimp only
  split
  · exact ⟨rfl, rfl, rfl⟩
  · exact nf_ct_put_frame _ _

theorem flow_offload_free_frame (s : State) (flow : Nat) :
    (flow_offload_free s flow).flows = s.flows ∧ (flow_offload_free s flow).jiffies = s.jiffies ∧
      (flow_offload_free s flow).rhashtable = s.rhashtable := by
  unfold flow_offload_free
  dsimp only
  obtain ⟨a1, a2, a3⟩ := dst_release_frame s
    ((s.flows flow).flow.tuplehash FLOW_OFFLOAD_DIR_ORIGINAL).tuple.dst_cache
  obtain ⟨b1, b2, b3⟩ := dst_release_frame (dst_release s
    ((s.flows flow).flow.tuplehash FLOW_OFFLOAD_DIR_ORIGINAL).tuple.dst_cache)
    ((s.flows flow).flow.tuplehash FLOW_OFFLOAD_DIR_REPLY).tuple.dst_cache
  split
  · obtain ⟨c1, c2, c3⟩ := nf_ct_delete_frame (dst_release (dst_release s
      ((s.flows flow).flow.tuplehash FLOW_OFFLOAD_DIR_ORIGINAL).tuple.dst_cache)
      ((s.flows flow).flow.tuplehash FLOW_OFFLOAD_DIR_REPLY).tuple.dst_cache) (s.flows flow).ct
    obtain ⟨d1, d2, d3⟩ := nf_ct_put_frame (nf_ct_delete (dst_release (dst_release s
      ((s.flows flow).flow.tuplehash FLOW_OFFLOAD_DIR_ORIGINAL).tuple.dst_cache)
      ((s.flows flow).flow.tuplehash FLOW_OFFLOAD_DIR_REPLY).tuple.dst_cache) (s.flows flow).ct)
      (s.flows flow).ct
    exact ⟨by rw [d1, c1, b1, a1], by rw [d2, c2, b2, a2], by rw [d3, c3, b3, a3]⟩
  · obtain ⟨d1, d2, d3⟩ := nf_ct_put_frame (dst_release (dst_release s
      ((s.flows flow).flow.tuplehash FLOW_OFFLOAD_DIR_ORIGINAL).tuple.dst_cache)
      ((s.flows flow).flow.tuplehash FLOW_OFFLOAD_DIR_REPLY).tuple.dst_cache) (s.flows flow).ct
    exact ⟨by rw [d1, b1, a1], by rw [d2, b2, a2], by rw [d3, b3, a3]⟩

theorem nf_flow_offload_hw_del_frame (s : State) (flow : Nat) :
    (nf_flow_offload_hw_del s flow).flows = s.flows ∧
      (nf_flow_offload_hw_del s flow).jiffies = s.jiffies ∧
      (nf_flow_offload_hw_del s flow).rhashtable = s.rhashtable := by
  unfold nf_flow_offload_hw_del
  split <;> exact ⟨rfl, rfl, rfl⟩

theorem flow_offload_del_frame (s : State) (flow : Nat) :
    (flow_offload_del s flow).flows = s.flows ∧ (flow_offload_del s flow).jiffies = s.jiffies ∧
      (flow_offload_del s flow).rhashtable =
        (s.rhashtable.erase ⟨flow, 0⟩).erase ⟨flow, 1⟩ := by
  unfold flow_offload_del
  simp only [flow_offload_free_frame, rhashtable_remove_fast, FLOW_OFFLOAD_DIR_ORIGINAL,
    FLOW_OFFLOAD_DIR_REPLY]
  obtain ⟨a1, a2, a3⟩ := nf_flow_offload_hw_del_frame s flow
  split <;> split <;>
    simp [flow_offload_fixup_ct_state_flows, flow_offload_fixup_ct_state_jiffies,
      flow_offload_fixup_ct_state_rhashtable, a1, a2, a3]

theorem nf_flow_has_expired_congr (s1 s : State) (f : flow_offload)
    (h : s1.jiffies = s.jiffies) : nf_flow_has_expired s1 f = nf_flow_has_expired s f := by
  simp [nf_flow_has_expired, h]

theorem flow_offload_del_flows (s : State) (flow : Nat) :
    (flow_offload_del s flow).flows = s.flows := (flow_offload_del_frame s flow).1

theorem flow_offload_del_jiffies (s : State) (flow : Nat) :
    (flow_offload_del s flow).jiffies = s.jiffies := (flow_offload_del_frame s flow).2.1

theorem flow_offload_del_rhashtable (s : State) (flow : Nat) :
    (flow_offload_del s flow).rhashtable = (s.rhashtable.erase ⟨flow, 0⟩).erase ⟨flow, 1⟩ :=
  (flow_offload_del_frame s flow).2.2

theorem gc_visit_frame (s : State) (n : rhash_node) :
    (nf_flow_offload_gc_visit s n).flows = s.flows ∧
      (nf_flow_offload_gc_visit s n).jiffies = s.jiffies := by
  unfold nf_flow_offload_gc_visit
  dsimp only
  repeat' split
  all_goals
    simp [flow_offload_del_flows, flow_offload_del_jiffies, nf_ct_offload_timeout_flows,
      nf_ct_offload_timeout_jiffies]

theorem gc_visit_table (s : State) (n : rhash_node) :
    (nf_flow_offload_gc_visit s n).rhashtable = s.rhashtable ∨
    (((s.flows n.flow).flow.flags &&& (FLOW_OFFLOAD_DYING ||| FLOW_OFFLOAD_TEARDOWN) ≠ 0 ∨
        ((s.flows n.flow).flow.flags &&& FLOW_OFFLOAD_KEEP = 0 ∧
          nf_flow_has_expired s (s.flows n.flow).flow = true)) ∧
      (nf_flow_offload_gc_visit s n).rhashtable =
        (s.rhashtable.erase ⟨n.flow, 0⟩).erase ⟨n.flow, 1⟩) := by
  unfold nf_flow_offload_gc_visit
  dsimp only
  by_cases hd : (node_tuple s n).dir ≠ 0
  · simp [hd]
  · by_cases ht : (s.flows n.flow).flow.flags &&&
        (FLOW_OFFLOAD_DYING ||| FLOW_OFFLOAD_TEARDOWN) = 0
    · by_cases hk : (s.flows n.flow).flow.flags &&& FLOW_OFFLOAD_KEEP = 0
      · by_cases he : nf_flow_has_expired s (s.flows n.flow).flow = true
        · right
          have he1 : nf_flow_has_expired (nf_ct_offload_timeout s n.flow) (s.flows n.flow).flow
              = true := by
            rw [nf_flow_has_expired_congr _ s _ (nf_ct_offload_timeout_jiffies _ _)]; exact he
          simp [hd, ht, hk, he, he1, flow_offload_del_rhashtable, nf_ct_offload_timeout_rhashtable]
        · left
          have he1 : nf_flow_has_expired (nf_ct_offload_timeout s n.flow) (s.flows n.flow).flow
              = false := by
            rw [nf_flow_has_expired_congr _ s _ (nf_ct_offload_timeout_jiffies _ _)]
            simpa using he
          simp [hd, ht, hk, he1, nf_ct_offload_timeout_rhashtable]
      · left
        simp [hd, ht, hk, nf_ct_offload_timeout_rhashtable]
    · right
      simp [hd, ht, flow_offload_del_rhashtable]

theorem gc_visit_removes (s : State) (n : rhash_node)
    (hdir : (node_tuple s n).dir = 0)
    (hc : (s.flows n.flow).flow.flags &&& (FLOW_OFFLOAD_DYING ||| FLOW_OFFLOAD_TEARDOWN) ≠ 0 ∨
        ((s.flows n.flow).flow.flags &&& FLOW_OFFLOAD_KEEP = 0 ∧
          nf_flow_has_expired s (s.flows n.flow).flow = true)) :
    (nf_flow_offload_gc_visit s n).rhashtable =
        (s.rhashtable.erase ⟨n.flow, 0⟩).erase ⟨n.flow, 1⟩ := by
  unfold nf_flow_offload_gc_visit
  dsimp only
  by_cases ht : (s.flows n.flow).flow.flags &&&
      (FLOW_OFFLOAD_DYING ||| FLOW_OFFLOAD_TEARDOWN) = 0
  · rcases hc with hc | ⟨hk, he⟩
    · exact absurd ht hc
    · have he1 : nf_flow_has_expired (nf_ct_offload_timeout s n.flow) (s.flows n.flow).flow
          = true := by
        rw [nf_flow_has_expired_congr _ s _ (nf_ct_offload_timeout_jiffies _ _)]; exact he
      simp [hdir, ht, hk, he1, flow_offload_del_rhashtable, nf_ct_offload_timeout_rhashtable]
  · simp [hdir, ht, flow_offload_del_rhashtable]

theorem gc_loop_frame (items : List walk_item) :
    ∀ s : State, (nf_flow_offload_gc_loop s items).flows = s.flows ∧
      (nf_flow_offload_gc_loop s items).jiffies = s.jiffies := by
  induction items with
  | nil => intro s; exact ⟨rfl, rfl⟩
  | cons it rest ih =>
    intro s
    cases it with
    | err e =>
      simp only [nf_flow_offload_gc_loop]
      split
      · exact ⟨rfl, rfl⟩
      · exact ih s
    | node n =>
      simp only [nf_flow_offload_gc_loop]
      obtain ⟨a1, a2⟩ := ih (nf_flow_offload_gc_visit s n)
      obtain ⟨b1, b2⟩ := gc_visit_frame s n
      exact ⟨a1.trans b1, a2.trans b2⟩

theorem gc_visit_sublist (s : State) (n : rhash_node) :
    (nf_flow_offload_gc_visit s n).rhashtable.Sublist s.rhashtable := by
  rcases gc_visit_table s n with h | ⟨_, h⟩
  · rw [h]
  · rw [h]
    exact (List.erase_sublist _ _).trans (List.erase_sublist _ _)

theorem gc_loop_sublist (items : List walk_item) :
    ∀ s : State, (nf_flow_offload_gc_loop s items).rhashtable.Sublist s.rhashtable := by
  induction items with
  | nil => intro s; exact List.Sublist.refl _
  | cons it rest ih =>
    intro s
    cases it with
    | err e =>
      simp only [nf_flow_offload_gc_loop]
      split
      · exact List.Sublist.refl _
      · exact ih s
    | node n =>
      simp only [nf_flow_offload_gc_loop]
      exact (ih _).trans (gc_visit_sublist s n)

theorem gc_loop_keeps (items : List walk_item) :
    ∀ (s : State) (n : rhash_node), n ∈ s.rhashtable →
      ¬ ((s.flows n.flow).flow.flags &&& (FLOW_OFFLOAD_DYING ||| FLOW_OFFLOAD_TEARDOWN) ≠ 0 ∨
        ((s.flows n.flow).flow.flags &&& FLOW_OFFLOAD_KEEP = 0 ∧
          nf_flow_has_expired s (s.flows n.flow).flow = true)) →
      n ∈ (nf_flow_offload_gc_loop s items).rhashtable := by
  induction items with
  | nil => intro s n hn _; exact hn
  | cons it rest ih =>
    intro s n hn hc
    cases it with
    | err e =>
      simp only [nf_flow_offload_gc_loop]
      split
      · exact hn
      · exact ih s n hn hc
    | node m =>
      simp only [nf_flow_offload_gc_loop]
      obtain ⟨b1, b2⟩ := gc_visit_frame s m
      apply ih
      · rcases gc_visit_table s m with h | ⟨hm, h⟩
        · rw [h]; exact hn
        · rw [h]
          have hne : n.flow ≠ m.flow := fun heq => hc (heq ▸ hm)
          have h0 : n ≠ ⟨m.flow, 0⟩ := fun heq => hne (by rw [heq])
          have h1 : n ≠ ⟨m.flow, 1⟩ := fun heq => hne (by rw [heq])
          exact (List.mem_erase_of_ne h1).2 ((List.mem_erase_of_ne h0).2 hn)
      · rw [b1, nf_flow_has_expired_congr _ s _ b2]
        exact hc

theorem gc_loop_removes (items : List walk_item) :
    ∀ (s : State) (p : Nat), s.rhashtable.Nodup → walk_item.node ⟨p, 0⟩ ∈ items →
      (∀ e, walk_item.err e ∈ items → e = -EAGAIN) →
      (node_tuple s ⟨p, 0⟩).dir = 0 →
      ((s.flows p).flow.flags &&& (FLOW_OFFLOAD_DYING ||| FLOW_OFFLOAD_TEARDOWN) ≠ 0 ∨
        ((s.flows p).flow.flags &&& FLOW_OFFLOAD_KEEP = 0 ∧
          nf_flow_has_expired s (s.flows p).flow = true)) →
      (⟨p, 0⟩ : rhash_node) ∉ (nf_flow_offload_gc_loop s items).rhashtable ∧
        (⟨p, 1⟩ : rhash_node) ∉ (nf_flow_offload_gc_loop s items).rhashtable := by
  induction items with
  | nil => intro s p _ hmem; simp at hmem
  | cons it rest ih =>
    intro s p hnd hmem herr hdir hc
    cases it with
    | err e =>
      have he : e = -EAGAIN := herr e (List.mem_cons_self _ _)
      simp only [nf_flow_offload_gc_loop, he, ne_eq, not_true_eq_false, if_false]
      apply ih s p hnd _ (fun e h => herr e (List.mem_cons_of_mem _ h)) hdir hc
      rcases List.mem_cons.1 hmem with h | h
      · cases h
      · exact h
    | node m =>
      simp only [nf_flow_offload_gc_loop]
      obtain ⟨b1, b2⟩ := gc_visit_frame s m
      have hnd2 : (nf_flow_offload_gc_visit s m).rhashtable.Nodup :=
        hnd.sublist (gc_visit_sublist s m)
      rcases List.mem_cons.1 hmem with h | h
      · have hm : m = ⟨p, 0⟩ := by cases h; rfl
        subst hm
        have hrem := gc_visit_removes s ⟨p, 0⟩ hdir hc
        have hsub := gc_loop_sublist rest (nf_flow_offload_gc_visit s ⟨p, 0⟩)
        have hn0 : (⟨p, 0⟩ : rhash_node) ∉ (nf_flow_offload_gc_visit s ⟨p, 0⟩).rhashtable := by
          rw [hrem]
          intro hin
          exact (List.Nodup.mem_erase_iff hnd).1 (List.mem_of_mem_erase hin) |>.1 rfl
        have hn1 : (⟨p, 1⟩ : rhash_node) ∉ (nf_flow_offload_gc_visit s ⟨p, 0⟩).rhashtable := by
          rw [hrem]
          intro hin
          exact (List.Nodup.mem_erase_iff (hnd.sublist (List.erase_sublist _ _))).1 hin |>.1 rfl
        exact ⟨fun hin => hn0 (hsub.subset hin), fun hin => hn1 (hsub.subset hin)⟩
      · apply ih _ p hnd2 h (fun e h => herr e (List.mem_cons_of_mem _ h))
        · simp only [node_tuple, b1] at hdir ⊢
          exact hdir
        · rw [b1, nf_flow_has_expired_congr _ s _ b2]
          exact hc

/-- C4: one pass of the garbage collector whose walk hands out the ORIGINAL node
of a linked entry, and no error other than the resize signal, removes that
entry if and only if the entry has DYING or TEARDOWN set, or it does not have
KEEP set and `nf_flow_has_expired` holds at the time of the pass; otherwise
both of its nodes stay linked. In particular an entry with KEEP and neither
DYING nor TEARDOWN stays whatever its deadline, and an entry with DYING or
TEARDOWN is removed whatever KEEP and the deadline are. -/
theorem nf_flow_offload_gc_step_removes_iff (s : State) (flow : Nat) (yields : List walk_item)
    (hnodup : s.rhashtable.Nodup)
    (h0 : (⟨flow, 0⟩ : rhash_node) ∈ s.rhashtable)
    (h1 : (⟨flow, 1⟩ : rhash_node) ∈ s.rhashtable)
    (hdir : (node_tuple s ⟨flow, 0⟩).dir = 0)
    (hwalk : walk_item.node ⟨flow, 0⟩ ∈ yields)
    (herr : ∀ e, walk_item.err e ∈ yields → e = -EAGAIN) :
    (((⟨flow, 0⟩ : rhash_node) ∉ (nf_flow_offload_gc_step s 0 yields).1.rhashtable ∧
        (⟨flow, 1⟩ : rhash_node) ∉ (nf_flow_offload_gc_step s 0 yields).1.rhashtable) ↔
      ((s.flows flow).flow.flags &&& (FLOW_OFFLOAD_DYING ||| FLOW_OFFLOAD_TEARDOWN) ≠ 0 ∨
        ((s.flows flow).flow.flags &&& FLOW_OFFLOAD_KEEP = 0 ∧
          nf_flow_has_expired s (s.flows flow).flow = true))) ∧
    (((⟨flow, 0⟩ : rhash_node) ∈ (nf_flow_offload_gc_step s 0 yields).1.rhashtable ∧
        (⟨flow, 1⟩ : rhash_node) ∈ (nf_flow_offload_gc_step s 0 yields).1.rhashtable) ↔
      ¬ ((s.flows flow).flow.flags &&& (FLOW_OFFLOAD_DYING ||| FLOW_OFFLOAD_TEARDOWN) ≠ 0 ∨
        ((s.flows flow).flow.flags &&& FLOW_OFFLOAD_KEEP = 0 ∧
          nf_flow_has_expired s (s.flows flow).flow = true))) ∧
    (((s.flows flow).flow.flags &&& FLOW_OFFLOAD_KEEP ≠ 0 ∧
        (s.flows flow).flow.flags &&& (FLOW_OFFLOAD_DYING ||| FLOW_OFFLOAD_TEARDOWN) = 0) →
      (⟨flow, 0⟩ : rhash_node) ∈ (nf_flow_offload_gc_step s 0 yields).1.rhashtable ∧
        (⟨flow, 1⟩ : rhash_node) ∈ (nf_flow_offload_gc_step s 0 yields).1.rhashtable) ∧
    ((s.flows flow).flow.flags &&& (FLOW_OFFLOAD_DYING ||| FLOW_OFFLOAD_TEARDOWN) ≠ 0 →
      (⟨flow, 0⟩ : rhash_node) ∉ (nf_flow_offload_gc_step s 0 yields).1.rhashtable ∧
        (⟨flow, 1⟩ : rhash_node) ∉ (nf_flow_offload_gc_step s 0 yields).1.rhashtable) := by
  have hstep : (nf_flow_offload_gc_step s 0 yields).1 = nf_flow_offload_gc_loop s yields := by
    simp [nf_flow_offload_gc_step]
  rw [hstep]
  have hrem := gc_loop_removes yields s flow hnodup hwalk herr hdir
  have hk0 := gc_loop_keeps yields s ⟨flow, 0⟩ h0
  have hk1 := gc_loop_keeps yields s ⟨flow, 1⟩ h1
  refine ⟨⟨?_, hrem⟩, ⟨?_, fun hc => ⟨hk0 hc, hk1 hc⟩⟩, ?_, fun ht => hrem (Or.inl ht)⟩
  · intro hout
    by_contra hc
    exact hout.1 (hk0 hc)
  · intro hin hc
    exact (hrem hc).1 hin.1
  · rintro ⟨hkeep, hnt⟩
    have hc : ¬ ((s.flows flow).flow.flags &&&
        (FLOW_OFFLOAD_DYING ||| FLOW_OFFLOAD_TEARDOWN) ≠ 0 ∨
        ((s.flows flow).flow.flags &&& FLOW_OFFLOAD_KEEP = 0 ∧
          nf_flow_has_expired s (s.flows flow).flow = true)) := by
      rintro (h | ⟨h, _⟩)
      · exact h hnt
      · exact hkeep h
    exact ⟨hk0 hc, hk1 hc⟩

/-- Witness for C4: with KEEP and TEARDOWN set the pass unlinks both nodes of the
sample flow; with KEEP alone both nodes stay, although the deadline 0 is long
past at clock 100. -/
theorem nf_flow_offload_gc_step_removes_iff_witness :
    ((⟨7, 0⟩ : rhash_node) ∉
        (nf_flow_offload_gc_step (gc_sample 0x88) 0 (rhashtable_walk (gc_sample 0x88))).1.rhashtable ∧
      (⟨7, 1⟩ : rhash_node) ∉
        (nf_flow_offload_gc_step (gc_sample 0x88) 0 (rhashtable_walk (gc_sample 0x88))).1.rhashtable) ∧
    ((⟨7, 0⟩ : rhash_node) ∈
        (nf_flow_offload_gc_step (gc_sample 0x80) 0 (rhashtable_walk (gc_sample 0x80))).1.rhashtable ∧
      (⟨7, 1⟩ : rhash_node) ∈
        (nf_flow_offload_gc_step (gc_sample 0x80) 0 (rhashtable_walk (gc_sample 0x80))).1.rhashtable) :=
  ⟨(nf_flow_offload_gc_step_removes_iff (gc_sample 0x88) 7 (rhashtable_walk (gc_sample 0x88))
      (by decide) (by decide) (by decide) (by decide) (by decide)
      (by intro e h; simp [rhashtable_walk, gc_sample, sample_state] at h)).2.2.2 (by decide),
    (nf_flow_offload_gc_step_removes_iff (gc_sample 0x80) 7 (rhashtable_walk (gc_sample 0x80))
      (by decide) (by decide) (by decide) (by decide) (by decide)
      (by intro e h; simp [rhashtable_walk, gc_sample, sample_state] at h)).2.2.1
      ⟨by decide, by decide⟩⟩

/-! ## Packet memory and checksum helpers -/

theorem load16_lt (d : Nat → Nat) (o : Nat) : load16 d o < 65536 := by
  unfold load16
  omega

theorem load16_store16_same (d : Nat → Nat) (o v : Nat) :
    load16 (store16 d o v) o = v % 65536 := by
  simp only [load16, store16, heap_set]
  have h1 : ¬ (o = o + 1) := by omega
  simp only [h1, if_true, if_false]
  omega

theorem load16_store16_disjoint (d : Nat → Nat) (o o1 v : Nat)
    (h : o1 + 2 ≤ o ∨ o + 2 ≤ o1) : load16 (store16 d o v) o1 = load16 d o1 := by
  simp only [load16, store16, heap_set]
  have h1 : ¬ (o1 = o + 1) := by omega
  have h2 : ¬ (o1 = o) := by omega
  have h3 : ¬ (o1 + 1 = o + 1) := by omega
  have h4 : ¬ (o1 + 1 = o) := by omega
  simp only [h1, h2, h3, h4, if_false]

theorem store16_other (d : Nat → Nat) (o v i : Nat) (h0 : i ≠ o) (h1 : i ≠ o + 1) :
    store16 d o v i = d i := by
  simp [store16, heap_set, h0, h1]

theorem not16_lt (x : Nat) : not16 x < 65536 := by
  unfold not16
  omega

theorem csum_fold_lt (x : Nat) : csum_fold x < 65536 := by
  unfold csum_fold
  exact not16_lt _

theorem csum_replace4_lt (sum frm to_ : Nat) : csum_replace4 sum frm to_ < 65536 := by
  unfold csum_replace4
  exact csum_fold_lt _

theorem inet_proto_csum_replace2_data (skb : sk_buff) (off frm to_ : Nat) :
    (inet_proto_csum_replace2 skb off frm to_ true).data =
      store16 skb.data off
        (if skb.ip_summed ≠ CHECKSUM_PARTIAL then
          csum_replace4 (load16 skb.data off) (frm % 2 ^ 16) (to_ % 2 ^ 16)
        else
          not16 (csum_fold (csum_add (csum_sub (csum_unfold (load16 skb.data off))
            (frm % 2 ^ 16)) (to_ % 2 ^ 16)))) := by
  unfold inet_proto_csum_replace2 inet_proto_csum_replace4
  dsimp only
  by_cases hp : skb.ip_summed = CHECKSUM_PARTIAL
  · simp [hp]
  · by_cases hc : skb.ip_summed = CHECKSUM_COMPLETE
    · have hcp : ¬ (CHECKSUM_COMPLETE = CHECKSUM_PARTIAL) := by decide
      simp [hc, hcp]
    · simp [hp, hc]

theorem inet_proto_csum_replace2_frame (skb : sk_buff) (off frm to_ : Nat) :
    (inet_proto_csum_replace2 skb off frm to_ true).len = skb.len ∧
    (inet_proto_csum_replace2 skb off frm to_ true).ip_summed = skb.ip_summed ∧
    (inet_proto_csum_replace2 skb off frm to_ true).cow_fails = skb.cow_fails := by
  unfold inet_proto_csum_replace2 inet_proto_csum_replace4
  dsimp only
  by_cases hp : skb.ip_summed = CHECKSUM_PARTIAL
  · simp [hp]
  · by_cases hc : skb.ip_summed = CHECKSUM_COMPLETE
    · have hcp : ¬ (CHECKSUM_COMPLETE = CHECKSUM_PARTIAL) := by decide
      simp [hc, hcp]
    · simp [hp, hc]

theorem inet_proto_csum_replace2_value_lt (ip_summed sum frm to_ : Nat) :
    (if ip_summed ≠ CHECKSUM_PARTIAL then csum_replace4 sum frm to_
      else not16 (csum_fold (csum_add (csum_sub (csum_unfold sum) frm) to_))) < 65536 := by
  split
  · exact csum_replace4_lt _ _ _
  · exact not16_lt _

/-! ## NAT port rewrite -/

theorem u32_le_of_le (a n : Nat) (h : a ≤ n) : u32 a ≤ n :=
  le_trans (Nat.mod_le _ _) h

theorem nf_flow_nat_port_tcp_ok (skb : sk_buff) (thoff port new_port : Nat)
    (hlen : thoff + sizeof_tcphdr ≤ skb.len) (hw : skb.cow_fails = false) :
    nf_flow_nat_port_tcp skb thoff port new_port =
      (inet_proto_csum_replace2 skb (thoff + off_tcp_check) port new_port true, 0) := by
  simp [nf_flow_nat_port_tcp, pskb_may_pull, skb_try_make_writable, u32_le_of_le _ _ hlen, hw]

theorem nf_flow_nat_port_tcp_short (skb : sk_buff) (thoff port new_port : Nat)
    (hlen : skb.len < u32 (thoff + sizeof_tcphdr)) :
    nf_flow_nat_port_tcp skb thoff port new_port = (skb, -1) := by
  simp [nf_flow_nat_port_tcp, pskb_may_pull, hlen]

theorem nf_flow_nat_port_udp_short (skb : sk_buff) (thoff port new_port : Nat)
    (hlen : skb.len < u32 (thoff + sizeof_udphdr)) :
    nf_flow_nat_port_udp skb thoff port new_port = (skb, -1) := by
  simp [nf_flow_nat_port_udp, pskb_may_pull, hlen]

theorem nf_flow_snat_port_original (flow : flow_offload) (skb : sk_buff) (thoff protocol : Nat)
    (hlen : u32 (thoff + sizeof_flow_ports) ≤ skb.len) (hw : skb.cow_fails = false) :
    nf_flow_snat_port flow skb thoff protocol FLOW_OFFLOAD_DIR_ORIGINAL =
      nf_flow_nat_port
        (skb_store16 skb (thoff + off_source) (flow.tuplehash FLOW_OFFLOAD_DIR_REPLY).tuple.dst_port)
        thoff protocol (load16 skb.data (thoff + off_source))
        (flow.tuplehash FLOW_OFFLOAD_DIR_REPLY).tuple.dst_port := by
  simp [nf_flow_snat_port, pskb_may_pull, skb_try_make_writable, hlen, hw]

theorem nf_flow_snat_port_reply (flow : flow_offload) (skb : sk_buff) (thoff protocol : Nat)
    (hlen : u32 (thoff + sizeof_flow_ports) ≤ skb.len) (hw : skb.cow_fails = false) :
    nf_flow_snat_port flow skb thoff protocol FLOW_OFFLOAD_DIR_REPLY =
      nf_flow_nat_port
        (skb_store16 skb (thoff + off_dest) (flow.tuplehash FLOW_OFFLOAD_DIR_ORIGINAL).tuple.src_port)
        thoff protocol (load16 skb.data (thoff + off_dest))
        (flow.tuplehash FLOW_OFFLOAD_DIR_ORIGINAL).tuple.src_port := by
  simp [nf_flow_snat_port, pskb_may_pull, skb_try_make_writable, hlen, hw,
    FLOW_OFFLOAD_DIR_REPLY, FLOW_OFFLOAD_DIR_ORIGINAL]

theorem nf_flow_dnat_port_original (flow : flow_offload) (skb : sk_buff) (thoff protocol : Nat)
    (hlen : u32 (thoff + sizeof_flow_ports) ≤ skb.len) (hw : skb.cow_fails = false) :
    nf_flow_dnat_port flow skb thoff protocol FLOW_OFFLOAD_DIR_ORIGINAL =
      nf_flow_nat_port
        (skb_store16 skb (thoff + off_dest) (flow.tuplehash FLOW_OFFLOAD_DIR_REPLY).tuple.src_port)
        thoff protocol (load16 skb.data (thoff + off_dest))
        (flow.tuplehash FLOW_OFFLOAD_DIR_REPLY).tuple.src_port := by
  simp [nf_flow_dnat_port, pskb_may_pull, skb_try_make_writable, hlen, hw]

theorem nf_flow_dnat_port_reply (flow : flow_offload) (skb : sk_buff) (thoff protocol : Nat)
    (hlen : u32 (thoff + sizeof_flow_ports) ≤ skb.len) (hw : skb.cow_fails = false) :
    nf_flow_dnat_port flow skb thoff protocol FLOW_OFFLOAD_DIR_REPLY =
      nf_flow_nat_port
        (skb_store16 skb (thoff + off_source) (flow.tuplehash FLOW_OFFLOAD_DIR_ORIGINAL).tuple.dst_port)
        thoff protocol (load16 skb.data (thoff + off_source))
        (flow.tuplehash FLOW_OFFLOAD_DIR_ORIGINAL).tuple.dst_port := by
  simp [nf_flow_dnat_port, pskb_may_pull, skb_try_make_writable, hlen, hw,
    FLOW_OFFLOAD_DIR_REPLY, FLOW_OFFLOAD_DIR_ORIGINAL]

theorem nf_flow_nat_port_tcp_eq (skb : sk_buff) (thoff port new_port : Nat)
    (hlen : thoff + sizeof_tcphdr ≤ skb.len) (hw : skb.cow_fails = false) :
    nf_flow_nat_port skb thoff IPPROTO_TCP port new_port =
      (inet_proto_csum_replace2 skb (thoff + off_tcp_check) port new_port true, 0) := by
  simp [nf_flow_nat_port, nf_flow_nat_port_tcp_ok skb thoff port new_port hlen hw]

/-- The ports and the checksum of a TCP packet after the checksum fix-up that
follows the store of a new port at `poff`, one of the two port offsets. -/
theorem tcp_rewrite_fields (skb : sk_buff) (thoff poff qoff new_port : Nat)
    (hnew : new_port < 2 ^ 16)
    (hp : (poff = off_source ∧ qoff = off_dest) ∨ (poff = off_dest ∧ qoff = off_source)) :
    load16 (inet_proto_csum_replace2
        (skb_store16 skb (thoff + poff) new_port)
        (thoff + off_tcp_check) (load16 skb.data (thoff + poff)) new_port true).data
        (thoff + poff) = new_port ∧
    load16 (inet_proto_csum_replace2
        (skb_store16 skb (thoff + poff) new_port)
        (thoff + off_tcp_check) (load16 skb.data (thoff + poff)) new_port true).data
        (thoff + qoff) = load16 skb.data (thoff + qoff) ∧
    load16 (inet_proto_csum_replace2
        (skb_store16 skb (thoff + poff) new_port)
        (thoff + off_tcp_check) (load16 skb.data (thoff + poff)) new_port true).data
        (thoff + off_tcp_check) =
      (if skb.ip_summed ≠ CHECKSUM_PARTIAL then
        csum_replace4 (load16 skb.data (thoff + off_tcp_check))
          (load16 skb.data (thoff + poff)) new_port
      else
        not16 (csum_fold (csum_add (csum_sub
          (csum_unfold (load16 skb.data (thoff + off_tcp_check)))
          (load16 skb.data (thoff + poff))) new_port))) := by
  have hold : load16 skb.data (thoff + poff) % 2 ^ 16 = load16 skb.data (thoff + poff) :=
    Nat.mod_eq_of_lt (load16_lt _ _)
  have hnew1 : new_port % 2 ^ 16 = new_port := Nat.mod_eq_of_lt hnew
  have hnew2 : new_port % 65536 = new_port := Nat.mod_eq_of_lt hnew
  have hck : load16 (store16 skb.data (thoff + poff) new_port) (thoff + off_tcp_check)
      = load16 skb.data (thoff + off_tcp_check) := by
    apply load16_store16_disjoint
    rcases hp with ⟨h, _⟩ | ⟨h, _⟩ <;> simp only [h, off_source, off_dest, off_tcp_check] <;> omega
  rw [inet_proto_csum_replace2_data]
  simp only [skb_store16]
  rw [hck, hold, hnew1]
  refine ⟨?_, ?_, ?_⟩
  · rw [load16_store16_disjoint, load16_store16_same, hnew2]
    rcases hp with ⟨h, _⟩ | ⟨h, _⟩ <;> simp only [h, off_source, off_dest, off_tcp_check] <;> omega
  · rw [load16_store16_disjoint, load16_store16_disjoint]
    · rcases hp with ⟨h, h1⟩ | ⟨h, h1⟩ <;> simp only [h, h1, off_source, off_dest] <;> omega
    · rcases hp with ⟨_, h⟩ | ⟨_, h⟩ <;> simp only [h, off_source, off_dest, off_tcp_check] <;> omega
  · rw [load16_store16_same]
    exact Nat.mod_eq_of_lt (inet_proto_csum_replace2_value_lt _ _ _ _)

/-- C5: on a TCP packet whose TCP header is present and writable at `thoff`,
`nf_flow_snat_port` in direction ORIGINAL returns 0, sets the source port to the
`dst_port` of the REPLY tuple of the flow, leaves the destination port as it
was and sets the TCP checksum to the incremental replace, old source port by
new source port, of the original checksum; in direction REPLY it does the same
with the destination port and the `src_port` of the ORIGINAL tuple and leaves
the source port as it was. -/
theorem nf_flow_snat_port_tcp (flow : flow_offload) (skb : sk_buff) (thoff : Nat)
    (hlen : thoff + sizeof_tcphdr ≤ skb.len) (hw : skb.cow_fails = false)
    (hr : (flow.tuplehash FLOW_OFFLOAD_DIR_REPLY).tuple.dst_port < 2 ^ 16)
    (ho : (flow.tuplehash FLOW_OFFLOAD_DIR_ORIGINAL).tuple.src_port < 2 ^ 16) :
    ((nf_flow_snat_port flow skb thoff IPPROTO_TCP FLOW_OFFLOAD_DIR_ORIGINAL).2 = 0 ∧
      load16 (nf_flow_snat_port flow skb thoff IPPROTO_TCP FLOW_OFFLOAD_DIR_ORIGINAL).1.data
          (thoff + off_source) = (flow.tuplehash FLOW_OFFLOAD_DIR_REPLY).tuple.dst_port ∧
      load16 (nf_flow_snat_port flow skb thoff IPPROTO_TCP FLOW_OFFLOAD_DIR_ORIGINAL).1.data
          (thoff + off_dest) = load16 skb.data (thoff + off_dest) ∧
      load16 (nf_flow_snat_port flow skb thoff IPPROTO_TCP FLOW_OFFLOAD_DIR_ORIGINAL).1.data
          (thoff + off_tcp_check) =
        (if skb.ip_summed ≠ CHECKSUM_PARTIAL then
          csum_replace4 (load16 skb.data (thoff + off_tcp_check))
            (load16 skb.data (thoff + off_source))
            (flow.tuplehash FLOW_OFFLOAD_DIR_REPLY).tuple.dst_port
        else
          not16 (csum_fold (csum_add (csum_sub
            (csum_unfold (load16 skb.data (thoff + off_tcp_check)))
            (load16 skb.data (thoff + off_source)))
            (flow.tuplehash FLOW_OFFLOAD_DIR_REPLY).tuple.dst_port)))) ∧
    ((nf_flow_snat_port flow skb thoff IPPROTO_TCP FLOW_OFFLOAD_DIR_REPLY).2 = 0 ∧
      load16 (nf_flow_snat_port flow skb thoff IPPROTO_TCP FLOW_OFFLOAD_DIR_REPLY).1.data
          (thoff + off_dest) = (flow.tuplehash FLOW_OFFLOAD_DIR_ORIGINAL).tuple.src_port ∧
      load16 (nf_flow_snat_port flow skb thoff IPPROTO_TCP FLOW_OFFLOAD_DIR_REPLY).1.data
          (thoff + off_source) = load16 skb.data (thoff + off_source) ∧
      load16 (nf_flow_snat_port flow skb thoff IPPROTO_TCP FLOW_OFFLOAD_DIR_REPLY).1.data
          (thoff + off_tcp_check) =
        (if skb.ip_summed ≠ CHECKSUM_PARTIAL then
          csum_replace4 (load16 skb.data (thoff + off_tcp_check))
            (load16 skb.data (thoff + off_dest))
            (flow.tuplehash FLOW_OFFLOAD_DIR_ORIGINAL).tuple.src_port
        else
          not16 (csum_fold (csum_add (csum_sub
            (csum_unfold (load16 skb.data (thoff + off_tcp_check)))
            (load16 skb.data (thoff + off_dest)))
            (flow.tuplehash FLOW_OFFLOAD_DIR_ORIGINAL).tuple.src_port)))) := by
  have h4 : thoff + sizeof_flow_ports ≤ skb.len := by
    simp only [sizeof_flow_ports, sizeof_tcphdr] at hlen ⊢; omega
  constructor
  · rw [nf_flow_snat_port_original flow skb thoff IPPROTO_TCP (u32_le_of_le _ _ h4) hw,
      nf_flow_nat_port_tcp_eq _ _ _ _ (by exact hlen) (by exact hw)]
    exact ⟨rfl, tcp_rewrite_fields skb thoff off_source off_dest _ hr (Or.inl ⟨rfl, rfl⟩)⟩
  · rw [nf_flow_snat_port_reply flow skb thoff IPPROTO_TCP (u32_le_of_le _ _ h4) hw,
      nf_flow_nat_port_tcp_eq _ _ _ _ (by exact hlen) (by exact hw)]
    exact ⟨rfl, tcp_rewrite_fields skb thoff off_dest off_source _ ho (Or.inr ⟨rfl, rfl⟩)⟩

/-- Witness for C5: the third scenario of the spec, a 40-byte TCP packet with
source port 1000 under the source NAT flow, whose new source port is 54321. -/
theorem nf_flow_snat_port_tcp_witness :
    (nf_flow_snat_port snat_flow (sample_skb 40 CHECKSUM_NONE) 0 IPPROTO_TCP
        FLOW_OFFLOAD_DIR_ORIGINAL).2 = 0 ∧
      load16 (nf_flow_snat_port snat_flow (sample_skb 40 CHECKSUM_NONE) 0 IPPROTO_TCP
          FLOW_OFFLOAD_DIR_ORIGINAL).1.data (0 + off_source) = 54321 ∧
      load16 (nf_flow_snat_port snat_flow (sample_skb 40 CHECKSUM_NONE) 0 IPPROTO_TCP
          FLOW_OFFLOAD_DIR_ORIGINAL).1.data (0 + off_dest) = 80 ∧
      load16 (nf_flow_snat_port snat_flow (sample_skb 40 CHECKSUM_NONE) 0 IPPROTO_TCP
          FLOW_OFFLOAD_DIR_ORIGINAL).1.data (0 + off_tcp_check) =
        csum_replace4 0x1234 1000 54321 :=
  (nf_flow_snat_port_tcp snat_flow (sample_skb 40 CHECKSUM_NONE) 0 (by decide) rfl
    (by decide) (by decide)).1

theorem load16_congr (d1 d2 : Nat → Nat) (o : Nat) (h0 : d1 o = d2 o)
    (h1 : d1 (o + 1) = d2 (o + 1)) : load16 d1 o = load16 d2 o := by
  simp [load16, h0, h1]

theorem inet_proto_csum_replace2_data_other (skb : sk_buff) (off frm to_ i : Nat)
    (h0 : i ≠ off) (h1 : i ≠ off + 1) :
    (inet_proto_csum_replace2 skb off frm to_ true).data i = skb.data i := by
  rw [inet_proto_csum_replace2_data, store16_other _ _ _ _ h0 h1]

theorem nf_flow_nat_port_tcp_data_other (skb : sk_buff) (thoff port new_port i : Nat)
    (h0 : i ≠ thoff + off_tcp_check) (h1 : i ≠ thoff + off_tcp_check + 1) :
    (nf_flow_nat_port_tcp skb thoff port new_port).1.data i = skb.data i := by
  unfold nf_flow_nat_port_tcp
  split
  · rfl
  · exact inet_proto_csum_replace2_data_other _ _ _ _ _ h0 h1

theorem nf_flow_nat_port_udp_data_other (skb : sk_buff) (thoff port new_port i : Nat)
    (h0 : i ≠ thoff + off_udp_check) (h1 : i ≠ thoff + off_udp_check + 1) :
    (nf_flow_nat_port_udp skb thoff port new_port).1.data i = skb.data i := by
  unfold nf_flow_nat_port_udp
  dsimp only
  split
  · rfl
  · split
    · split
      · simp only [skb_store16]
        rw [store16_other _ _ _ _ h0 h1]
        exact inet_proto_csum_replace2_data_other _ _ _ _ _ h0 h1
      · exact inet_proto_csum_replace2_data_other _ _ _ _ _ h0 h1
    · rfl

theorem nf_flow_nat_port_udp_ret (skb : sk_buff) (thoff port new_port : Nat)
    (hlen : thoff + sizeof_udphdr ≤ skb.len) (hw : skb.cow_fails = false) :
    (nf_flow_nat_port_udp skb thoff port new_port).2 = 0 := by
  have hlen1 := u32_le_of_le _ _ hlen
  unfold nf_flow_nat_port_udp
  simp only [pskb_may_pull, skb_try_make_writable, hlen1, hw, decide_True, Bool.not_true,
    Bool.or_self, Bool.false_eq_true, if_false]
  repeat' split
  all_goals rfl

theorem nf_flow_nat_port_udp_eq (skb : sk_buff) (thoff port new_port : Nat)
    (hlen : thoff + sizeof_udphdr ≤ skb.len) (hw : skb.cow_fails = false) :
    nf_flow_nat_port skb thoff IPPROTO_UDP port new_port =
      ((nf_flow_nat_port_udp skb thoff port new_port).1, 0) := by
  have hne : IPPROTO_UDP ≠ IPPROTO_TCP := by decide
  simp [nf_flow_nat_port, hne, nf_flow_nat_port_udp_ret skb thoff port new_port hlen hw]

theorem nf_flow_nat_port_tcp_eq2 (skb : sk_buff) (thoff port new_port : Nat)
    (hlen : thoff + sizeof_tcphdr ≤ skb.len) (hw : skb.cow_fails = false) :
    nf_flow_nat_port skb thoff IPPROTO_TCP port new_port =
      ((nf_flow_nat_port_tcp skb thoff port new_port).1, 0) := by
  rw [nf_flow_nat_port_tcp_eq skb thoff port new_port hlen hw,
    nf_flow_nat_port_tcp_ok skb thoff port new_port hlen hw]

/-- The two ports after a port store at `poff` followed by the fix-up of a TCP
or UDP packet: the stored port is read back, the other port is as before. -/
theorem l4_rewrite_ports (skb : sk_buff) (thoff protocol poff qoff old new_port : Nat)
    (hproto : protocol = IPPROTO_TCP ∨ protocol = IPPROTO_UDP)
    (hnew : new_port < 2 ^ 16)
    (hp : (poff = off_source ∧ qoff = off_dest) ∨ (poff = off_dest ∧ qoff = off_source)) :
    load16 (if protocol = IPPROTO_TCP
        then nf_flow_nat_port_tcp (skb_store16 skb (thoff + poff) new_port) thoff old new_port
        else nf_flow_nat_port_udp (skb_store16 skb (thoff + poff) new_port) thoff old new_port).1.data
        (thoff + poff) = new_port ∧
    load16 (if protocol = IPPROTO_TCP
        then nf_flow_nat_port_tcp (skb_store16 skb (thoff + poff) new_port) thoff old new_port
        else nf_flow_nat_port_udp (skb_store16 skb (thoff + poff) new_port) thoff old new_port).1.data
        (thoff + qoff) = load16 skb.data (thoff + qoff) := by
  have hnew2 : new_port % 65536 = new_port := Nat.mod_eq_of_lt hnew
  have hpq : poff ≤ 2 ∧ qoff ≤ 2 ∧ (qoff + 2 ≤ poff ∨ poff + 2 ≤ qoff) := by
    rcases hp with ⟨h, h1⟩ | ⟨h, h1⟩ <;> simp only [h, h1, off_source, off_dest] <;> omega
  have key : ∀ i, i < thoff + 4 →
      (if protocol = IPPROTO_TCP
        then nf_flow_nat_port_tcp (skb_store16 skb (thoff + poff) new_port) thoff old new_port
        else nf_flow_nat_port_udp (skb_store16 skb (thoff + poff) new_port) thoff old new_port).1.data
        i = store16 skb.data (thoff + poff) new_port i := by
    intro i hi
    rcases hproto with h | h
    · rw [if_pos h]
      apply nf_flow_nat_port_tcp_data_other <;> simp only [off_tcp_check] <;> omega
    · have hne : protocol ≠ IPPROTO_TCP := by rw [h]; decide
      rw [if_neg hne]
      apply nf_flow_nat_port_udp_data_other <;> simp only [off_udp_check] <;> omega
  constructor
  · rw [load16_congr _ _ _ (key _ (by omega)) (key _ (by omega)), load16_store16_same, hnew2]
  · rw [load16_congr _ _ _ (key _ (by omega)) (key _ (by omega)), load16_store16_disjoint]
    omega

/-- C6: `nf_flow_dnat_port` mirrors `nf_flow_snat_port`. On a TCP or UDP packet
with a usable transport header, in direction ORIGINAL it stores the `src_port`
of the REPLY tuple as destination port and leaves the source port, in direction
REPLY it stores the `dst_port` of the ORIGINAL tuple as source port and leaves
the destination port; the resulting packet is the one the transport fix-up
produces when run with the overwritten port as old value and the stored port
as new value, and 0 is returned. -/
theorem nf_flow_dnat_port_mirror (flow : flow_offload) (skb : sk_buff) (thoff protocol : Nat)
    (hhdr : (protocol = IPPROTO_TCP ∧ thoff + sizeof_tcphdr ≤ skb.len) ∨
      (protocol = IPPROTO_UDP ∧ thoff + sizeof_udphdr ≤ skb.len))
    (hw : skb.cow_fails = false)
    (hr : (flow.tuplehash FLOW_OFFLOAD_DIR_REPLY).tuple.src_port < 2 ^ 16)
    (ho : (flow.tuplehash FLOW_OFFLOAD_DIR_ORIGINAL).tuple.dst_port < 2 ^ 16) :
    (nf_flow_dnat_port flow skb thoff protocol FLOW_OFFLOAD_DIR_ORIGINAL =
        ((if protocol = IPPROTO_TCP
          then nf_flow_nat_port_tcp
            (skb_store16 skb (thoff + off_dest) (flow.tuplehash FLOW_OFFLOAD_DIR_REPLY).tuple.src_port)
            thoff (load16 skb.data (thoff + off_dest))
            (flow.tuplehash FLOW_OFFLOAD_DIR_REPLY).tuple.src_port
          else nf_flow_nat_port_udp
            (skb_store16 skb (thoff + off_dest) (flow.tuplehash FLOW_OFFLOAD_DIR_REPLY).tuple.src_port)
            thoff (load16 skb.data (thoff + off_dest))
            (flow.tuplehash FLOW_OFFLOAD_DIR_REPLY).tuple.src_port).1, 0) ∧
      load16 (nf_flow_dnat_port flow skb thoff protocol FLOW_OFFLOAD_DIR_ORIGINAL).1.data
          (thoff + off_dest) = (flow.tuplehash FLOW_OFFLOAD_DIR_REPLY).tuple.src_port ∧
      load16 (nf_flow_dnat_port flow skb thoff protocol FLOW_OFFLOAD_DIR_ORIGINAL).1.data
          (thoff + off_source) = load16 skb.data (thoff + off_source)) ∧
    (nf_flow_dnat_port flow skb thoff protocol FLOW_OFFLOAD_DIR_REPLY =
        ((if protocol = IPPROTO_TCP
          then nf_flow_nat_port_tcp
            (skb_store16 skb (thoff + off_source) (flow.tuplehash FLOW_OFFLOAD_DIR_ORIGINAL).tuple.dst_port)
            thoff (load16 skb.data (thoff + off_source))
            (flow.tuplehash FLOW_OFFLOAD_DIR_ORIGINAL).tuple.dst_port
          else nf_flow_nat_port_udp
            (skb_store16 skb (thoff + off_source) (flow.tuplehash FLOW_OFFLOAD_DIR_ORIGINAL).tuple.dst_port)
            thoff (load16 skb.data (thoff + off_source))
            (flow.tuplehash FLOW_OFFLOAD_DIR_ORIGINAL).tuple.dst_port).1, 0) ∧
      load16 (nf_flow_dnat_port flow skb thoff protocol FLOW_OFFLOAD_DIR_REPLY).1.data
          (thoff + off_source) = (flow.tuplehash FLOW_OFFLOAD_DIR_ORIGINAL).tuple.dst_port ∧
      load16 (nf_flow_dnat_port flow skb thoff protocol FLOW_OFFLOAD_DIR_REPLY).1.data
          (thoff + off_dest) = load16 skb.data (thoff + off_dest)) := by
  have h4 : thoff + sizeof_flow_ports ≤ skb.len := by
    simp only [sizeof_flow_ports, sizeof_tcphdr, sizeof_udphdr] at hhdr ⊢; omega
  have hproto : protocol = IPPROTO_TCP ∨ protocol = IPPROTO_UDP :=
    hhdr.elim (fun h => Or.inl h.1) (fun h => Or.inr h.1)
  have hfix : ∀ (poff old new_port : Nat),
      nf_flow_nat_port (skb_store16 skb (thoff + poff) new_port) thoff protocol old new_port =
        ((if protocol = IPPROTO_TCP
          then nf_flow_nat_port_tcp (skb_store16 skb (thoff + poff) new_port) thoff old new_port
          else nf_flow_nat_port_udp (skb_store16 skb (thoff + poff) new_port) thoff old new_port).1,
          0) := by
    intro poff old new_port
    rcases hhdr with ⟨h, hl⟩ | ⟨h, hl⟩
    · rw [h, if_pos rfl]
      exact nf_flow_nat_port_tcp_eq2 _ _ _ _ (by exact hl) (by exact hw)
    · have hne : IPPROTO_UDP ≠ IPPROTO_TCP := by decide
      rw [h, if_neg hne]
      exact nf_flow_nat_port_udp_eq _ _ _ _ (by exact hl) (by exact hw)
  constructor
  · rw [nf_flow_dnat_port_original flow skb thoff protocol (u32_le_of_le _ _ h4) hw, hfix]
    exact ⟨rfl, l4_rewrite_ports skb thoff protocol off_dest off_source _ _ hproto hr
      (Or.inr ⟨rfl, rfl⟩)⟩
  · rw [nf_flow_dnat_port_reply flow skb thoff protocol (u32_le_of_le _ _ h4) hw, hfix]
    exact ⟨rfl, l4_rewrite_ports skb thoff protocol off_source off_dest _ _ hproto ho
      (Or.inl ⟨rfl, rfl⟩)⟩

/-- Witness for C6: a 40-byte TCP packet to port 80 under the destination NAT
flow; in direction REPLY the source port becomes 80, the `dst_port` of the
ORIGINAL tuple, and the destination port stays 80. -/
theorem nf_flow_dnat_port_mirror_witness :
    load16 (nf_flow_dnat_port dnat_flow (sample_skb 40 CHECKSUM_NONE) 0 IPPROTO_TCP
        FLOW_OFFLOAD_DIR_ORIGINAL).1.data (0 + off_dest) = 8080 ∧
    load16 (nf_flow_dnat_port dnat_flow (sample_skb 40 CHECKSUM_NONE) 0 IPPROTO_TCP
        FLOW_OFFLOAD_DIR_ORIGINAL).1.data (0 + off_source) = 1000 ∧
    load16 (nf_flow_dnat_port dnat_flow (sample_skb 40 CHECKSUM_NONE) 0 IPPROTO_TCP
        FLOW_OFFLOAD_DIR_REPLY).1.data (0 + off_source) = 80 ∧
    load16 (nf_flow_dnat_port dnat_flow (sample_skb 40 CHECKSUM_NONE) 0 IPPROTO_TCP
        FLOW_OFFLOAD_DIR_REPLY).1.data (0 + off_dest) = 80 :=
  ⟨(nf_flow_dnat_port_mirror dnat_flow (sample_skb 40 CHECKSUM_NONE) 0 IPPROTO_TCP
      (Or.inl ⟨rfl, by decide⟩) rfl (by decide) (by decide)).1.2.1,
    (nf_flow_dnat_port_mirror dnat_flow (sample_skb 40 CHECKSUM_NONE) 0 IPPROTO_TCP
      (Or.inl ⟨rfl, by decide⟩) rfl (by decide) (by decide)).1.2.2,
    (nf_flow_dnat_port_mirror dnat_flow (sample_skb 40 CHECKSUM_NONE) 0 IPPROTO_TCP
      (Or.inl ⟨rfl, by decide⟩) rfl (by decide) (by decide)).2.2.1,
    (nf_flow_dnat_port_mirror dnat_flow (sample_skb 40 CHECKSUM_NONE) 0 IPPROTO_TCP
      (Or.inl ⟨rfl, by decide⟩) rfl (by decide) (by decide)).2.2.2⟩

/-- C7, evaluated on the code: a packet that holds the 4-byte port pair but not
the whole transport header is not left alone. `nf_flow_snat_port` and
`nf_flow_dnat_port` store the new port before the header check of the fix-up
fails and then return `NF_DROP`, which is 0, the success value. Shown for every
TCP packet in direction ORIGINAL that passes the check on the port pair and
fails the check on the TCP header, both with the 32-bit length the code hands
to the packet helpers, and on 10-byte TCP and 6-byte UDP sample packets, whose
source port 1000 becomes 54321 and whose destination port 80 becomes 8080. -/
theorem nf_flow_nat_port_short_header_mutates :
    (∀ (flow : flow_offload) (skb : sk_buff) (thoff : Nat),
      u32 (thoff + sizeof_flow_ports) ≤ skb.len → skb.len < u32 (thoff + sizeof_tcphdr) →
      skb.cow_fails = false →
      nf_flow_snat_port flow skb thoff IPPROTO_TCP FLOW_OFFLOAD_DIR_ORIGINAL =
        (skb_store16 skb (thoff + off_source)
          (flow.tuplehash FLOW_OFFLOAD_DIR_REPLY).tuple.dst_port, NF_DROP)) ∧
    NF_DROP = 0 ∧
    ((sample_skb 10 CHECKSUM_NONE).len < 0 + sizeof_tcphdr ∧
      load16 (sample_skb 10 CHECKSUM_NONE).data (0 + off_source) = 1000 ∧
      (nf_flow_snat_port snat_flow (sample_skb 10 CHECKSUM_NONE) 0 IPPROTO_TCP
        FLOW_OFFLOAD_DIR_ORIGINAL).2 = 0 ∧
      load16 (nf_flow_snat_port snat_flow (sample_skb 10 CHECKSUM_NONE) 0 IPPROTO_TCP
        FLOW_OFFLOAD_DIR_ORIGINAL).1.data (0 + off_source) = 54321) ∧
    (load16 (sample_skb 10 CHECKSUM_NONE).data (0 + off_dest) = 80 ∧
      (nf_flow_dnat_port dnat_flow (sample_skb 10 CHECKSUM_NONE) 0 IPPROTO_TCP
        FLOW_OFFLOAD_DIR_ORIGINAL).2 = 0 ∧
      load16 (nf_flow_dnat_port dnat_flow (sample_skb 10 CHECKSUM_NONE) 0 IPPROTO_TCP
        FLOW_OFFLOAD_DIR_ORIGINAL).1.data (0 + off_dest) = 8080) ∧
    ((sample_skb 6 CHECKSUM_NONE).len < 0 + sizeof_udphdr ∧
      (nf_flow_snat_port snat_flow (sample_skb 6 CHECKSUM_NONE) 0 IPPROTO_UDP
        FLOW_OFFLOAD_DIR_ORIGINAL).2 = 0 ∧
      load16 (nf_flow_snat_port snat_flow (sample_skb 6 CHECKSUM_NONE) 0 IPPROTO_UDP
        FLOW_OFFLOAD_DIR_ORIGINAL).1.data (0 + off_source) = 54321) := by
  refine ⟨?_, rfl, by decide, by decide, by decide⟩
  intro flow skb thoff h4 h20 hw
  rw [nf_flow_snat_port_original flow skb thoff IPPROTO_TCP h4 hw]
  simp [nf_flow_nat_port, nf_flow_nat_port_tcp_short _ thoff _ _
    (show (skb_store16 skb (thoff + off_source)
      (flow.tuplehash FLOW_OFFLOAD_DIR_REPLY).tuple.dst_port).len < u32 (thoff + sizeof_tcphdr)
      from h20), NF_DROP]

/-! ## UDP checksum fix-up -/

/-- C8: on a UDP packet with a usable header the fix-up `nf_flow_nat_port_udp`,
which `nf_flow_nat_port` runs for protocol UDP, returns 0 and: if the checksum
field is 0 and the packet is not `CHECKSUM_PARTIAL`, the packet is unchanged
and the field stays 0; otherwise the field becomes the incremental replace of
the old port by the new port, stored as 0xFFFF when that value is 0, so that
the stored checksum is not 0. -/
theorem nf_flow_nat_port_udp_checksum (skb : sk_buff) (thoff port new_port : Nat)
    (hlen : thoff + sizeof_udphdr ≤ skb.len) (hw : skb.cow_fails = false) :
    nf_flow_nat_port skb thoff IPPROTO_UDP port new_port =
      ((nf_flow_nat_port_udp skb thoff port new_port).1, 0) ∧
    (nf_flow_nat_port_udp skb thoff port new_port).2 = 0 ∧
    ((load16 skb.data (thoff + off_udp_check) = 0 ∧ skb.ip_summed ≠ CHECKSUM_PARTIAL) →
      (nf_flow_nat_port_udp skb thoff port new_port).1 = skb ∧
      load16 (nf_flow_nat_port_udp skb thoff port new_port).1.data (thoff + off_udp_check) = 0) ∧
    (¬ (load16 skb.data (thoff + off_udp_check) = 0 ∧ skb.ip_summed ≠ CHECKSUM_PARTIAL) →
      load16 (nf_flow_nat_port_udp skb thoff port new_port).1.data (thoff + off_udp_check) =
        (if (if skb.ip_summed ≠ CHECKSUM_PARTIAL then
              csum_replace4 (load16 skb.data (thoff + off_udp_check))
                (port % 2 ^ 16) (new_port % 2 ^ 16)
            else
              not16 (csum_fold (csum_add (csum_sub
                (csum_unfold (load16 skb.data (thoff + off_udp_check)))
                (port % 2 ^ 16)) (new_port % 2 ^ 16)))) = 0
          then CSUM_MANGLED_0
          else
            (if skb.ip_summed ≠ CHECKSUM_PARTIAL then
              csum_replace4 (load16 skb.data (thoff + off_udp_check))
                (port % 2 ^ 16) (new_port % 2 ^ 16)
            else
              not16 (csum_fold (csum_add (csum_sub
                (csum_unfold (load16 skb.data (thoff + off_udp_check)))
                (port % 2 ^ 16)) (new_port % 2 ^ 16))))) ∧
      load16 (nf_flow_nat_port_udp skb thoff port new_port).1.data (thoff + off_udp_check) ≠ 0) := by
  refine ⟨nf_flow_nat_port_udp_eq skb thoff port new_port hlen hw,
    nf_flow_nat_port_udp_ret skb thoff port new_port hlen hw, ?_, ?_⟩
  · rintro ⟨hc, hp⟩
    have hun : nf_flow_nat_port_udp skb thoff port new_port = (skb, 0) := by
      simp [nf_flow_nat_port_udp, pskb_may_pull, skb_try_make_writable, u32_le_of_le _ _ hlen,
        hw, hc, hp]
    rw [hun]
    exact ⟨rfl, hc⟩
  · intro hcond
    have hcond2 : load16 skb.data (thoff + off_udp_check) ≠ 0 ∨
        skb.ip_summed = CHECKSUM_PARTIAL := by
      by_cases h : load16 skb.data (thoff + off_udp_check) = 0
      · right
        by_contra hp
        exact hcond ⟨h, hp⟩
      · exact Or.inl h
    have hv := inet_proto_csum_replace2_value_lt skb.ip_summed
      (load16 skb.data (thoff + off_udp_check)) (port % 2 ^ 16) (new_port % 2 ^ 16)
    have hload : load16 (inet_proto_csum_replace2 skb (thoff + off_udp_check) port new_port
        true).data (thoff + off_udp_check) =
        (if skb.ip_summed ≠ CHECKSUM_PARTIAL then
          csum_replace4 (load16 skb.data (thoff + off_udp_check))
            (port % 2 ^ 16) (new_port % 2 ^ 16)
        else
          not16 (csum_fold (csum_add (csum_sub
            (csum_unfold (load16 skb.data (thoff + off_udp_check)))
            (port % 2 ^ 16)) (new_port % 2 ^ 16)))) := by
      rw [inet_proto_csum_replace2_data, load16_store16_same]
      exact Nat.mod_eq_of_lt hv
    have hun : nf_flow_nat_port_udp skb thoff port new_port =
        (if load16 (inet_proto_csum_replace2 skb (thoff + off_udp_check) port new_port
            true).data (thoff + off_udp_check) = 0
          then (skb_store16 (inet_proto_csum_replace2 skb (thoff + off_udp_check) port
            new_port true) (thoff + off_udp_check) CSUM_MANGLED_0, 0)
          else (inet_proto_csum_replace2 skb (thoff + off_udp_check) port new_port true, 0)) := by
      have hlen1 := u32_le_of_le _ _ hlen
      unfold nf_flow_nat_port_udp
      simp only [pskb_may_pull, skb_try_make_writable, hlen1, hw, decide_True, Bool.not_true,
        Bool.or_self, Bool.false_eq_true, if_false, hcond2, if_true]
    rw [hun]
    by_cases hz : load16 (inet_proto_csum_replace2 skb (thoff + off_udp_check) port new_port
        true).data (thoff + off_udp_check) = 0
    · rw [if_pos hz]
      rw [hload] at hz
      rw [if_pos hz]
      simp only [skb_store16]
      rw [load16_store16_same]
      exact ⟨by decide, by decide⟩
    · rw [if_neg hz]
      refine ⟨?_, hz⟩
      rw [hload] at hz ⊢
      rw [if_neg hz]

/-- Witness for C8: the fourth scenario of the spec, an 8-byte UDP header with
checksum 0x1234, fixed up for the port change 1000 to 54321. -/
theorem nf_flow_nat_port_udp_checksum_witness :
    (load16 (nf_flow_nat_port_udp (sample_skb 8 CHECKSUM_NONE) 0 1000 54321).1.data
        (0 + off_udp_check) = csum_replace4 0x1234 1000 54321 ∧
      load16 (nf_flow_nat_port_udp (sample_skb 8 CHECKSUM_NONE) 0 1000 54321).1.data
        (0 + off_udp_check) ≠ 0) ∧
    (csum_replace4 0xffff 5 5 = 0 ∧
      load16 (nf_flow_nat_port_udp ones_skb 0 5 5).1.data (0 + off_udp_check) = 0xffff) :=
  ⟨(nf_flow_nat_port_udp_checksum (sample_skb 8 CHECKSUM_NONE) 0 1000 54321 (by decide) rfl).2.2.2
      (by decide),
    by decide,
    ((nf_flow_nat_port_udp_checksum ones_skb 0 5 5 (by decide) rfl).2.2.2 (by decide)).1⟩

/-! ## Protocols other than TCP and UDP -/

/-- C9, as stated, fails: for protocol ICMP, neither TCP nor UDP, on a 10-byte
packet with source port field 1000 under the source NAT flow,
`nf_flow_snat_port` returns 0 but the source port field now reads 54321; and on
a 3-byte packet it returns -1, not 0. -/
theorem nf_flow_snat_port_other_proto_counterexample :
    (IPPROTO_ICMP ≠ IPPROTO_TCP ∧ IPPROTO_ICMP ≠ IPPROTO_UDP) ∧
    (nf_flow_snat_port snat_flow (sample_skb 10 CHECKSUM_NONE) 0 IPPROTO_ICMP
      FLOW_OFFLOAD_DIR_ORIGINAL).2 = 0 ∧
    load16 (sample_skb 10 CHECKSUM_NONE).data (0 + off_source) = 1000 ∧
    load16 (nf_flow_snat_port snat_flow (sample_skb 10 CHECKSUM_NONE) 0 IPPROTO_ICMP
      FLOW_OFFLOAD_DIR_ORIGINAL).1.data (0 + off_source) = 54321 ∧
    (nf_flow_snat_port snat_flow (sample_skb 3 CHECKSUM_NONE) 0 IPPROTO_ICMP
      FLOW_OFFLOAD_DIR_ORIGINAL).2 = -1 := by
  decide

/-- C9, amended: when the protocol argument is neither TCP nor UDP,
`nf_flow_snat_port` and `nf_flow_dnat_port` run no checksum fix-up. If the
check on the port pair passes, that is, the packet holds `thoff + 4` bytes,
the sum taken modulo 2^32 as the code hands it to the packet helpers, and is
writable, they return 0 and the packet is the input with the one port field
overwritten that they overwrite for TCP and UDP, nothing else being touched;
otherwise they return -1 and leave the packet unchanged. For `thoff + 4`
below 2^32 the check passes exactly when the 4-byte port pair at `thoff` is
present; for `thoff` within 4 of 2^32 the length wraps, as on the 10-byte
sample packet at offset 2^32 - 4, where the call returns 0. -/
theorem nf_flow_nat_port_other_proto (flow : flow_offload) (skb : sk_buff)
    (thoff protocol : Nat) (htcp : protocol ≠ IPPROTO_TCP) (hudp : protocol ≠ IPPROTO_UDP) :
    ((u32 (thoff + sizeof_flow_ports) ≤ skb.len ∧ skb.cow_fails = false) →
      nf_flow_snat_port flow skb thoff protocol FLOW_OFFLOAD_DIR_ORIGINAL =
        (skb_store16 skb (thoff + off_source)
          (flow.tuplehash FLOW_OFFLOAD_DIR_REPLY).tuple.dst_port, 0) ∧
      nf_flow_snat_port flow skb thoff protocol FLOW_OFFLOAD_DIR_REPLY =
        (skb_store16 skb (thoff + off_dest)
          (flow.tuplehash FLOW_OFFLOAD_DIR_ORIGINAL).tuple.src_port, 0) ∧
      nf_flow_dnat_port flow skb thoff protocol FLOW_OFFLOAD_DIR_ORIGINAL =
        (skb_store16 skb (thoff + off_dest)
          (flow.tuplehash FLOW_OFFLOAD_DIR_REPLY).tuple.src_port, 0) ∧
      nf_flow_dnat_port flow skb thoff protocol FLOW_OFFLOAD_DIR_REPLY =
        (skb_store16 skb (thoff + off_source)
          (flow.tuplehash FLOW_OFFLOAD_DIR_ORIGINAL).tuple.dst_port, 0)) ∧
    (¬ (u32 (thoff + sizeof_flow_ports) ≤ skb.len ∧ skb.cow_fails = false) →
      ∀ dir, nf_flow_snat_port flow skb thoff protocol dir = (skb, -1) ∧
        nf_flow_dnat_port flow skb thoff protocol dir = (skb, -1)) ∧
    (thoff + sizeof_flow_ports < 2 ^ 32 →
      (u32 (thoff + sizeof_flow_ports) ≤ skb.len ↔ thoff + sizeof_flow_ports ≤ skb.len)) ∧
    (∀ (off v i : Nat), i ≠ off → i ≠ off + 1 →
      (skb_store16 skb off v).data i = skb.data i) ∧
    (∀ (off v : Nat), (skb_store16 skb off v).len = skb.len ∧
      (skb_store16 skb off v).ip_summed = skb.ip_summed ∧
      (skb_store16 skb off v).csum = skb.csum) ∧
    (nf_flow_snat_port snat_flow (sample_skb 10 CHECKSUM_NONE) (2 ^ 32 - 4) IPPROTO_ICMP
      FLOW_OFFLOAD_DIR_ORIGINAL).2 = 0 := by
  refine ⟨?_, ?_, ?_, ?_, fun _ _ => ⟨rfl, rfl, rfl⟩, by decide⟩
  · rintro ⟨hlen, hw⟩
    rw [nf_flow_snat_port_original flow skb thoff protocol hlen hw,
      nf_flow_snat_port_reply flow skb thoff protocol hlen hw,
      nf_flow_dnat_port_original flow skb thoff protocol hlen hw,
      nf_flow_dnat_port_reply flow skb thoff protocol hlen hw]
    simp [nf_flow_nat_port, htcp, hudp]
  · intro h dir
    have hfail : (!pskb_may_pull skb (u32 (thoff + sizeof_flow_ports)) ||
        skb_try_make_writable skb (u32 (thoff + sizeof_flow_ports))) = true := by
      simp only [pskb_may_pull, skb_try_make_writable]
      by_cases hl : u32 (thoff + sizeof_flow_ports) ≤ skb.len
      · have hw : skb.cow_fails = true := by
          cases hcf : skb.cow_fails
          · exact absurd ⟨hl, hcf⟩ h
          · rfl
        simp [hw]
      · simp [hl]
    simp [nf_flow_snat_port, nf_flow_dnat_port, hfail]
  · intro hb
    unfold u32
    rw [Nat.mod_eq_of_lt hb]
  · intro off v i h0 h1
    simp only [skb_store16]
    exact store16_other _ _ _ _ h0 h1

/-- Witness for C9: protocol ICMP on the 10-byte sample packet. -/
theorem nf_flow_nat_port_other_proto_witness :
    nf_flow_snat_port snat_flow (sample_skb 10 CHECKSUM_NONE) 0 IPPROTO_ICMP
        FLOW_OFFLOAD_DIR_ORIGINAL =
      (skb_store16 (sample_skb 10 CHECKSUM_NONE) (0 + off_source)
        (snat_flow.tuplehash FLOW_OFFLOAD_DIR_REPLY).tuple.dst_port, 0) :=
  ((nf_flow_nat_port_other_proto snat_flow (sample_skb 10 CHECKSUM_NONE) 0 IPPROTO_ICMP
    (by decide) (by decide)).1 ⟨by decide, rfl⟩).1

/-! ## Hardware-sink slot -/

/-- C10: the hardware-sink slot is a one-element state machine.
`nf_flow_table_hw_register` returns `-EBUSY` and leaves the state unchanged
exactly when the slot is occupied, otherwise it returns 0 and the slot holds
the backend; from the empty slot, register followed by unregister of the same
backend leaves the slot empty, without a warning, and a further register
returns 0; while a backend is registered every further register is refused
and keeps it; and in every state reachable from an empty slot the slot holds
at most one backend. -/
theorem nf_flow_table_hw_slot (s : State) (b : Nat) :
    ((nf_flow_table_hw_register s b = (s, -EBUSY)) ↔ s.nf_flow_table_hw_hook ≠ 0) ∧
    (s.nf_flow_table_hw_hook = 0 →
      (nf_flow_table_hw_register s b).2 = 0 ∧
      (nf_flow_table_hw_register s b).1.nf_flow_table_hw_hook = b) ∧
    (s.nf_flow_table_hw_hook = 0 →
      (nf_flow_table_hw_unregister (nf_flow_table_hw_register s b).1 b).nf_flow_table_hw_hook = 0 ∧
      (nf_flow_table_hw_unregister (nf_flow_table_hw_register s b).1 b).warnings = s.warnings ∧
      (nf_flow_table_hw_register
        (nf_flow_table_hw_unregister (nf_flow_table_hw_register s b).1 b) b).2 = 0) ∧
    (s.nf_flow_table_hw_hook ≠ 0 → ∀ c,
      (nf_flow_table_hw_register s c).2 = -EBUSY ∧
      (nf_flow_table_hw_register s c).1.nf_flow_table_hw_hook = s.nf_flow_table_hw_hook) ∧
    (hw_reachable s → ∀ b1 b2,
      (b1 ≠ 0 ∧ s.nf_flow_table_hw_hook = b1) → (b2 ≠ 0 ∧ s.nf_flow_table_hw_hook = b2) →
      b1 = b2) := by
  refine ⟨⟨?_, ?_⟩, ?_, ?_, ?_, ?_⟩
  · intro h
    by_contra h0
    have h1 : (nf_flow_table_hw_register s b).2 = 0 := by simp [nf_flow_table_hw_register, h0]
    rw [h] at h1
    simp [EBUSY] at h1
  · intro h
    simp [nf_flow_table_hw_register, h]
  · intro h
    simp [nf_flow_table_hw_register, h]
  · intro h
    simp [nf_flow_table_hw_register, nf_flow_table_hw_unregister, h]
  · intro h c
    simp [nf_flow_table_hw_register, h]
  · rintro _ b1 b2 ⟨_, h1⟩ ⟨_, h2⟩
    rw [← h1, ← h2]

/-- Witness for C10: from the empty slot backend 5 registers, a second backend 6
is refused, and after unregistering 5 the slot is empty and 5 registers
again. -/
theorem nf_flow_table_hw_slot_witness :
    ((nf_flow_table_hw_register (hw_state 0) 5).2 = 0 ∧
      (nf_flow_table_hw_register (hw_state 0) 5).1.nf_flow_table_hw_hook = 5) ∧
    ((nf_flow_table_hw_register (hw_state 5) 6).2 = -EBUSY ∧
      (nf_flow_table_hw_register (hw_state 5) 6).1.nf_flow_table_hw_hook =
        (hw_state 5).nf_flow_table_hw_hook) ∧
    ((nf_flow_table_hw_unregister (nf_flow_table_hw_register (hw_state 0) 5).1
        5).nf_flow_table_hw_hook = 0 ∧
      (nf_flow_table_hw_unregister (nf_flow_table_hw_register (hw_state 0) 5).1 5).warnings =
        (hw_state 0).warnings ∧
      (nf_flow_table_hw_register
        (nf_flow_table_hw_unregister (nf_flow_table_hw_register (hw_state 0) 5).1 5) 5).2 = 0) :=
  ⟨(nf_flow_table_hw_slot (hw_state 0) 5).2.1 rfl,
    (nf_flow_table_hw_slot (hw_state 5) 6).2.2.2.1 (by decide) 6,
    (nf_flow_table_hw_slot (hw_state 0) 5).2.2.1 rfl⟩

/-! ## Expiry across clock wraparound -/

/-- C20: `nf_flow_has_expired` is correct across the wraparound of the 32-bit
clock. For a deadline d, the low 32 bits n of the clock and k below 2^31: if n is d + k
modulo 2^32 the entry is reported expired; if k is positive and d is n + k
modulo 2^32 it is reported not expired; and the result is exactly that
d - n modulo 2^32, read as a signed 32-bit number, is not positive, that is,
the difference is 0 or at least 2^31. -/
theorem nf_flow_has_expired_wraparound (s : State) (f : flow_offload) (k : Nat)
    (hk : k < 2 ^ 31) :
    (u32 s.jiffies = (f.timeout + k) % 2 ^ 32 → nf_flow_has_expired s f = true) ∧
    (0 < k → f.timeout = (u32 s.jiffies + k) % 2 ^ 32 → nf_flow_has_expired s f = false) ∧
    (nf_flow_has_expired s f = true ↔
      ((f.timeout + (2 ^ 32 - u32 s.jiffies)) % 2 ^ 32 = 0 ∨
        2 ^ 31 ≤ (f.timeout + (2 ^ 32 - u32 s.jiffies)) % 2 ^ 32)) := by
  simp only [nf_flow_has_expired, s32, u32_sub, u32, decide_eq_true_eq,
    decide_eq_false_iff_not]
  have hn : s.jiffies % 2 ^ 32 < 2 ^ 32 := Nat.mod_lt _ (by norm_num)
  generalize s.jiffies % 2 ^ 32 = n at hn ⊢
  norm_num at hk hn ⊢
  refine ⟨?_, ?_, ?_⟩
  · intro h
    split <;> omega
  · intro hpos h
    split <;> omega
  · split <;> omega

/-- Witness for C20: deadline 2^32 - 10 and clock 5 after the wraparound, which
is deadline + 15. -/
theorem nf_flow_has_expired_wraparound_witness :
    nf_flow_has_expired { sample_state (sample_flow 0 0) [] with jiffies := 5 }
      (sample_flow 0 (2 ^ 32 - 10)) = true :=
  (nf_flow_has_expired_wraparound { sample_state (sample_flow 0 0) [] with jiffies := 5 }
    (sample_flow 0 (2 ^ 32 - 10)) 15 (by decide)).1 (by decide)

/-! ## The long expiry of offloaded connections -/

theorem nf_ct_offload_timeout_cts_refreshed (s : State) (flow : Nat)
    (h : nf_ct_expires s (s.cts (s.flows flow).ct) < DAY s / 2) :
    ((nf_ct_offload_timeout s flow).cts (s.flows flow).ct).timeout =
      u32 (nfct_time_stamp s + DAY s) := by
  simp [nf_ct_offload_timeout, h, heap_set]

theorem nf_ct_offload_timeout_unchanged (s : State) (flow : Nat)
    (h : ¬ nf_ct_expires s (s.cts (s.flows flow).ct) < DAY s / 2) :
    nf_ct_offload_timeout s flow = s := by
  simp [nf_ct_offload_timeout, h]

theorem u32_sub_add_cancel (n d : Nat) (hd : d < 2 ^ 31) :
    u32_sub (u32 (u32 n + d)) (u32 n) = d := by
  simp only [u32_sub, u32]
  have hn : n % 2 ^ 32 < 2 ^ 32 := Nat.mod_lt _ (by norm_num)
  generalize n % 2 ^ 32 = m at hn ⊢
  norm_num at hd hn ⊢
  omega

theorem s32_of_small (d : Nat) (hd : d < 2 ^ 31) : s32 d = (d : Int) := by
  have h1 : d % 2 ^ 32 = d := Nat.mod_eq_of_lt (by omega)
  simp only [s32, u32, h1]
  rw [if_pos hd]

theorem nf_ct_expires_of_refreshed (s1 s : State) (ct : nf_conn)
    (hj : s1.jiffies = s.jiffies) (hday : DAY s < 2 ^ 31)
    (ht : ct.timeout = u32 (nfct_time_stamp s + DAY s)) :
    nf_ct_expires s1 ct = DAY s := by
  have hsub : u32_sub ct.timeout (nfct_time_stamp s1) = DAY s := by
    rw [ht]
    simp only [nfct_time_stamp, hj]
    exact u32_sub_add_cancel _ _ hday
  simp only [nf_ct_expires, hsub, s32_of_small _ hday]
  split
  · simp
  · omega

/-- C19: after `nf_ct_offload_timeout` the remaining lifetime of the connection is
at least half a day: if it was below half a day the timeout becomes the clock
plus one day, otherwise nothing changes. `flow_offload_add` runs this refresh,
a GC visit of an entry without DYING and TEARDOWN runs it before anything
else, and a GC visit of an entry with DYING or TEARDOWN does not run it: that
visit is the removal alone. One day is assumed to fit a signed 32-bit number,
as its C expression has type `int`. -/
theorem nf_ct_offload_timeout_lifetime (s : State) (flow : Nat) (hday : DAY s < 2 ^ 31) :
    DAY s / 2 ≤ nf_ct_expires (nf_ct_offload_timeout s flow)
      ((nf_ct_offload_timeout s flow).cts (s.flows flow).ct) ∧
    (nf_ct_expires s (s.cts (s.flows flow).ct) < DAY s / 2 →
      ((nf_ct_offload_timeout s flow).cts (s.flows flow).ct).timeout =
        u32 (nfct_time_stamp s + DAY s)) ∧
    (¬ nf_ct_expires s (s.cts (s.flows flow).ct) < DAY s / 2 →
      nf_ct_offload_timeout s flow = s) ∧
    (flow_offload_add s flow).1.cts = (nf_ct_offload_timeout s flow).cts ∧
    (∀ slot, (node_tuple s ⟨flow, slot⟩).dir = 0 →
      (s.flows flow).flow.flags &&& (FLOW_OFFLOAD_DYING ||| FLOW_OFFLOAD_TEARDOWN) = 0 →
      (nf_flow_offload_gc_visit s ⟨flow, slot⟩ = nf_ct_offload_timeout s flow ∨
        nf_flow_offload_gc_visit s ⟨flow, slot⟩ =
          flow_offload_del (nf_ct_offload_timeout s flow) flow)) ∧
    (∀ slot, (s.flows flow).flow.flags &&& (FLOW_OFFLOAD_DYING ||| FLOW_OFFLOAD_TEARDOWN) ≠ 0 →
      (nf_flow_offload_gc_visit s ⟨flow, slot⟩ = s ∨
        nf_flow_offload_gc_visit s ⟨flow, slot⟩ = flow_offload_del s flow)) := by
  refine ⟨?_, nf_ct_offload_timeout_cts_refreshed s flow,
    nf_ct_offload_timeout_unchanged s flow, ?_, ?_, ?_⟩
  · by_cases h : nf_ct_expires s (s.cts (s.flows flow).ct) < DAY s / 2
    · rw [nf_ct_expires_of_refreshed _ s _ (nf_ct_offload_timeout_jiffies s flow) hday
        (nf_ct_offload_timeout_cts_refreshed s flow h)]
      exact Nat.div_le_self _ _
    · rw [nf_ct_offload_timeout_unchanged s flow h]
      exact Nat.le_of_not_lt h
  · simp [flow_offload_add]
  · intro slot hdir ht
    unfold nf_flow_offload_gc_visit
    simp only [hdir, ht]
    by_cases hk : (s.flows flow).flow.flags &&& FLOW_OFFLOAD_KEEP = 0
    · by_cases he : nf_flow_has_expired (nf_ct_offload_timeout s flow) (s.flows flow).flow = true
      · right; simp [hk, he]
      · left; simp [hk, he]
    · left; simp [hk]
  · intro slot ht
    unfold nf_flow_offload_gc_visit
    by_cases hdir : (node_tuple s ⟨flow, slot⟩).dir = 0
    · right; simp [hdir, ht]
    · left; simp [hdir]

/-- Witness for C19: the sample connection has 400 ticks left at clock 100 with a
day of 8640000 ticks. -/
theorem nf_ct_offload_timeout_lifetime_witness :
    DAY (sample_state (sample_flow 0 0) []) / 2 ≤
      nf_ct_expires (nf_ct_offload_timeout (sample_state (sample_flow 0 0) []) 7)
        ((nf_ct_offload_timeout (sample_state (sample_flow 0 0) []) 7).cts
          ((sample_state (sample_flow 0 0) []).flows 7).ct) ∧
    ((nf_ct_offload_timeout (sample_state (sample_flow 0 0) []) 7).cts
        ((sample_state (sample_flow 0 0) []).flows 7).ct).timeout = 8640100 :=
  ⟨(nf_ct_offload_timeout_lifetime (sample_state (sample_flow 0 0) []) 7 (by decide)).1,
    (nf_ct_offload_timeout_lifetime (sample_state (sample_flow 0 0) []) 7 (by decide)).2.1
      (by decide)⟩

/-! ## Teardown and the state of the tracked connection -/

theorem flow_offload_teardown_cts (s : State) (flow : Nat) :
    (flow_offload_teardown s flow).cts = (flow_offload_fixup_ct_state s (s.flows flow).ct).cts := by
  unfold flow_offload_teardown flow_offload_fixup_ct_state
  dsimp only
  split
  · rfl
  · split
    · rfl
    · split <;> rfl

theorem or_teardown_testBit (f i : Nat) (hi : i ≠ 3) :
    (f ||| FLOW_OFFLOAD_TEARDOWN).testBit i = f.testBit i := by
  have h8 : FLOW_OFFLOAD_TEARDOWN = 2 ^ 3 := by decide
  rw [Nat.testBit_or, h8, Nat.testBit_two_pow]
  have : decide (3 = i) = false := by simpa using fun h => hi h.symm
  simp [this]

/-- C11: `flow_offload_teardown` sets TEARDOWN on the entry, every other flag
bit staying as it was, and fixes up the tracked connection. For TCP the state
becomes ESTABLISHED and `td_maxwin` of both endpoints 0, and, the tracker
supplying its timeouts, the timeout becomes the clock plus the ESTABLISHED
timeout; for UDP the timeout becomes the clock plus the REPLIED timeout and
nothing else changes; for any other protocol the connection is untouched. -/
theorem flow_offload_teardown_fixup (s : State) (flow : Nat) :
    (((flow_offload_teardown s flow).flows flow).flow.flags =
        (s.flows flow).flow.flags ||| FLOW_OFFLOAD_TEARDOWN ∧
      ∀ i, i ≠ 3 → (((flow_offload_teardown s flow).flows flow).flow.flags).testBit i =
        ((s.flows flow).flow.flags).testBit i) ∧
    (nf_ct_protonum (s.cts (s.flows flow).ct) = IPPROTO_TCP →
      ((flow_offload_teardown s flow).cts (s.flows flow).ct).tcp.state =
          TCP_CONNTRACK_ESTABLISHED ∧
        ((flow_offload_teardown s flow).cts (s.flows flow).ct).tcp.seen0_td_maxwin = 0 ∧
        ((flow_offload_teardown s flow).cts (s.flows flow).ct).tcp.seen1_td_maxwin = 0 ∧
        ∀ timeouts, s.get_timeouts (nf_ct_l3num (s.cts (s.flows flow).ct)) IPPROTO_TCP
            = some timeouts →
          ((flow_offload_teardown s flow).cts (s.flows flow).ct).timeout =
            u32 (nfct_time_stamp s + timeouts TCP_CONNTRACK_ESTABLISHED)) ∧
    (nf_ct_protonum (s.cts (s.flows flow).ct) = IPPROTO_UDP →
      ∀ timeouts, s.get_timeouts (nf_ct_l3num (s.cts (s.flows flow).ct)) IPPROTO_UDP
          = some timeouts →
        (flow_offload_teardown s flow).cts (s.flows flow).ct =
          { s.cts (s.flows flow).ct with
            timeout := u32 (nfct_time_stamp s + timeouts UDP_CT_REPLIED) }) ∧
    (nf_ct_protonum (s.cts (s.flows flow).ct) ≠ IPPROTO_TCP →
      nf_ct_protonum (s.cts (s.flows flow).ct) ≠ IPPROTO_UDP →
      (flow_offload_teardown s flow).cts (s.flows flow).ct = s.cts (s.flows flow).ct) := by
  refine ⟨⟨flow_offload_teardown_flags s flow, ?_⟩, ?_, ?_, ?_⟩
  · intro i hi
    rw [flow_offload_teardown_flags, or_teardown_testBit _ _ hi]
  · intro htcp
    rw [flow_offload_teardown_cts]
    unfold flow_offload_fixup_ct_state
    simp only [htcp, if_true]
    cases hto : s.get_timeouts (nf_ct_l3num (s.cts (s.flows flow).ct)) IPPROTO_TCP with
    | none => simp [heap_set, flow_offload_fixup_tcp]
    | some timeouts => simp [heap_set, flow_offload_fixup_tcp]
  · intro hudp timeouts hto
    have hne : IPPROTO_UDP ≠ IPPROTO_TCP := by decide
    rw [flow_offload_teardown_cts]
    unfold flow_offload_fixup_ct_state
    simp only [hudp, hto, hne, if_true, if_false]
    simp [heap_set]
  · intro htcp hudp
    rw [flow_offload_teardown_cts]
    unfold flow_offload_fixup_ct_state
    simp only [htcp, hudp, if_false]
    split <;> simp [heap_set]

/-- Witness for C11: teardown at clock 100 of the sample flow over a TCP and over
a UDP connection. -/
theorem flow_offload_teardown_fixup_witness :
    (((flow_offload_teardown (ct_state sample_ct) 7).flows 7).flow.flags = 0x9 ∧
      ((flow_offload_teardown (ct_state sample_ct) 7).cts 1).tcp.state = 3 ∧
      ((flow_offload_teardown (ct_state sample_ct) 7).cts 1).tcp.seen0_td_maxwin = 0 ∧
      ((flow_offload_teardown (ct_state sample_ct) 7).cts 1).tcp.seen1_td_maxwin = 0 ∧
      ((flow_offload_teardown (ct_state sample_ct) 7).cts 1).timeout = 432100) ∧
    ((flow_offload_teardown (ct_state sample_udp_ct) 7).cts 1).timeout = 280 ∧
    ((flow_offload_teardown (ct_state sample_udp_ct) 7).cts 1).tcp = sample_udp_ct.tcp := by
  have h := flow_offload_teardown_fixup (ct_state sample_ct) 7
  have hu := (flow_offload_teardown_fixup (ct_state sample_udp_ct) 7).2.2.1 (by decide) _ rfl
  have ht := h.2.1 (by decide)
  refine ⟨⟨h.1.1, ht.1, ht.2.1, ht.2.2.1, ht.2.2.2 _ rfl⟩, ?_, ?_⟩
  · have e : (ct_state sample_udp_ct).flows 7 = ⟨sample_flow FLOW_OFFLOAD_SNAT 0, 1⟩ := rfl
    rw [e] at hu
    rw [hu]
    decide
  · have e : (ct_state sample_udp_ct).flows 7 = ⟨sample_flow FLOW_OFFLOAD_SNAT 0, 1⟩ := rfl
    rw [e] at hu
    rw [hu]
    rfl

/-! ## The walk with a visitor -/

theorem mem_walk_nodes (yields : List walk_item) (n : rhash_node) :
    n ∈ walk_nodes yields ↔ walk_item.node n ∈ yields := by
  induction yields with
  | nil => simp [walk_nodes]
  | cons it rest ih =>
    cases it with
    | err e => simp [walk_nodes, ih]
    | node m => simp [walk_nodes, ih]

theorem iterate_loop_calls (iter : State → Nat → State)
    (hiter : ∀ s p n, (node_tuple (iter s p) n).dir = (node_tuple s n).dir)
    (yields : List walk_item) :
    ∀ (s : State) (err : Int) (calls : List Nat),
      (∀ e, walk_item.err e ∈ yields → e = -EAGAIN) →
      (nf_flow_table_iterate_loop iter s err calls yields).2.2 =
        calls ++ ((walk_nodes yields).filter
          (fun n => decide ((node_tuple s n).dir = 0))).map (fun n => n.flow) := by
  induction yields with
  | nil => intro s err calls _; simp [nf_flow_table_iterate_loop, walk_nodes]
  | cons it rest ih =>
    intro s err calls herr
    have herr2 : ∀ e, walk_item.err e ∈ rest → e = -EAGAIN :=
      fun e h => herr e (List.mem_cons_of_mem _ h)
    cases it with
    | err e =>
      have he : e = -EAGAIN := herr e (List.mem_cons_self _ _)
      simp only [nf_flow_table_iterate_loop, he, ne_eq, not_true_eq_false, if_false, walk_nodes]
      exact ih s _ calls herr2
    | node m =>
      simp only [nf_flow_table_iterate_loop, walk_nodes]
      by_cases hd : (node_tuple s m).dir = 0
      · have hfun : (fun n => decide ((node_tuple (iter s m.flow) n).dir = 0)) =
            (fun n => decide ((node_tuple s n).dir = 0)) := by
          funext n
          rw [hiter]
        simp only [hd, ne_eq, not_true_eq_false, if_false]
        rw [ih (iter s m.flow) err (calls ++ [m.flow]) herr2, hfun]
        simp [List.filter_cons, hd]
      · simp only [hd, ne_eq, not_false_eq_true, if_true]
        rw [ih s err calls herr2]
        simp [List.filter_cons, hd]

theorem count_original_nodes (p : Nat) (l : List rhash_node) :
    ((l.filter (fun n => decide (n.slot = 0))).map (fun n => n.flow)).count p =
      l.count ⟨p, 0⟩ := by
  induction l with
  | nil => rfl
  | cons n rest ih =>
    obtain ⟨fl, sl⟩ := n
    by_cases hs : sl = 0
    · subst hs
      by_cases hf : fl = p
      · subst hf
        simp [List.filter_cons, ih]
      · have hne : (⟨fl, 0⟩ : rhash_node) ≠ ⟨p, 0⟩ := fun h => hf (congrArg rhash_node.flow h)
        simp [List.filter_cons, List.count_cons, ih, hf, hne]
    · have hne : (⟨fl, sl⟩ : rhash_node) ≠ ⟨p, 0⟩ := fun h => hs (congrArg rhash_node.slot h)
      simp [List.filter_cons, List.count_cons, ih, hs, hne]

/-- C15: on a table that links every node once and in which every linked node
stores its slot as `dir`, a walk that hands out each linked node once, in any
order, and no error other than the resize signal, makes `nf_flow_table_iterate`
invoke a visitor that leaves the stored directions alone exactly once for
every entry whose ORIGINAL node is linked and for no other flow: the visitor
runs on the owners of the ORIGINAL nodes handed out, in that order, and never
for a REPLY node. -/
theorem nf_flow_table_iterate_once (s : State) (iter : State → Nat → State)
    (yields : List walk_item)
    (hiter : ∀ s p n, (node_tuple (iter s p) n).dir = (node_tuple s n).dir)
    (hnodup : s.rhashtable.Nodup)
    (hdir : ∀ n ∈ s.rhashtable, (node_tuple s n).dir = n.slot)
    (hperm : (walk_nodes yields).Perm s.rhashtable)
    (herr : ∀ e, walk_item.err e ∈ yields → e = -EAGAIN) :
    (nf_flow_table_iterate s iter 0 yields).2.2 =
      ((walk_nodes yields).filter (fun n => decide (n.slot = 0))).map (fun n => n.flow) ∧
    (∀ p, (⟨p, 0⟩ : rhash_node) ∈ s.rhashtable →
      (nf_flow_table_iterate s iter 0 yields).2.2.count p = 1) ∧
    (∀ p, (⟨p, 0⟩ : rhash_node) ∉ s.rhashtable →
      (nf_flow_table_iterate s iter 0 yields).2.2.count p = 0) := by
  have hcalls : (nf_flow_table_iterate s iter 0 yields).2.2 =
      ((walk_nodes yields).filter (fun n => decide (n.slot = 0))).map (fun n => n.flow) := by
    simp only [nf_flow_table_iterate, ne_eq, not_true_eq_false, if_false]
    rw [iterate_loop_calls iter hiter yields s 0 [] herr, List.nil_append]
    congr 1
    apply List.filter_congr
    intro n hn
    rw [hdir n (hperm.subset hn)]
  refine ⟨hcalls, ?_, ?_⟩
  · intro p hp
    rw [hcalls, count_original_nodes, hperm.count_eq]
    exact List.count_eq_one_of_mem hnodup hp
  · intro p hp
    rw [hcalls, count_original_nodes, hperm.count_eq]
    exact List.count_eq_zero_of_not_mem hp

theorem flow_offload_dead_node_tuple (s : State) (flow : Nat) (n : rhash_node) :
    node_tuple (flow_offload_dead s flow) n = node_tuple s n := by
  simp only [node_tuple, flow_offload_dead, heap_set]
  split
  · next h => rw [h]
  · rfl

theorem nf_flow_table_do_cleanup_node_tuple (s : State) (flow : Nat) (dev : Option Int)
    (n : rhash_node) : node_tuple (nf_flow_table_do_cleanup s flow dev) n = node_tuple s n := by
  cases dev with
  | none => exact flow_offload_teardown_node_tuple s flow n
  | some i =>
    simp only [nf_flow_table_do_cleanup]
    split
    · exact flow_offload_dead_node_tuple s flow n
    · rfl

/-- Witness for C15: the walk over the three linked flows of `walk_state` in a
shuffled order with a resize signal invokes the visitor on 8, 9 and 7, once
each. -/
theorem nf_flow_table_iterate_once_witness :
    (nf_flow_table_iterate walk_state
      (fun s p => nf_flow_table_do_cleanup s p (some 3)) 0 walk_yields).2.2 = [8, 9, 7] :=
  (nf_flow_table_iterate_once walk_state
    (fun s p => nf_flow_table_do_cleanup s p (some 3)) walk_yields
    (fun s p n => congrArg flow_offload_tuple.dir
      (nf_flow_table_do_cleanup_node_tuple s p (some 3) n))
    (by decide) (by decide) (by decide)
    (by intro e h; simp [walk_yields] at h; exact h)).1

theorem iterate_loop_err_eagain (iter : State → Nat → State) (yields : List walk_item) :
    ∀ (s : State) (calls : List Nat),
      (∀ e, walk_item.err e ∈ yields → e = -EAGAIN) →
      (nf_flow_table_iterate_loop iter s (-EAGAIN) calls yields).2.1 = -EAGAIN := by
  induction yields with
  | nil => intro s calls _; rfl
  | cons it rest ih =>
    intro s calls herr
    have herr2 : ∀ e, walk_item.err e ∈ rest → e = -EAGAIN :=
      fun e h => herr e (List.mem_cons_of_mem _ h)
    cases it with
    | err e =>
      have he : e = -EAGAIN := herr e (List.mem_cons_self _ _)
      simp only [nf_flow_table_iterate_loop, he, ne_eq, not_true_eq_false, if_false]
      exact ih s calls herr2
    | node m =>
      simp only [nf_flow_table_iterate_loop]
      split
      · exact ih s calls herr2
      · exact ih _ _ herr2

theorem iterate_loop_err_surfaces (iter : State → Nat → State) (yields : List walk_item) :
    ∀ (s : State) (err : Int) (calls : List Nat),
      (∀ e, walk_item.err e ∈ yields → e = -EAGAIN) →
      (∃ e, walk_item.err e ∈ yields) →
      (nf_flow_table_iterate_loop iter s err calls yields).2.1 = -EAGAIN := by
  induction yields with
  | nil => intro s err calls _ hex; obtain ⟨e, h⟩ := hex; simp at h
  | cons it rest ih =>
    intro s err calls herr hex
    have herr2 : ∀ e, walk_item.err e ∈ rest → e = -EAGAIN :=
      fun e h => herr e (List.mem_cons_of_mem _ h)
    cases it with
    | err e =>
      have he : e = -EAGAIN := herr e (List.mem_cons_self _ _)
      simp only [nf_flow_table_iterate_loop, he, ne_eq, not_true_eq_false, if_false]
      exact iterate_loop_err_eagain iter rest s calls herr2
    | node m =>
      have hex2 : ∃ e, walk_item.err e ∈ rest := by
        obtain ⟨e, h⟩ := hex
        rcases List.mem_cons.1 h with h | h
        · cases h
        · exact ⟨e, h⟩
      simp only [nf_flow_table_iterate_loop]
      split
      · exact ih s err calls herr2 hex2
      · exact ih _ err _ herr2 hex2

/-- C16, evaluated on the code: the resize signal is surfaced. The local `err`
keeps the value -EAGAIN once the walker has handed that signal out, and
`nf_flow_table_iterate` returns it: on every walk that meets no other error
and at least one resize signal the result is -EAGAIN, not 0, as on the sample
walk, which still visits every entry. -/
theorem nf_flow_table_iterate_surfaces_eagain :
    (∀ (s : State) (iter : State → Nat → State) (yields : List walk_item),
      (∀ e, walk_item.err e ∈ yields → e = -EAGAIN) →
      (∃ e, walk_item.err e ∈ yields) →
      (nf_flow_table_iterate s iter 0 yields).2.1 = -EAGAIN) ∧
    (nf_flow_table_iterate walk_state
      (fun s p => nf_flow_table_do_cleanup s p (some 3)) 0 walk_yields).2.1 = -11 ∧
    (nf_flow_table_iterate walk_state
      (fun s p => nf_flow_table_do_cleanup s p (some 3)) 0
      [walk_item.node ⟨7, 0⟩, walk_item.err (-EAGAIN)]).2.1 = -11 := by
  refine ⟨?_, by decide, by decide⟩
  intro s iter yields herr hex
  simp only [nf_flow_table_iterate, ne_eq, not_true_eq_false, if_false]
  exact iterate_loop_err_surfaces iter yields s 0 [] herr hex

/-! ## Device-down marking -/

theorem or_or_self (f b : Nat) : (f ||| b) ||| b = f ||| b := by
  rw [Nat.or_assoc, Nat.or_self]

theorem or_teardown_and_dying (f : Nat) :
    (f ||| FLOW_OFFLOAD_TEARDOWN) &&& FLOW_OFFLOAD_DYING = f &&& FLOW_OFFLOAD_DYING := by
  apply Nat.eq_of_testBit_eq
  intro i
  have h4 : FLOW_OFFLOAD_DYING = 2 ^ 2 := by decide
  rw [Nat.testBit_and, Nat.testBit_and, h4, Nat.testBit_two_pow]
  by_cases hi : i = 3
  · subst hi
    simp
  · rw [or_teardown_testBit _ _ hi]

theorem iterate_loop_flags (iter : State → Nat → State) (b : Nat)
    (hfl : ∀ s p q, ((iter s p).flows q).flow.flags = (s.flows q).flow.flags ∨
      ((iter s p).flows q).flow.flags = (s.flows q).flow.flags ||| b)
    (yields : List walk_item) :
    ∀ (s : State) (err : Int) (calls : List Nat) (q : Nat),
      ((nf_flow_table_iterate_loop iter s err calls yields).1.flows q).flow.flags =
          (s.flows q).flow.flags ∨
        ((nf_flow_table_iterate_loop iter s err calls yields).1.flows q).flow.flags =
          (s.flows q).flow.flags ||| b := by
  induction yields with
  | nil => intro s err calls q; exact Or.inl rfl
  | cons it rest ih =>
    intro s err calls q
    cases it with
    | err e =>
      simp only [nf_flow_table_iterate_loop]
      split
      · exact Or.inl rfl
      · exact ih s _ calls q
    | node m =>
      simp only [nf_flow_table_iterate_loop]
      split
      · exact ih s err calls q
      · rcases ih (iter s m.flow) err (calls ++ [m.flow]) q with h | h <;>
          rcases hfl s m.flow q with h1 | h1
        · exact Or.inl (h.trans h1)
        · exact Or.inr (h.trans h1)
        · right; rw [h, h1]
        · right; rw [h, h1, or_or_self]

theorem iterate_loop_marked (iter : State → Nat → State) (b : Nat)
    (pred : State → Nat → Prop)
    (hdirp : ∀ s p n, (node_tuple (iter s p) n).dir = (node_tuple s n).dir)
    (hfl : ∀ s p q, ((iter s p).flows q).flow.flags = (s.flows q).flow.flags ∨
      ((iter s p).flows q).flow.flags = (s.flows q).flow.flags ||| b)
    (hpred : ∀ s p q, pred s q → pred (iter s p) q)
    (hmark : ∀ s p, pred s p →
      ((iter s p).flows p).flow.flags = (s.flows p).flow.flags ||| b)
    (yields : List walk_item) :
    ∀ (s : State) (err : Int) (calls : List Nat) (n : rhash_node),
      walk_item.node n ∈ yields → (∀ e, walk_item.err e ∈ yields → e = -EAGAIN) →
      (node_tuple s n).dir = 0 → pred s n.flow →
      ((nf_flow_table_iterate_loop iter s err calls yields).1.flows n.flow).flow.flags =
        (s.flows n.flow).flow.flags ||| b := by
  induction yields with
  | nil => intro s err calls n hmem; simp at hmem
  | cons it rest ih =>
    intro s err calls n hmem herr hdir hp
    have herr2 : ∀ e, walk_item.err e ∈ rest → e = -EAGAIN :=
      fun e h => herr e (List.mem_cons_of_mem _ h)
    cases it with
    | err e =>
      have he : e = -EAGAIN := herr e (List.mem_cons_self _ _)
      simp only [nf_flow_table_iterate_loop, he, ne_eq, not_true_eq_false, if_false]
      apply ih s _ calls n _ herr2 hdir hp
      rcases List.mem_cons.1 hmem with h | h
      · cases h
      · exact h
    | node m =>
      simp only [nf_flow_table_iterate_loop]
      by_cases hdm : (node_tuple s m).dir = 0
      · simp only [hdm, ne_eq, not_true_eq_false, if_false]
        by_cases hmn : m = n
        · subst hmn
          rcases iterate_loop_flags iter b hfl rest (iter s m.flow) err (calls ++ [m.flow])
            m.flow with h | h
          · rw [h, hmark s m.flow hp]
          · rw [h, hmark s m.flow hp, or_or_self]
        · have hin : walk_item.node n ∈ rest := by
            rcases List.mem_cons.1 hmem with h | h
            · cases h; exact absurd rfl hmn
            · exact h
          rw [ih (iter s m.flow) err (calls ++ [m.flow]) n hin herr2
            ((hdirp s m.flow n).trans hdir) (hpred s m.flow n.flow hp)]
          rcases hfl s m.flow n.flow with h1 | h1
          · rw [h1]
          · rw [h1, or_or_self]
      · simp only [hdm, ne_eq, not_false_eq_true, if_true]
        have hin : walk_item.node n ∈ rest := by
          rcases List.mem_cons.1 hmem with h | h
          · cases h; exact absurd hdir hdm
          · exact h
        exact ih s err calls n hin herr2 hdir hp

theorem iterate_loop_frame (iter : State → Nat → State) (pred : State → Nat → Prop)
    (hpred : ∀ s p q, ¬ pred s q → ¬ pred (iter s p) q)
    (hframe : ∀ s p q, ¬ pred s q → (iter s p).flows q = s.flows q)
    (yields : List walk_item) :
    ∀ (s : State) (err : Int) (calls : List Nat) (q : Nat), ¬ pred s q →
      (nf_flow_table_iterate_loop iter s err calls yields).1.flows q = s.flows q := by
  induction yields with
  | nil => intro s err calls q _; rfl
  | cons it rest ih =>
    intro s err calls q hq
    cases it with
    | err e =>
      simp only [nf_flow_table_iterate_loop]
      split
      · rfl
      · exact ih s _ calls q hq
    | node m =>
      simp only [nf_flow_table_iterate_loop]
      split
      · exact ih s err calls q hq
      · rw [ih (iter s m.flow) err _ q (hpred s m.flow q hq), hframe s m.flow q hq]

theorem iterate_loop_cts (iter : State → Nat → State)
    (hcts : ∀ s p, (iter s p).cts = s.cts) (yields : List walk_item) :
    ∀ (s : State) (err : Int) (calls : List Nat),
      (nf_flow_table_iterate_loop iter s err calls yields).1.cts = s.cts := by
  induction yields with
  | nil => intro s err calls; rfl
  | cons it rest ih =>
    intro s err calls
    cases it with
    | err e =>
      simp only [nf_flow_table_iterate_loop]
      split
      · rfl
      · exact ih s _ calls
    | node m =>
      simp only [nf_flow_table_iterate_loop]
      split
      · exact ih s err calls
      · rw [ih (iter s m.flow) err _, hcts]

theorem do_cleanup_dev_flows (s : State) (p q : Nat) (i : Int) :
    (nf_flow_table_do_cleanup s p (some i)).flows q =
      if q = p ∧ (((s.flows p).flow.tuplehash 0).tuple.iifidx = i ∨
          ((s.flows p).flow.tuplehash 1).tuple.iifidx = i)
        then (flow_offload_dead s p).flows q else s.flows q := by
  simp only [nf_flow_table_do_cleanup]
  by_cases hm : ((s.flows p).flow.tuplehash 0).tuple.iifidx = i ∨
      ((s.flows p).flow.tuplehash 1).tuple.iifidx = i
  · by_cases hq : q = p
    · simp [hm, hq]
    · simp [hm, hq, flow_offload_dead, heap_set]
  · simp [hm]

theorem do_cleanup_dev_cts (s : State) (p : Nat) (i : Int) :
    (nf_flow_table_do_cleanup s p (some i)).cts = s.cts := by
  simp only [nf_flow_table_do_cleanup]
  split <;> rfl

theorem do_cleanup_dev_match (s : State) (p q : Nat) (i i2 : Int) (d : Nat) :
    (((nf_flow_table_do_cleanup s p (some i)).flows q).flow.tuplehash d).tuple.iifidx = i2 ↔
      (((s.flows q).flow.tuplehash d).tuple.iifidx = i2) := by
  have h := nf_flow_table_do_cleanup_node_tuple s p (some i) ⟨q, d⟩
  simp only [node_tuple] at h
  rw [h]

/-- C12: the marking walk of device-down cleanup, `nf_flow_table_iterate` with
`nf_flow_table_do_cleanup`, on a walk that meets no error other than the resize
signal. For a departing device with index i it sets DYING on every entry whose
ORIGINAL node is handed out and whose ORIGINAL or REPLY `iifidx` equals i,
leaves every entry with other interface indexes unchanged, changes no flag
but DYING and touches no tracked connection. Without a device it sets TEARDOWN
on every entry whose ORIGINAL node is handed out and changes the DYING bit of
no flow. -/
theorem nf_flow_table_cleanup_marks (s : State) (yields : List walk_item)
    (herr : ∀ e, walk_item.err e ∈ yields → e = -EAGAIN) :
    (∀ i : Int,
      (nf_flow_table_iterate s (fun s p => nf_flow_table_do_cleanup s p (some i)) 0 yields).1.cts
        = s.cts ∧
      (∀ q, ¬ (((s.flows q).flow.tuplehash 0).tuple.iifidx = i ∨
            ((s.flows q).flow.tuplehash 1).tuple.iifidx = i) →
        (nf_flow_table_iterate s (fun s p => nf_flow_table_do_cleanup s p (some i)) 0
          yields).1.flows q = s.flows q) ∧
      (∀ q, (((s.flows q).flow.tuplehash 0).tuple.iifidx = i ∨
            ((s.flows q).flow.tuplehash 1).tuple.iifidx = i) →
        walk_item.node ⟨q, 0⟩ ∈ yields → (node_tuple s ⟨q, 0⟩).dir = 0 →
        ((nf_flow_table_iterate s (fun s p => nf_flow_table_do_cleanup s p (some i)) 0
          yields).1.flows q).flow.flags = (s.flows q).flow.flags ||| FLOW_OFFLOAD_DYING) ∧
      (∀ q,
        ((nf_flow_table_iterate s (fun s p => nf_flow_table_do_cleanup s p (some i)) 0
          yields).1.flows q).flow.flags = (s.flows q).flow.flags ∨
        ((nf_flow_table_iterate s (fun s p => nf_flow_table_do_cleanup s p (some i)) 0
          yields).1.flows q).flow.flags = (s.flows q).flow.flags ||| FLOW_OFFLOAD_DYING)) ∧
    ((∀ q, walk_item.node ⟨q, 0⟩ ∈ yields → (node_tuple s ⟨q, 0⟩).dir = 0 →
        ((nf_flow_table_iterate s (fun s p => nf_flow_table_do_cleanup s p none) 0
          yields).1.flows q).flow.flags = (s.flows q).flow.flags ||| FLOW_OFFLOAD_TEARDOWN) ∧
      (∀ q,
        ((nf_flow_table_iterate s (fun s p => nf_flow_table_do_cleanup s p none) 0
          yields).1.flows q).flow.flags &&& FLOW_OFFLOAD_DYING =
            (s.flows q).flow.flags &&& FLOW_OFFLOAD_DYING)) := by
  have hdirp : ∀ (dev : Option Int) (s : State) (p : Nat) (n : rhash_node),
      (node_tuple (nf_flow_table_do_cleanup s p dev) n).dir = (node_tuple s n).dir :=
    fun dev s p n => congrArg flow_offload_tuple.dir
      (nf_flow_table_do_cleanup_node_tuple s p dev n)
  constructor
  · intro i
    have hfl : ∀ (s : State) (p q : Nat),
        ((nf_flow_table_do_cleanup s p (some i)).flows q).flow.flags = (s.flows q).flow.flags ∨
        ((nf_flow_table_do_cleanup s p (some i)).flows q).flow.flags =
          (s.flows q).flow.flags ||| FLOW_OFFLOAD_DYING := by
      intro s p q
      rw [do_cleanup_dev_flows]
      split
      · next h =>
        right
        rw [h.1]
        simp [flow_offload_dead, heap_set]
      · exact Or.inl rfl
    simp only [nf_flow_table_iterate, ne_eq, not_true_eq_false, if_false]
    refine ⟨iterate_loop_cts _ (fun s p => do_cleanup_dev_cts s p i) yields s 0 [], ?_, ?_, ?_⟩
    · intro q hq
      apply iterate_loop_frame _
        (fun s q => ((s.flows q).flow.tuplehash 0).tuple.iifidx = i ∨
          ((s.flows q).flow.tuplehash 1).tuple.iifidx = i) _ _ yields s 0 [] q hq
      · intro s p q h
        simp only [do_cleanup_dev_match]
        exact h
      · intro s p q h
        rw [do_cleanup_dev_flows]
        split
        · next h2 =>
          exact absurd (h2.1 ▸ h2.2) h
        · rfl
    · intro q hq hmem hdir
      apply iterate_loop_marked _ FLOW_OFFLOAD_DYING
        (fun s q => ((s.flows q).flow.tuplehash 0).tuple.iifidx = i ∨
          ((s.flows q).flow.tuplehash 1).tuple.iifidx = i) (hdirp (some i)) hfl _ _ yields s 0 []
        ⟨q, 0⟩ hmem herr hdir hq
      · intro s p q h
        simp only [do_cleanup_dev_match]
        exact h
      · intro s p h
        rw [do_cleanup_dev_flows, if_pos ⟨rfl, h⟩]
        simp [flow_offload_dead, heap_set]
    · intro q
      exact iterate_loop_flags _ FLOW_OFFLOAD_DYING hfl yields s 0 [] q
  · have hfl : ∀ (s : State) (p q : Nat),
        ((nf_flow_table_do_cleanup s p none).flows q).flow.flags = (s.flows q).flow.flags ∨
        ((nf_flow_table_do_cleanup s p none).flows q).flow.flags =
          (s.flows q).flow.flags ||| FLOW_OFFLOAD_TEARDOWN := by
      intro s p q
      simp only [nf_flow_table_do_cleanup]
      by_cases hq : q = p
      · right
        rw [hq]
        exact flow_offload_teardown_flags s p
      · left
        exact flow_offload_teardown_flags_other s p q hq
    simp only [nf_flow_table_iterate, ne_eq, not_true_eq_false, if_false]
    constructor
    · intro q hmem hdir
      exact iterate_loop_marked _ FLOW_OFFLOAD_TEARDOWN (fun _ _ => True) (hdirp none) hfl
        (fun _ _ _ h => h) (fun s p _ => flow_offload_teardown_flags s p) yields s 0 []
        ⟨q, 0⟩ hmem herr hdir trivial
    · intro q
      rcases iterate_loop_flags _ FLOW_OFFLOAD_TEARDOWN hfl yields s 0 [] q with h | h
      · rw [h]
      · rw [h, or_teardown_and_dying]

/-- Witness for C12: the fifth scenario of the spec on `walk_state`. Device 3
goes down: the flows 7 and 8, whose replies enter on interface 3, get DYING and
the flow 9, entering on 5 and 6, is unchanged. Without a device all three get
TEARDOWN. -/
theorem nf_flow_table_cleanup_marks_witness :
    (((nf_flow_table_iterate walk_state (fun s p => nf_flow_table_do_cleanup s p (some 3)) 0
        walk_yields).1.flows 7).flow.flags = 0 ||| FLOW_OFFLOAD_DYING ∧
      ((nf_flow_table_iterate walk_state (fun s p => nf_flow_table_do_cleanup s p (some 3)) 0
        walk_yields).1.flows 8).flow.flags = 0 ||| FLOW_OFFLOAD_DYING ∧
      (nf_flow_table_iterate walk_state (fun s p => nf_flow_table_do_cleanup s p (some 3)) 0
        walk_yields).1.flows 9 = walk_state.flows 9) ∧
    ((nf_flow_table_iterate walk_state (fun s p => nf_flow_table_do_cleanup s p none) 0
        walk_yields).1.flows 9).flow.flags = 0 ||| FLOW_OFFLOAD_TEARDOWN := by
  have herr : ∀ e, walk_item.err e ∈ walk_yields → e = -EAGAIN := by
    intro e h; simp [walk_yields] at h; exact h
  have h := nf_flow_table_cleanup_marks walk_state walk_yields herr
  exact ⟨⟨(h.1 3).2.2.1 7 (by decide) (by decide) (by decide),
    (h.1 3).2.2.1 8 (by decide) (by decide) (by decide),
    (h.1 3).2.1 9 (by decide)⟩,
    h.2.1 9 (by decide) (by decide)⟩

/-! ## Entry construction: failure paths -/

theorem nf_ct_put_use_self (s : State) (c : Nat) (hc : c ≠ 0) :
    ((nf_ct_put s c).cts c).use = (s.cts c).use - 1 := by
  simp [nf_ct_put, hc, heap_set]

theorem nf_ct_put_dsts (s : State) (c : Nat) : (nf_ct_put s c).dsts = s.dsts := by
  unfold nf_ct_put
  split <;> rfl

theorem dst_release_cts (s : State) (d : Nat) : (dst_release s d).cts = s.cts := by
  unfold dst_release
  split <;> rfl

theorem dst_release_refcnt (s : State) (d x : Nat) (hd : d ≠ 0) :
    ((dst_release s d).dsts x).refcnt = (s.dsts x).refcnt - (if x = d then 1 else 0) := by
  simp only [dst_release, hd, if_false, heap_set]
  split
  · next h => rw [h]
  · rfl

theorem dst_hold_safe_cts (s : State) (d : Nat) : (dst_hold_safe s d).1.cts = s.cts := by
  unfold dst_hold_safe
  dsimp only
  split <;> rfl

theorem dst_hold_safe_flows (s : State) (d : Nat) : (dst_hold_safe s d).1.flows = s.flows := by
  unfold dst_hold_safe
  dsimp only
  split <;> rfl

theorem dst_hold_safe_snd (s : State) (d : Nat) :
    (dst_hold_safe s d).2 = true ↔ (s.dsts d).refcnt ≠ 0 := by
  unfold dst_hold_safe
  dsimp only
  split <;> simp_all

theorem dst_hold_safe_refcnt (s : State) (d x : Nat) :
    ((dst_hold_safe s d).1.dsts x).refcnt =
      (s.dsts x).refcnt + (if x = d ∧ (dst_hold_safe s d).2 = true then 1 else 0) := by
  unfold dst_hold_safe
  dsimp only
  split
  · simp
  · simp only [heap_set, and_true]
    split
    · next h => rw [h]
    · rfl

theorem kzalloc_dsts (s : State) (entry : Nat) : (kzalloc s entry).dsts = s.dsts := rfl

theorem kzalloc_cts (s : State) (entry : Nat) : (kzalloc s entry).cts = s.cts := rfl

theorem atomic_inc_not_zero_use_dsts (s : State) (c : Nat) :
    (atomic_inc_not_zero_use s c).1.dsts = s.dsts := by
  unfold atomic_inc_not_zero_use
  dsimp only
  split <;> rfl

theorem atomic_inc_not_zero_use_use (s : State) (c : Nat) :
    ((atomic_inc_not_zero_use s c).1.cts c).use =
      (s.cts c).use + (if (atomic_inc_not_zero_use s c).2 = true then 1 else 0) := by
  unfold atomic_inc_not_zero_use
  dsimp only
  split
  · simp
  · simp [heap_set]

/-- C13: whenever `flow_offload_alloc` returns null, for a connection and an
ORIGINAL route handle that are not null pointers, the reference count of the
connection and the reference count of every route handle, those of the two
directions included, are what they were before the call; and for a dying
connection the call returns null and the state is unchanged. -/
theorem flow_offload_alloc_failure (s : State) (ct : Nat) (route : nf_flow_route) (entry : Nat)
    (hct : ct ≠ 0) (hd0 : (route.tuple FLOW_OFFLOAD_DIR_ORIGINAL).dst ≠ 0)
    (hfail : (flow_offload_alloc s ct route entry).2 = 0) :
    ((flow_offload_alloc s ct route entry).1.cts ct).use = (s.cts ct).use ∧
    (∀ d, ((flow_offload_alloc s ct route entry).1.dsts d).refcnt = (s.dsts d).refcnt) ∧
    (nf_ct_is_dying (s.cts ct) = true → flow_offload_alloc s ct route entry = (s, 0)) := by
  refine ⟨?_, ?_, ?_⟩
  · revert hfail
    unfold flow_offload_alloc
    dsimp only
    split_ifs with h1 h2 h3 h4 h5
    · intro _; rfl
    · intro _; rfl
    · intro _
      have hA : (atomic_inc_not_zero_use s ct).2 = true := by simpa using h2
      rw [nf_ct_put_use_self _ _ hct, atomic_inc_not_zero_use_use, if_pos hA]
      omega
    · intro _
      have hA : (atomic_inc_not_zero_use s ct).2 = true := by simpa using h2
      rw [nf_ct_put_use_self _ _ hct]
      simp only [kfree, dst_hold_safe_cts, kzalloc_cts]
      rw [atomic_inc_not_zero_use_use, if_pos hA]
      omega
    · intro _
      have hA : (atomic_inc_not_zero_use s ct).2 = true := by simpa using h2
      rw [nf_ct_put_use_self _ _ hct]
      simp only [kfree, dst_release_cts, dst_hold_safe_cts, kzalloc_cts]
      rw [atomic_inc_not_zero_use_use, if_pos hA]
      omega
    · intro hfail
      exact absurd hfail h3
  · intro d
    revert hfail
    unfold flow_offload_alloc
    dsimp only
    split_ifs with h1 h2 h3 h4 h5
    · intro _; rfl
    · intro _; rfl
    · intro _
      rw [nf_ct_put_dsts, atomic_inc_not_zero_use_dsts]
    · intro _
      have hH : ¬ (dst_hold_safe (kzalloc (atomic_inc_not_zero_use s ct).1 entry)
          (route.tuple FLOW_OFFLOAD_DIR_ORIGINAL).dst).2 = true := by simpa using h4
      rw [nf_ct_put_dsts]
      simp only [kfree]
      rw [dst_hold_safe_refcnt]
      simp only [hH, Bool.false_eq_true, and_false, if_false, kzalloc_dsts,
        atomic_inc_not_zero_use_dsts, Nat.add_zero]
    · intro _
      have hH0 : (dst_hold_safe (kzalloc (atomic_inc_not_zero_use s ct).1 entry)
          (route.tuple FLOW_OFFLOAD_DIR_ORIGINAL).dst).2 = true := by simpa using h4
      have hH1 : ¬ (dst_hold_safe (dst_hold_safe (kzalloc (atomic_inc_not_zero_use s ct).1 entry)
          (route.tuple FLOW_OFFLOAD_DIR_ORIGINAL).dst).1
          (route.tuple FLOW_OFFLOAD_DIR_REPLY).dst).2 = true := by simpa using h5
      rw [nf_ct_put_dsts]
      simp only [kfree]
      rw [dst_release_refcnt _ _ _ hd0, dst_hold_safe_refcnt, dst_hold_safe_refcnt]
      simp only [hH0, hH1, Bool.false_eq_true, and_false, and_true, if_false, kzalloc_dsts,
        atomic_inc_not_zero_use_dsts, Nat.add_zero]
      split <;> omega
    · intro hfail
      exact absurd hfail h3
  · intro hdy
    simp [flow_offload_alloc, hdy]

/-- Witness for C13: the reply route entry 2 has no reference left, so the second
hold fails after the connection and the route entry 1 have been taken: the call
returns null and the counts are back at 2 and 1. -/
theorem flow_offload_alloc_failure_witness :
    (flow_offload_alloc (alloc_state 0) 1 sample_route 7).2 = 0 ∧
    ((flow_offload_alloc (alloc_state 0) 1 sample_route 7).1.cts 1).use = 2 ∧
    ((flow_offload_alloc (alloc_state 0) 1 sample_route 7).1.dsts 1).refcnt = 1 ∧
    ((flow_offload_alloc (alloc_state 0) 1 sample_route 7).1.dsts 2).refcnt = 0 :=
  ⟨by decide,
    (flow_offload_alloc_failure (alloc_state 0) 1 sample_route 7 (by decide) (by decide)
      (by decide)).1,
    (flow_offload_alloc_failure (alloc_state 0) 1 sample_route 7 (by decide) (by decide)
      (by decide)).2.1 1,
    (flow_offload_alloc_failure (alloc_state 0) 1 sample_route 7 (by decide) (by decide)
      (by decide)).2.1 2⟩

/-! ## Entry construction: the entry built and its references -/

theorem atomic_inc_not_zero_use_flows (s : State) (c : Nat) :
    (atomic_inc_not_zero_use s c).1.flows = s.flows := by
  unfold atomic_inc_not_zero_use
  dsimp only
  split <;> rfl

theorem flow_offload_alloc_fill_cts (s : State) (entry ct : Nat) (route : nf_flow_route) :
    (flow_offload_alloc_fill s entry ct route).cts = s.cts := rfl

theorem flow_offload_alloc_fill_dsts (s : State) (entry ct : Nat) (route : nf_flow_route) :
    (flow_offload_alloc_fill s entry ct route).dsts = s.dsts := rfl

theorem flow_offload_alloc_fill_ct (s : State) (entry ct : Nat) (route : nf_flow_route) :
    ((flow_offload_alloc_fill s entry ct route).flows entry).ct = ct := by
  simp [flow_offload_alloc_fill, flow_offload_fill_dir, heap_set]

theorem flow_offload_alloc_fill_tuple0 (s : State) (entry ct : Nat) (route : nf_flow_route) :
    (((flow_offload_alloc_fill s entry ct route).flows entry).flow.tuplehash 0).tuple =
      { src := fill_addr ((s.cts ct).tuplehash 0).src_l3num
          (((s.flows entry).flow.tuplehash 0).tuple.src) ((s.cts ct).tuplehash 0).src_u3,
        dst := fill_addr ((s.cts ct).tuplehash 0).src_l3num
          (((s.flows entry).flow.tuplehash 0).tuple.dst) ((s.cts ct).tuplehash 0).dst_u3,
        src_port := ((s.cts ct).tuplehash 0).src_port,
        dst_port := ((s.cts ct).tuplehash 0).dst_port,
        iifidx := (route.tuple 0).ifindex,
        l3proto := ((s.cts ct).tuplehash 0).src_l3num % 2 ^ 8,
        l4proto := ((s.cts ct).tuplehash 0).dst_protonum,
        dir := 0,
        oifidx := (route.tuple 1).ifindex,
        mtu := (((flow_offload_alloc_fill s entry ct route).flows entry).flow.tuplehash 0).tuple.mtu,
        dst_cache := (route.tuple 0).dst } := by
  simp [flow_offload_alloc_fill, flow_offload_fill_dir, heap_set, FLOW_OFFLOAD_DIR_ORIGINAL,
    FLOW_OFFLOAD_DIR_REPLY]

theorem flow_offload_alloc_fill_tuple1 (s : State) (entry ct : Nat) (route : nf_flow_route) :
    (((flow_offload_alloc_fill s entry ct route).flows entry).flow.tuplehash 1).tuple =
      { src := fill_addr ((s.cts ct).tuplehash 1).src_l3num
          (((s.flows entry).flow.tuplehash 1).tuple.src) ((s.cts ct).tuplehash 1).src_u3,
        dst := fill_addr ((s.cts ct).tuplehash 1).src_l3num
          (((s.flows entry).flow.tuplehash 1).tuple.dst) ((s.cts ct).tuplehash 1).dst_u3,
        src_port := ((s.cts ct).tuplehash 1).src_port,
        dst_port := ((s.cts ct).tuplehash 1).dst_port,
        iifidx := (route.tuple 1).ifindex,
        l3proto := ((s.cts ct).tuplehash 1).src_l3num % 2 ^ 8,
        l4proto := ((s.cts ct).tuplehash 1).dst_protonum,
        dir := 1,
        oifidx := (route.tuple 0).ifindex,
        mtu := (((flow_offload_alloc_fill s entry ct route).flows entry).flow.tuplehash 1).tuple.mtu,
        dst_cache := (route.tuple 1).dst } := by
  simp [flow_offload_alloc_fill, flow_offload_fill_dir, heap_set, FLOW_OFFLOAD_DIR_ORIGINAL,
    FLOW_OFFLOAD_DIR_REPLY]

theorem flow_offload_alloc_fill_flags (s : State) (entry ct : Nat) (route : nf_flow_route) :
    ((flow_offload_alloc_fill s entry ct route).flows entry).flow.flags =
      (if (s.cts ct).status &&& IPS_DST_NAT ≠ 0 then
        (if (s.cts ct).status &&& IPS_SRC_NAT ≠ 0 then
          (s.flows entry).flow.flags ||| FLOW_OFFLOAD_SNAT else (s.flows entry).flow.flags)
          ||| FLOW_OFFLOAD_DNAT
      else
        (if (s.cts ct).status &&& IPS_SRC_NAT ≠ 0 then
          (s.flows entry).flow.flags ||| FLOW_OFFLOAD_SNAT else (s.flows entry).flow.flags)) := by
  simp [flow_offload_alloc_fill, flow_offload_fill_dir, heap_set]

/-- What a successful call of `flow_offload_alloc` has done: every check passed,
the pointer returned is the entry `kzalloc` gave, and the state is the tail
applied to the state with all three references held. -/
theorem flow_offload_alloc_success (s : State) (ct : Nat) (route : nf_flow_route) (entry : Nat)
    (hok : (flow_offload_alloc s ct route entry).2 ≠ 0) :
    (atomic_inc_not_zero_use s ct).2 = true ∧
    (dst_hold_safe (kzalloc (atomic_inc_not_zero_use s ct).1 entry)
      (route.tuple FLOW_OFFLOAD_DIR_ORIGINAL).dst).2 = true ∧
    (dst_hold_safe (dst_hold_safe (kzalloc (atomic_inc_not_zero_use s ct).1 entry)
      (route.tuple FLOW_OFFLOAD_DIR_ORIGINAL).dst).1
      (route.tuple FLOW_OFFLOAD_DIR_REPLY).dst).2 = true ∧
    flow_offload_alloc s ct route entry =
      (flow_offload_alloc_fill
        (dst_hold_safe (dst_hold_safe (kzalloc (atomic_inc_not_zero_use s ct).1 entry)
          (route.tuple FLOW_OFFLOAD_DIR_ORIGINAL).dst).1
          (route.tuple FLOW_OFFLOAD_DIR_REPLY).dst).1 entry ct route, entry) := by
  revert hok
  unfold flow_offload_alloc
  dsimp only
  split_ifs with h1 h2 h3 h4 h5
  · intro h; exact absurd rfl h
  · intro h; exact absurd rfl h
  · intro h; exact absurd rfl h
  · intro h; exact absurd rfl h
  · intro h; exact absurd rfl h
  · intro _
    exact ⟨by simpa using h2, by simpa using h4, by simpa using h5, rfl⟩

theorem flow_offload_fixup_ct_state_dsts (s : State) (ctp : Nat) :
    (flow_offload_fixup_ct_state s ctp).dsts = s.dsts := by
  unfold flow_offload_fixup_ct_state
  dsimp only
  split
  · rfl
  · split
    · rfl
    · split <;> rfl

theorem flow_offload_fixup_ct_state_use (s : State) (ctp c : Nat) :
    ((flow_offload_fixup_ct_state s ctp).cts c).use = (s.cts c).use := by
  unfold flow_offload_fixup_ct_state
  dsimp only
  by_cases hc : c = ctp
  · subst hc
    repeat' split
    all_goals simp [heap_set]
  · repeat' split
    all_goals simp [heap_set, hc]

theorem flow_offload_alloc_entry (s : State) (ct : Nat) (route : nf_flow_route) (entry : Nat)
    (hok : (flow_offload_alloc s ct route entry).2 ≠ 0) :
    (flow_offload_alloc s ct route entry).2 = entry ∧
    ((flow_offload_alloc s ct route entry).1.flows entry).ct = ct ∧
    (((flow_offload_alloc s ct route entry).1.flows entry).flow.tuplehash 0).tuple.dst_cache =
      (route.tuple 0).dst ∧
    (((flow_offload_alloc s ct route entry).1.flows entry).flow.tuplehash 1).tuple.dst_cache =
      (route.tuple 1).dst ∧
    ((flow_offload_alloc s ct route entry).1.flows entry).flow.flags &&& FLOW_OFFLOAD_DYING = 0 ∧
    ((flow_offload_alloc s ct route entry).1.cts ct).use = (s.cts ct).use + 1 ∧
    ∀ d, ((flow_offload_alloc s ct route entry).1.dsts d).refcnt =
      (s.dsts d).refcnt + (if d = (route.tuple 0).dst then 1 else 0)
        + (if d = (route.tuple 1).dst then 1 else 0) := by
  obtain ⟨hA, hH0, hH1, heq⟩ := flow_offload_alloc_success s ct route entry hok
  rw [heq]
  dsimp only
  refine ⟨rfl, flow_offload_alloc_fill_ct _ _ _ _, ?_, ?_, ?_, ?_, ?_⟩
  · rw [flow_offload_alloc_fill_tuple0]
  · rw [flow_offload_alloc_fill_tuple1]
  · rw [flow_offload_alloc_fill_flags]
    have hz : ((dst_hold_safe (dst_hold_safe (kzalloc (atomic_inc_not_zero_use s ct).1 entry)
        (route.tuple FLOW_OFFLOAD_DIR_ORIGINAL).dst).1
        (route.tuple FLOW_OFFLOAD_DIR_REPLY).dst).1.flows entry).flow.flags = 0 := by
      rw [dst_hold_safe_flows, dst_hold_safe_flows]
      simp [kzalloc, heap_set, zero_entry]
    rw [hz]
    split <;> split <;> decide
  · rw [flow_offload_alloc_fill_cts, dst_hold_safe_cts, dst_hold_safe_cts, kzalloc_cts,
      atomic_inc_not_zero_use_use, if_pos hA]
  · intro d
    rw [flow_offload_alloc_fill_dsts, dst_hold_safe_refcnt, dst_hold_safe_refcnt]
    simp only [FLOW_OFFLOAD_DIR_ORIGINAL, FLOW_OFFLOAD_DIR_REPLY] at hH0 hH1 ⊢
    simp only [hH0, hH1, and_true, kzalloc_dsts, atomic_inc_not_zero_use_dsts]

theorem nf_ct_delete_dsts (s : State) (c : Nat) : (nf_ct_delete s c).dsts = s.dsts := by
  unfold nf_ct_delete
  dsimp only
  split
  · rfl
  · rw [nf_ct_put_dsts]

theorem nf_ct_delete_use_self (s : State) (c : Nat) (hc : c ≠ 0) :
    ((nf_ct_delete s c).cts c).use =
      (s.cts c).use - (if nf_ct_is_dying (s.cts c) then 0 else 1) := by
  unfold nf_ct_delete nf_ct_is_dying
  dsimp only
  split
  · rfl
  · rw [nf_ct_put_use_self _ _ hc]
    simp [heap_set]

theorem test_bit_dying_clear_offload (w : Nat) :
    test_bit IPS_DYING_BIT (clear_bit IPS_OFFLOAD_BIT w) = test_bit IPS_DYING_BIT w := by
  have h : clear_bit IPS_OFFLOAD_BIT w &&& (1 <<< IPS_DYING_BIT) = w &&& (1 <<< IPS_DYING_BIT) := by
    apply Nat.eq_of_testBit_eq
    intro i
    have h9 : (1 <<< IPS_DYING_BIT : Nat) = 2 ^ 9 := by decide
    have h14 : (1 <<< IPS_OFFLOAD_BIT : Nat) = 2 ^ 14 := by decide
    simp only [clear_bit, h9, h14, Nat.testBit_and, Nat.testBit_xor, Nat.testBit_two_pow]
    by_cases hi : 9 = i
    · subst hi
      simp
    · simp [hi]
  simp only [test_bit, h]

theorem flow_offload_fixup_ct_state_status (s : State) (ctp c : Nat) :
    ((flow_offload_fixup_ct_state s ctp).cts c).status = (s.cts c).status := by
  unfold flow_offload_fixup_ct_state
  dsimp only
  by_cases hc : c = ctp
  · subst hc
    repeat' split
    all_goals simp [heap_set]
  · repeat' split
    all_goals simp [heap_set, hc]

/-- The reference counts after `flow_offload_free` runs in a state `s5` that
agrees with `s` on the flows, the route handles, the counts and the dying
bits: one reference less on each route handle of the entry, one less on the
connection, and one more less when the entry has DYING and the connection is
not yet dying, which is the reference `nf_ct_delete` drops. -/
theorem flow_offload_free_refs_of (s s5 : State) (flow : Nat)
    (hf : s5.flows = s.flows) (hd : s5.dsts = s.dsts)
    (hu : ∀ c, (s5.cts c).use = (s.cts c).use)
    (hdying : ∀ c, nf_ct_is_dying (s5.cts c) = nf_ct_is_dying (s.cts c))
    (hct : (s.flows flow).ct ≠ 0)
    (h0 : ((s.flows flow).flow.tuplehash 0).tuple.dst_cache ≠ 0)
    (h1 : ((s.flows flow).flow.tuplehash 1).tuple.dst_cache ≠ 0) :
    ((flow_offload_free s5 flow).cts (s.flows flow).ct).use =
      (s.cts (s.flows flow).ct).use -
        (if (s.flows flow).flow.flags &&& FLOW_OFFLOAD_DYING ≠ 0 then
          (if nf_ct_is_dying (s.cts (s.flows flow).ct) then 0 else 1) else 0) - 1 ∧
    ∀ d, ((flow_offload_free s5 flow).dsts d).refcnt =
      (s.dsts d).refcnt - (if d = ((s.flows flow).flow.tuplehash 0).tuple.dst_cache then 1 else 0)
        - (if d = ((s.flows flow).flow.tuplehash 1).tuple.dst_cache then 1 else 0) := by
  unfold flow_offload_free
  simp only [hf, FLOW_OFFLOAD_DIR_ORIGINAL, FLOW_OFFLOAD_DIR_REPLY]
  by_cases hdy : (s.flows flow).flow.flags &&& FLOW_OFFLOAD_DYING = 0
  · simp only [hdy, ne_eq, not_true_eq_false, if_false]
    constructor
    · rw [nf_ct_put_use_self _ _ hct, dst_release_cts, dst_release_cts, hu]
      omega
    · intro d
      rw [nf_ct_put_dsts, dst_release_refcnt _ _ _ h1, dst_release_refcnt _ _ _ h0, hd]
  · simp only [hdy, ne_eq, not_false_eq_true, if_true]
    constructor
    · rw [nf_ct_put_use_self _ _ hct, nf_ct_delete_use_self _ _ hct, dst_release_cts,
        dst_release_cts, hu, hdying]
    · intro d
      rw [nf_ct_put_dsts, nf_ct_delete_dsts, dst_release_refcnt _ _ _ h1,
        dst_release_refcnt _ _ _ h0, hd]

/-- The reference counts after `flow_offload_del`: those after
`flow_offload_free`, the steps before it touching no count and no dying bit. -/
theorem flow_offload_del_refs_of (s : State) (flow : Nat)
    (hct : (s.flows flow).ct ≠ 0)
    (h0 : ((s.flows flow).flow.tuplehash 0).tuple.dst_cache ≠ 0)
    (h1 : ((s.flows flow).flow.tuplehash 1).tuple.dst_cache ≠ 0) :
    ((flow_offload_del s flow).cts (s.flows flow).ct).use =
      (s.cts (s.flows flow).ct).use -
        (if (s.flows flow).flow.flags &&& FLOW_OFFLOAD_DYING ≠ 0 then
          (if nf_ct_is_dying (s.cts (s.flows flow).ct) then 0 else 1) else 0) - 1 ∧
    ∀ d, ((flow_offload_del s flow).dsts d).refcnt =
      (s.dsts d).refcnt - (if d = ((s.flows flow).flow.tuplehash 0).tuple.dst_cache then 1 else 0)
        - (if d = ((s.flows flow).flow.tuplehash 1).tuple.dst_cache then 1 else 0) := by
  have hhw : (nf_flow_offload_hw_del s flow).cts = s.cts := by
    unfold nf_flow_offload_hw_del
    split <;> rfl
  have hhwd : (nf_flow_offload_hw_del s flow).dsts = s.dsts := by
    unfold nf_flow_offload_hw_del
    split <;> rfl
  have hsetu : ∀ (cts : Nat → nf_conn) (a c : Nat) (st : Nat),
      (heap_set cts a { cts a with status := st } c).use = (cts c).use := by
    intro cts a c st
    simp only [heap_set]
    split
    · next h => rw [h]
    · rfl
  have hsets : ∀ (cts : Nat → nf_conn) (a c : Nat),
      nf_ct_is_dying (heap_set cts a
        { cts a with status := clear_bit IPS_OFFLOAD_BIT (cts a).status } c) =
        nf_ct_is_dying (cts c) := by
    intro cts a c
    simp only [heap_set, nf_ct_is_dying]
    split
    · next h => rw [h, test_bit_dying_clear_offload]
    · rfl
  have hfix : ∀ (t : State) (a c : Nat),
      nf_ct_is_dying ((flow_offload_fixup_ct_state t a).cts c) = nf_ct_is_dying (t.cts c) := by
    intro t a c
    simp only [nf_ct_is_dying, flow_offload_fixup_ct_state_status]
  unfold flow_offload_del
  dsimp only
  apply flow_offload_free_refs_of s _ flow _ _ _ _ hct h0 h1
  · split <;> split <;>
      simp [flow_offload_fixup_ct_state_flows, (nf_flow_offload_hw_del_frame s flow).1]
  · split <;> split <;> simp [flow_offload_fixup_ct_state_dsts, hhwd]
  · intro c
    split <;> split <;> simp only [flow_offload_fixup_ct_state_use, hhw, hsetu]
  · intro c
    split <;> split <;> simp only [hfix, hhw, hsets]

/-- C14, as stated, fails: the entry that `flow_offload_alloc` builds for the
sample connection, whose count 2 the call raises to 3, is marked DYING by the
device-down visitor for interface 2; its removal, by `flow_offload_del` as by
`flow_offload_free`, also calls `nf_ct_delete` and leaves the count of the
connection at 1, two below the count before the removal and one below the
count before the construction. -/
theorem flow_offload_alloc_refcounts_dying_counterexample :
    (flow_offload_alloc (alloc_state 1) 1 sample_route 7).2 = 7 ∧
    ((alloc_state 1).cts 1).use = 2 ∧
    ((flow_offload_alloc (alloc_state 1) 1 sample_route 7).1.cts 1).use = 3 ∧
    ((nf_flow_table_do_cleanup (flow_offload_alloc (alloc_state 1) 1 sample_route 7).1 7
      (some 2)).cts 1).use = 3 ∧
    ((flow_offload_del (nf_flow_table_do_cleanup
      (flow_offload_alloc (alloc_state 1) 1 sample_route 7).1 7 (some 2)) 7).cts 1).use = 1 ∧
    ((flow_offload_free (nf_flow_table_do_cleanup
      (flow_offload_alloc (alloc_state 1) 1 sample_route 7).1 7 (some 2)) 7).cts 1).use = 1 := by
  decide

/-- C14, amended: when `flow_offload_alloc` returns an entry, for a connection
and route handles that are not null pointers, the call has raised the
reference count of the connection by one and taken one reference on the route
handle of each direction, two on a handle both directions share. Removing
that entry, by `flow_offload_del` or by `flow_offload_free` alone, in any
later state that holds the entry as built, drops one reference on each of the
same route handles whatever its flags, and on the connection exactly one when
the entry has no DYING flag; with DYING set the removal also calls
`nf_ct_delete` and the connection loses one reference more unless it was
already dying. Construction followed at once by removal leaves the count of
the connection and of every route handle what it was at the start. -/
theorem flow_offload_alloc_refcounts (s : State) (ct : Nat) (route : nf_flow_route)
    (entry : Nat) (hct : ct ≠ 0) (hd0 : (route.tuple 0).dst ≠ 0) (hd1 : (route.tuple 1).dst ≠ 0)
    (hok : (flow_offload_alloc s ct route entry).2 ≠ 0) :
    (((flow_offload_alloc s ct route entry).1.cts ct).use = (s.cts ct).use + 1 ∧
      ∀ d, ((flow_offload_alloc s ct route entry).1.dsts d).refcnt =
        (s.dsts d).refcnt + (if d = (route.tuple 0).dst then 1 else 0)
          + (if d = (route.tuple 1).dst then 1 else 0)) ∧
    (∀ s1 : State, (s1.flows entry).ct = ct →
      ((s1.flows entry).flow.tuplehash 0).tuple.dst_cache = (route.tuple 0).dst →
      ((s1.flows entry).flow.tuplehash 1).tuple.dst_cache = (route.tuple 1).dst →
      (∀ d, ((flow_offload_del s1 entry).dsts d).refcnt =
        (s1.dsts d).refcnt - (if d = (route.tuple 0).dst then 1 else 0)
          - (if d = (route.tuple 1).dst then 1 else 0)) ∧
      (∀ d, ((flow_offload_free s1 entry).dsts d).refcnt =
        (s1.dsts d).refcnt - (if d = (route.tuple 0).dst then 1 else 0)
          - (if d = (route.tuple 1).dst then 1 else 0)) ∧
      ((s1.flows entry).flow.flags &&& FLOW_OFFLOAD_DYING = 0 →
        ((flow_offload_del s1 entry).cts ct).use = (s1.cts ct).use - 1 ∧
        ((flow_offload_free s1 entry).cts ct).use = (s1.cts ct).use - 1) ∧
      ((s1.flows entry).flow.flags &&& FLOW_OFFLOAD_DYING ≠ 0 →
        ((flow_offload_del s1 entry).cts ct).use =
          (s1.cts ct).use - (if nf_ct_is_dying (s1.cts ct) then 0 else 1) - 1 ∧
        ((flow_offload_free s1 entry).cts ct).use =
          (s1.cts ct).use - (if nf_ct_is_dying (s1.cts ct) then 0 else 1) - 1)) ∧
    (((flow_offload_del (flow_offload_alloc s ct route entry).1
          (flow_offload_alloc s ct route entry).2).cts ct).use = (s.cts ct).use ∧
      ∀ d, ((flow_offload_del (flow_offload_alloc s ct route entry).1
          (flow_offload_alloc s ct route entry).2).dsts d).refcnt = (s.dsts d).refcnt) ∧
    (((flow_offload_free (flow_offload_alloc s ct route entry).1
          (flow_offload_alloc s ct route entry).2).cts ct).use = (s.cts ct).use ∧
      ∀ d, ((flow_offload_free (flow_offload_alloc s ct route entry).1
          (flow_offload_alloc s ct route entry).2).dsts d).refcnt = (s.dsts d).refcnt) := by
  obtain ⟨he, hc, hc0, hc1, hdy, huse, hdst⟩ := flow_offload_alloc_entry s ct route entry hok
  have hgen : ∀ s1 : State, (s1.flows entry).ct = ct →
      ((s1.flows entry).flow.tuplehash 0).tuple.dst_cache = (route.tuple 0).dst →
      ((s1.flows entry).flow.tuplehash 1).tuple.dst_cache = (route.tuple 1).dst →
      (((flow_offload_del s1 entry).cts ct).use =
          (s1.cts ct).use -
            (if (s1.flows entry).flow.flags &&& FLOW_OFFLOAD_DYING ≠ 0 then
              (if nf_ct_is_dying (s1.cts ct) then 0 else 1) else 0) - 1 ∧
        ∀ d, ((flow_offload_del s1 entry).dsts d).refcnt =
          (s1.dsts d).refcnt - (if d = (route.tuple 0).dst then 1 else 0)
            - (if d = (route.tuple 1).dst then 1 else 0)) ∧
      (((flow_offload_free s1 entry).cts ct).use =
          (s1.cts ct).use -
            (if (s1.flows entry).flow.flags &&& FLOW_OFFLOAD_DYING ≠ 0 then
              (if nf_ct_is_dying (s1.cts ct) then 0 else 1) else 0) - 1 ∧
        ∀ d, ((flow_offload_free s1 entry).dsts d).refcnt =
          (s1.dsts d).refcnt - (if d = (route.tuple 0).dst then 1 else 0)
            - (if d = (route.tuple 1).dst then 1 else 0)) := by
    intro s1 e e0 e1
    have hdel := flow_offload_del_refs_of s1 entry (by rw [e]; exact hct)
      (by rw [e0]; exact hd0) (by rw [e1]; exact hd1)
    have hfree := flow_offload_free_refs_of s1 s1 entry rfl rfl (fun _ => rfl) (fun _ => rfl)
      (by rw [e]; exact hct) (by rw [e0]; exact hd0) (by rw [e1]; exact hd1)
    rw [e, e0, e1] at hdel hfree
    exact ⟨hdel, hfree⟩
  have hfresh := hgen (flow_offload_alloc s ct route entry).1 hc hc0 hc1
  rw [he]
  refine ⟨⟨huse, hdst⟩, ?_, ⟨?_, ?_⟩, ⟨?_, ?_⟩⟩
  · intro s1 e e0 e1
    obtain ⟨⟨hdu, hdd⟩, ⟨hfu, hfd⟩⟩ := hgen s1 e e0 e1
    refine ⟨hdd, hfd, ?_, ?_⟩
    · intro hz
      rw [hdu, hfu, if_neg (not_not.mpr hz)]
      exact ⟨rfl, rfl⟩
    · intro hnz
      rw [hdu, hfu, if_pos hnz]
      exact ⟨rfl, rfl⟩
  · rw [hfresh.1.1, huse]
    simp only [hdy, ne_eq, not_true_eq_false, if_false]
    omega
  · intro d
    rw [hfresh.1.2 d, hdst d]
    split <;> split <;> omega
  · rw [hfresh.2.1, huse]
    simp only [hdy, ne_eq, not_true_eq_false, if_false]
    omega
  · intro d
    rw [hfresh.2.2 d, hdst d]
    split <;> split <;> omega

/-- Witness for C14: the sample connection, count 2, with the sample route, each
route entry with count 1; and the removal of the entry once the device-down
visitor has set DYING on it, which takes the count of the connection from 3
to 1. -/
theorem flow_offload_alloc_refcounts_witness :
    (((flow_offload_alloc (alloc_state 1) 1 sample_route 7).1.cts 1).use = 2 + 1 ∧
      ((flow_offload_alloc (alloc_state 1) 1 sample_route 7).1.dsts 1).refcnt = 1 + 1 + 0 ∧
      ((flow_offload_alloc (alloc_state 1) 1 sample_route 7).1.dsts 2).refcnt = 1 + 0 + 1) ∧
    ((flow_offload_del (flow_offload_alloc (alloc_state 1) 1 sample_route 7).1
        (flow_offload_alloc (alloc_state 1) 1 sample_route 7).2).cts 1).use = 2 ∧
    ((flow_offload_del (flow_offload_alloc (alloc_state 1) 1 sample_route 7).1
        (flow_offload_alloc (alloc_state 1) 1 sample_route 7).2).dsts 1).refcnt = 1 ∧
    ((flow_offload_del (flow_offload_alloc (alloc_state 1) 1 sample_route 7).1
        (flow_offload_alloc (alloc_state 1) 1 sample_route 7).2).dsts 2).refcnt = 1 := by
  have h := flow_offload_alloc_refcounts (alloc_state 1) 1 sample_route 7 (by decide)
    (by decide) (by decide) (by decide)
  exact ⟨⟨h.1.1, h.1.2 1, h.1.2 2⟩, h.2.2.1.1, h.2.2.1.2 1, h.2.2.1.2 2⟩

/-! ## Source NAT of the port applied twice -/

theorem csum_replace4_same (c m : Nat) (hc : c ≤ 0xfffe) (hm : m < 2 ^ 16) :
    csum_replace4 c m m = c := by
  simp only [csum_replace4, csum_fold, csum_add, csum_sub, csum_unfold, not32, not16]
  norm_num at hc hm ⊢
  split_ifs <;> omega

theorem csum_add_lt (a b : Nat) : csum_add a b < 2 ^ 32 := by
  unfold csum_add
  exact Nat.mod_lt _ (by norm_num)

theorem csum_add_pos_left (a b : Nat) (h : 0 < a % 2 ^ 32) : 0 < csum_add a b := by
  simp only [csum_add]
  norm_num at h ⊢
  split_ifs <;> omega

theorem csum_add_pos_right (a b : Nat) (h : 0 < b % 2 ^ 32) : 0 < csum_add a b := by
  simp only [csum_add]
  norm_num at h ⊢
  split_ifs <;> omega

theorem not32_pos (f : Nat) (hf : f < 2 ^ 16) : 0 < not32 f % 2 ^ 32 := by
  simp only [not32]
  norm_num at hf ⊢
  omega

theorem csum_fold_le (x : Nat) (h : 0 < x % 2 ^ 32) : csum_fold x ≤ 0xfffe := by
  have hx : x % 2 ^ 32 < 2 ^ 32 := Nat.mod_lt _ (by norm_num)
  simp only [csum_fold, not16]
  generalize x % 2 ^ 32 = y at h hx ⊢
  have h0 : 0 < y % 2 ^ 16 + y / 2 ^ 16 := by omega
  have h1 : y % 2 ^ 16 + y / 2 ^ 16 ≤ 131070 := by omega
  generalize y % 2 ^ 16 + y / 2 ^ 16 = z at h0 h1 ⊢
  rcases Nat.lt_or_ge z 65536 with hz | hz
  · have e1 : z / 2 ^ 16 = 0 := by omega
    have e2 : z % 2 ^ 16 = z := by omega
    rw [e1, e2]
    omega
  · have e1 : z / 2 ^ 16 = 1 := by omega
    have e2 : z % 2 ^ 16 = z - 65536 := by omega
    rw [e1, e2]
    omega

theorem not16_csum_fold_pos (x : Nat) (h : 0 < x % 2 ^ 32) : 1 ≤ not16 (csum_fold x) := by
  have hx : x % 2 ^ 32 < 2 ^ 32 := Nat.mod_lt _ (by norm_num)
  simp only [csum_fold, not16]
  generalize x % 2 ^ 32 = y at h hx ⊢
  have h0 : 0 < y % 2 ^ 16 + y / 2 ^ 16 := by omega
  have h1 : y % 2 ^ 16 + y / 2 ^ 16 ≤ 131070 := by omega
  generalize y % 2 ^ 16 + y / 2 ^ 16 = z at h0 h1 ⊢
  rcases Nat.lt_or_ge z 65536 with hz | hz
  · have e1 : z / 2 ^ 16 = 0 := by omega
    have e2 : z % 2 ^ 16 = z := by omega
    rw [e1, e2]
    omega
  · have e1 : z / 2 ^ 16 = 1 := by omega
    have e2 : z % 2 ^ 16 = z - 65536 := by omega
    rw [e1, e2]
    omega

theorem csum_replace4_le (c f t : Nat) (hf : f < 2 ^ 16) : csum_replace4 c f t ≤ 0xfffe := by
  unfold csum_replace4 csum_sub
  apply csum_fold_le
  have h1 := csum_add_pos_right (not32 (csum_unfold c)) (not32 f) (not32_pos f hf)
  have h2 := csum_add_lt (not32 (csum_unfold c)) (not32 f)
  have h3 := csum_add_pos_left _ t (by rw [Nat.mod_eq_of_lt h2]; exact h1)
  rw [Nat.mod_eq_of_lt (csum_add_lt _ _)]
  exact h3

theorem csum_replace4_ones (m : Nat) (hm : m < 2 ^ 16) : csum_replace4 0xffff m m = 0 := by
  simp only [csum_replace4, csum_fold, csum_add, csum_sub, csum_unfold, not32, not16]
  norm_num at hm ⊢
  split_ifs <;> omega

theorem csum_partial_same (c m : Nat) (hc1 : 1 ≤ c) (hc : c ≤ 0xffff) (hm : m < 2 ^ 16) :
    not16 (csum_fold (csum_add (csum_sub (csum_unfold c) m) m)) = c := by
  simp only [csum_fold, csum_add, csum_sub, csum_unfold, not32, not16]
  norm_num at hc hm ⊢
  split_ifs <;> omega

theorem csum_partial_pos (c f t : Nat) (hf : f < 2 ^ 16) :
    1 ≤ not16 (csum_fold (csum_add (csum_sub (csum_unfold c) f) t)) := by
  unfold csum_sub
  apply not16_csum_fold_pos
  have h1 := csum_add_pos_right (csum_unfold c) (not32 f) (not32_pos f hf)
  have h2 := csum_add_lt (csum_unfold c) (not32 f)
  have h3 := csum_add_pos_left _ t (by rw [Nat.mod_eq_of_lt h2]; exact h1)
  rw [Nat.mod_eq_of_lt (csum_add_lt _ _)]
  exact h3

theorem csum_complete_same (x m : Nat) (hx : x ≤ 0xfffffffe) (hm : m < 2 ^ 16) :
    not32 (csum_add (csum_sub (not32 x) m) m) = x := by
  simp only [csum_add, csum_sub, not32]
  norm_num at hx hm ⊢
  split_ifs <;> omega

theorem csum_complete_le (x f t : Nat) (hf : f < 2 ^ 16) :
    not32 (csum_add (csum_sub (not32 x) f) t) ≤ 0xfffffffe := by
  simp only [csum_add, csum_sub, not32]
  norm_num at hf ⊢
  split_ifs <;> omega

theorem store16_store16 (d : Nat → Nat) (o a b : Nat) :
    store16 (store16 d o a) o b = store16 d o b := by
  funext i
  simp only [store16, heap_set]
  split_ifs <;> rfl

theorem store16_load16 (d : Nat → Nat) (o v : Nat) (h0 : d o = v / 256 % 256)
    (h1 : d (o + 1) = v % 256) : store16 d o v = d := by
  funext i
  simp only [store16, heap_set]
  split_ifs with ha hb
  · rw [ha, h1]
  · rw [hb, h0]
  · rfl

theorem inet_proto_csum_replace4_partial_eq (skb : sk_buff) (off f t : Nat)
    (hp : skb.ip_summed = CHECKSUM_PARTIAL) :
    inet_proto_csum_replace4 skb off f t true =
      { skb with data := store16 skb.data off (not16 (csum_fold (csum_add (csum_sub (csum_unfold (load16 skb.data off)) f) t))) } := by
  simp [inet_proto_csum_replace4, hp]

theorem inet_proto_csum_replace4_complete_eq (skb : sk_buff) (off f t : Nat)
    (hc : skb.ip_summed = CHECKSUM_COMPLETE) :
    inet_proto_csum_replace4 skb off f t true =
      { skb with data := store16 skb.data off (csum_replace4 (load16 skb.data off) f t), csum := not32 (csum_add (csum_sub (not32 skb.csum) f) t) } := by
  simp [inet_proto_csum_replace4, hc, CHECKSUM_COMPLETE, CHECKSUM_PARTIAL]

theorem inet_proto_csum_replace4_plain_eq (skb : sk_buff) (off f t : Nat)
    (hp : skb.ip_summed ≠ CHECKSUM_PARTIAL) (hc : skb.ip_summed ≠ CHECKSUM_COMPLETE) :
    inet_proto_csum_replace4 skb off f t true =
      { skb with data := store16 skb.data off (csum_replace4 (load16 skb.data off) f t) } := by
  simp [inet_proto_csum_replace4, hc, hp]

theorem inet_proto_csum_replace4_twice (skb : sk_buff) (off f m : Nat) (hf : f < 2 ^ 16)
    (hm : m < 2 ^ 16) :
    inet_proto_csum_replace4 (inet_proto_csum_replace4 skb off f m true) off m m true =
      inet_proto_csum_replace4 skb off f m true := by
  have hle := csum_replace4_le (load16 skb.data off) f m hf
  have hs := csum_replace4_same _ m hle hm
  have hmod : csum_replace4 (load16 skb.data off) f m % 65536 =
      csum_replace4 (load16 skb.data off) f m := Nat.mod_eq_of_lt (by omega)
  have hpos := csum_partial_pos (load16 skb.data off) f m hf
  have hplt := not16_lt (csum_fold (csum_add (csum_sub (csum_unfold (load16 skb.data off)) f) m))
  have hps := csum_partial_same _ m hpos (by omega) hm
  have hpmod := Nat.mod_eq_of_lt hplt
  have hcs := csum_complete_same _ m (csum_complete_le skb.csum f m hf) hm
  by_cases hp : skb.ip_summed = CHECKSUM_PARTIAL
  · have e1 := inet_proto_csum_replace4_partial_eq skb off f m hp
    have hp1 : (inet_proto_csum_replace4 skb off f m true).ip_summed = CHECKSUM_PARTIAL := by
      rw [e1]
      exact hp
    rw [inet_proto_csum_replace4_partial_eq _ off m m hp1, e1]
    simp only [load16_store16_same, hpmod, hps, store16_store16]
  · by_cases hc : skb.ip_summed = CHECKSUM_COMPLETE
    · have e1 := inet_proto_csum_replace4_complete_eq skb off f m hc
      have hc1 : (inet_proto_csum_replace4 skb off f m true).ip_summed = CHECKSUM_COMPLETE := by
        rw [e1]
        exact hc
      rw [inet_proto_csum_replace4_complete_eq _ off m m hc1, e1]
      simp only [load16_store16_same, hmod, hs, store16_store16, hcs]
    · have e1 := inet_proto_csum_replace4_plain_eq skb off f m hp hc
      have hp1 : (inet_proto_csum_replace4 skb off f m true).ip_summed ≠ CHECKSUM_PARTIAL := by
        rw [e1]
        exact hp
      have hc1 : (inet_proto_csum_replace4 skb off f m true).ip_summed ≠ CHECKSUM_COMPLETE := by
        rw [e1]
        exact hc
      rw [inet_proto_csum_replace4_plain_eq _ off m m hp1 hc1, e1]
      simp only [load16_store16_same, hmod, hs, store16_store16]

theorem inet_proto_csum_replace2_twice (skb : sk_buff) (off f t q : Nat)
    (hq : q % 2 ^ 16 = t % 2 ^ 16) :
    inet_proto_csum_replace2 (inet_proto_csum_replace2 skb off f t true) off q t true =
      inet_proto_csum_replace2 skb off f t true := by
  unfold inet_proto_csum_replace2
  rw [hq]
  exact inet_proto_csum_replace4_twice skb off _ _ (Nat.mod_lt _ (by norm_num))
    (Nat.mod_lt _ (by norm_num))

theorem skb_store16_same (skb : sk_buff) (off v : Nat) (h0 : skb.data off = v / 256 % 256)
    (h1 : skb.data (off + 1) = v % 256) : skb_store16 skb off v = skb := by
  unfold skb_store16
  rw [store16_load16 _ _ _ h0 h1]

theorem store16_at (d : Nat → Nat) (o v : Nat) :
    store16 d o v o = v / 256 % 256 ∧ store16 d o v (o + 1) = v % 256 := by
  have h1 : ¬ (o = o + 1) := by omega
  simp [store16, heap_set, h1]

theorem nf_flow_nat_port_tcp_twice (skb : sk_buff) (thoff p t q : Nat)
    (hq : q % 2 ^ 16 = t % 2 ^ 16) :
    nf_flow_nat_port_tcp (nf_flow_nat_port_tcp skb thoff p t).1 thoff q t =
      nf_flow_nat_port_tcp skb thoff p t := by
  by_cases hg : (!pskb_may_pull skb (u32 (thoff + sizeof_tcphdr)) ||
      skb_try_make_writable skb (u32 (thoff + sizeof_tcphdr))) = true
  · have e : ∀ a, nf_flow_nat_port_tcp skb thoff a t = (skb, -1) := by
      intro a
      unfold nf_flow_nat_port_tcp
      rw [if_pos hg]
    rw [e p]
    exact e q
  · have e : ∀ (s : sk_buff) (a : Nat), s.len = skb.len → s.cow_fails = skb.cow_fails →
        nf_flow_nat_port_tcp s thoff a t =
          (inet_proto_csum_replace2 s (thoff + off_tcp_check) a t true, 0) := by
      intro s a hl hw
      have hg1 : ¬ ((!pskb_may_pull s (u32 (thoff + sizeof_tcphdr)) ||
          skb_try_make_writable s (u32 (thoff + sizeof_tcphdr))) = true) := by
        simp only [pskb_may_pull, skb_try_make_writable, hl, hw] at hg ⊢
        exact hg
      unfold nf_flow_nat_port_tcp
      rw [if_neg hg1]
    have hfr := inet_proto_csum_replace2_frame skb (thoff + off_tcp_check) p t
    rw [e skb p rfl rfl]
    rw [e _ q hfr.1 hfr.2.2, inet_proto_csum_replace2_twice _ _ _ _ _ hq]

theorem inet_proto_csum_replace2_eq (skb : sk_buff) (off f t : Nat) :
    inet_proto_csum_replace2 skb off f t true =
      sk_buff.mk
        (store16 skb.data off
          (if skb.ip_summed ≠ CHECKSUM_PARTIAL then
            csum_replace4 (load16 skb.data off) (f % 2 ^ 16) (t % 2 ^ 16)
          else
            not16 (csum_fold (csum_add (csum_sub (csum_unfold (load16 skb.data off))
              (f % 2 ^ 16)) (t % 2 ^ 16)))))
        skb.len skb.ip_summed
        (if skb.ip_summed = CHECKSUM_COMPLETE then
          not32 (csum_add (csum_sub (not32 skb.csum) (f % 2 ^ 16)) (t % 2 ^ 16))
        else skb.csum)
        skb.cow_fails := by
  unfold inet_proto_csum_replace2
  by_cases hp : skb.ip_summed = CHECKSUM_PARTIAL
  · have hc : skb.ip_summed ≠ CHECKSUM_COMPLETE := by
      rw [hp]
      decide
    rw [inet_proto_csum_replace4_partial_eq _ _ _ _ hp, if_neg (not_not.mpr hp), if_neg hc]
  · by_cases hc : skb.ip_summed = CHECKSUM_COMPLETE
    · rw [inet_proto_csum_replace4_complete_eq _ _ _ _ hc, if_pos hp, if_pos hc]
    · rw [inet_proto_csum_replace4_plain_eq _ _ _ _ hp hc, if_pos hp, if_neg hc]

theorem nf_flow_nat_port_udp_twice (skb : sk_buff) (thoff p t q : Nat)
    (hq : q % 2 ^ 16 = t % 2 ^ 16) :
    nf_flow_nat_port_udp (nf_flow_nat_port_udp skb thoff p t).1 thoff q t =
      nf_flow_nat_port_udp skb thoff p t := by
  have hf : p % 2 ^ 16 < 2 ^ 16 := Nat.mod_lt _ (by norm_num)
  have hm : t % 2 ^ 16 < 2 ^ 16 := Nat.mod_lt _ (by norm_num)
  by_cases hg : (!pskb_may_pull skb (u32 (thoff + sizeof_udphdr)) ||
      skb_try_make_writable skb (u32 (thoff + sizeof_udphdr))) = true
  · have e : ∀ a, nf_flow_nat_port_udp skb thoff a t = (skb, -1) := by
      intro a
      unfold nf_flow_nat_port_udp
      rw [if_pos hg]
    rw [e p]
    exact e q
  · have e : ∀ (s : sk_buff) (a : Nat), s.len = skb.len → s.cow_fails = skb.cow_fails →
        nf_flow_nat_port_udp s thoff a t =
          if load16 s.data (thoff + off_udp_check) ≠ 0 ∨ s.ip_summed = CHECKSUM_PARTIAL then
            if load16 (inet_proto_csum_replace2 s (thoff + off_udp_check) a t true).data
                (thoff + off_udp_check) = 0 then
              (skb_store16 (inet_proto_csum_replace2 s (thoff + off_udp_check) a t true)
                (thoff + off_udp_check) CSUM_MANGLED_0, 0)
            else (inet_proto_csum_replace2 s (thoff + off_udp_check) a t true, 0)
          else (s, 0) := by
      intro s a hl hw
      have hg1 : ¬ ((!pskb_may_pull s (u32 (thoff + sizeof_udphdr)) ||
          skb_try_make_writable s (u32 (thoff + sizeof_udphdr))) = true) := by
        simp only [pskb_may_pull, skb_try_make_writable, hl, hw] at hg ⊢
        exact hg
      unfold nf_flow_nat_port_udp
      rw [if_neg hg1]
    have hfr := inet_proto_csum_replace2_frame skb (thoff + off_udp_check) p t
    rw [e skb p rfl rfl]
    by_cases hc1 : load16 skb.data (thoff + off_udp_check) ≠ 0 ∨
        skb.ip_summed = CHECKSUM_PARTIAL
    · rw [if_pos hc1]
      by_cases hz : load16 (inet_proto_csum_replace2 skb (thoff + off_udp_check) p t true).data
          (thoff + off_udp_check) = 0
      · rw [if_pos hz]
        have hp : skb.ip_summed ≠ CHECKSUM_PARTIAL := by
          intro hp
          have hpos := csum_partial_pos (load16 skb.data (thoff + off_udp_check)) (p % 2 ^ 16)
            (t % 2 ^ 16) hf
          rw [inet_proto_csum_replace2_data, load16_store16_same] at hz
          simp only [hp, ne_eq, not_true_eq_false, if_false] at hz
          have hlt := not16_lt (csum_fold (csum_add (csum_sub
            (csum_unfold (load16 skb.data (thoff + off_udp_check))) (p % 2 ^ 16)) (t % 2 ^ 16)))
          omega
        have hcs := csum_complete_same _ (t % 2 ^ 16)
          (csum_complete_le skb.csum (p % 2 ^ 16) (t % 2 ^ 16) hf) hm
        have hones := csum_replace4_ones (t % 2 ^ 16) hm
        have hM : CSUM_MANGLED_0 % 65536 = 0xffff := by decide
        rw [e _ q (by simp only [skb_store16]; exact hfr.1)
          (by simp only [skb_store16]; exact hfr.2.2)]
        have h65 : (65535 : Nat) ≠ 0 := by decide
        simp only [inet_proto_csum_replace2_eq, skb_store16, load16_store16_same,
          store16_store16, hM, hq, hp, h65, ne_eq, not_false_eq_true, if_true, true_or, hones,
          Nat.zero_mod, or_false]
        by_cases hcc : skb.ip_summed = CHECKSUM_COMPLETE
        · rw [if_pos hcc, if_pos hcc, hcs]
        · rw [if_neg hcc, if_neg hcc]
      · rw [if_neg hz]
        rw [e _ q hfr.1 hfr.2.2, inet_proto_csum_replace2_twice _ _ _ _ _ hq, if_pos (Or.inl hz),
          if_neg hz]
    · rw [if_neg hc1]
      rw [e skb q rfl rfl, if_neg hc1]

theorem nf_flow_nat_port_eq (skb : sk_buff) (thoff protocol p t : Nat) :
    nf_flow_nat_port skb thoff protocol p t =
      (if protocol = IPPROTO_TCP then (nf_flow_nat_port_tcp skb thoff p t).1
        else if protocol = IPPROTO_UDP then (nf_flow_nat_port_udp skb thoff p t).1
        else skb, 0) := by
  unfold nf_flow_nat_port
  simp only [NF_DROP]
  split_ifs <;> rfl

theorem nf_flow_nat_port_twice (skb : sk_buff) (thoff protocol p t q : Nat)
    (hq : q % 2 ^ 16 = t % 2 ^ 16) :
    nf_flow_nat_port (nf_flow_nat_port skb thoff protocol p t).1 thoff protocol q t =
      nf_flow_nat_port skb thoff protocol p t := by
  simp only [nf_flow_nat_port_eq]
  split_ifs
  · rw [nf_flow_nat_port_tcp_twice _ _ _ _ _ hq]
  · rw [nf_flow_nat_port_udp_twice _ _ _ _ _ hq]
  · rfl


theorem nf_flow_nat_port_frame (skb : sk_buff) (thoff protocol p t : Nat) :
    (nf_flow_nat_port skb thoff protocol p t).1.len = skb.len ∧
    (nf_flow_nat_port skb thoff protocol p t).1.cow_fails = skb.cow_fails := by
  have h2 := fun off => inet_proto_csum_replace2_frame skb off p t
  simp only [nf_flow_nat_port_eq, nf_flow_nat_port_tcp, nf_flow_nat_port_udp, skb_store16]
  repeat' split
  all_goals simp only [h2, and_self]

theorem nf_flow_nat_port_ports (skb : sk_buff) (thoff protocol p t i : Nat)
    (hi : i < thoff + sizeof_flow_ports) :
    (nf_flow_nat_port skb thoff protocol p t).1.data i = skb.data i := by
  have h4 : sizeof_flow_ports = 4 := rfl
  have hu : off_udp_check = 6 := rfl
  have ht : off_tcp_check = 16 := rfl
  simp only [nf_flow_nat_port_eq]
  split_ifs
  · exact nf_flow_nat_port_tcp_data_other _ _ _ _ _ (by omega) (by omega)
  · exact nf_flow_nat_port_udp_data_other _ _ _ _ _ (by omega) (by omega)
  · rfl

theorem nf_flow_nat_port_rewritten_twice (skb : sk_buff) (thoff protocol off np : Nat)
    (hoff : off + 2 ≤ sizeof_flow_ports) :
    nf_flow_nat_port
        (skb_store16 (nf_flow_nat_port (skb_store16 skb (thoff + off) np) thoff protocol
          (load16 skb.data (thoff + off)) np).1 (thoff + off) np)
        thoff protocol
        (load16 (nf_flow_nat_port (skb_store16 skb (thoff + off) np) thoff protocol
          (load16 skb.data (thoff + off)) np).1.data (thoff + off)) np =
      nf_flow_nat_port (skb_store16 skb (thoff + off) np) thoff protocol
        (load16 skb.data (thoff + off)) np := by
  have h0 := nf_flow_nat_port_ports (skb_store16 skb (thoff + off) np) thoff protocol
    (load16 skb.data (thoff + off)) np (thoff + off) (by omega)
  have h1 := nf_flow_nat_port_ports (skb_store16 skb (thoff + off) np) thoff protocol
    (load16 skb.data (thoff + off)) np (thoff + off + 1) (by omega)
  have hs := store16_at skb.data (thoff + off) np
  have hd : (skb_store16 skb (thoff + off) np).data = store16 skb.data (thoff + off) np := rfl
  rw [hd, hs.1] at h0
  rw [hd, hs.2] at h1
  have hl : ∀ d : Nat → Nat, d (thoff + off) = np / 256 % 256 →
      d (thoff + off + 1) = np % 256 → load16 d (thoff + off) = np % 65536 := by
    intro d a b
    simp only [load16, a, b]
    omega
  rw [skb_store16_same _ _ _ h0 h1, hl _ h0 h1]
  exact nf_flow_nat_port_twice _ _ _ _ _ _ (by norm_num)

/-- C17: whenever `nf_flow_snat_port` succeeds, a second application with
the same flow, direction, header offset and protocol to the packet the first
one produced succeeds as well and hands back that very packet: no byte of it
changes, so both ports are the ones the first application left and every
16-bit field, the layer-4 checksum among them, reads the same value, hence the
same value as a ones-complement number. -/
theorem nf_flow_snat_port_twice (flow : flow_offload) (skb : sk_buff)
    (thoff protocol dir : Nat)
    (hok : (nf_flow_snat_port flow skb thoff protocol dir).2 = 0) :
    (nf_flow_snat_port flow (nf_flow_snat_port flow skb thoff protocol dir).1 thoff protocol
        dir).2 = 0 ∧
    (nf_flow_snat_port flow (nf_flow_snat_port flow skb thoff protocol dir).1 thoff protocol
        dir).1 = (nf_flow_snat_port flow skb thoff protocol dir).1 ∧
    load16 (nf_flow_snat_port flow (nf_flow_snat_port flow skb thoff protocol dir).1 thoff
        protocol dir).1.data (thoff + off_source) =
      load16 (nf_flow_snat_port flow skb thoff protocol dir).1.data (thoff + off_source) ∧
    load16 (nf_flow_snat_port flow (nf_flow_snat_port flow skb thoff protocol dir).1 thoff
        protocol dir).1.data (thoff + off_dest) =
      load16 (nf_flow_snat_port flow skb thoff protocol dir).1.data (thoff + off_dest) ∧
    ∀ off, load16 (nf_flow_snat_port flow (nf_flow_snat_port flow skb thoff protocol dir).1
        thoff protocol dir).1.data off % 65535 =
      load16 (nf_flow_snat_port flow skb thoff protocol dir).1.data off % 65535 := by
  have key : nf_flow_snat_port flow (nf_flow_snat_port flow skb thoff protocol dir).1 thoff
      protocol dir = nf_flow_snat_port flow skb thoff protocol dir := by
    by_cases hg : (!pskb_may_pull skb (u32 (thoff + sizeof_flow_ports)) ||
        skb_try_make_writable skb (u32 (thoff + sizeof_flow_ports))) = true
    · have e : nf_flow_snat_port flow skb thoff protocol dir = (skb, -1) := by
        unfold nf_flow_snat_port
        rw [if_pos hg]
      rw [e]
      exact e
    · have e : ∀ s : sk_buff, s.len = skb.len → s.cow_fails = skb.cow_fails →
          nf_flow_snat_port flow s thoff protocol dir =
            if dir = FLOW_OFFLOAD_DIR_ORIGINAL then
              nf_flow_nat_port
                (skb_store16 s (thoff + off_source)
                  (flow.tuplehash FLOW_OFFLOAD_DIR_REPLY).tuple.dst_port)
                thoff protocol (load16 s.data (thoff + off_source))
                (flow.tuplehash FLOW_OFFLOAD_DIR_REPLY).tuple.dst_port
            else if dir = FLOW_OFFLOAD_DIR_REPLY then
              nf_flow_nat_port
                (skb_store16 s (thoff + off_dest)
                  (flow.tuplehash FLOW_OFFLOAD_DIR_ORIGINAL).tuple.src_port)
                thoff protocol (load16 s.data (thoff + off_dest))
                (flow.tuplehash FLOW_OFFLOAD_DIR_ORIGINAL).tuple.src_port
            else (s, -1) := by
        intro s hl hw
        have hg1 : ¬ ((!pskb_may_pull s (u32 (thoff + sizeof_flow_ports)) ||
            skb_try_make_writable s (u32 (thoff + sizeof_flow_ports))) = true) := by
          simp only [pskb_may_pull, skb_try_make_writable, hl, hw] at hg ⊢
          exact hg
        unfold nf_flow_snat_port
        rw [if_neg hg1]
      rw [e skb rfl rfl]
      by_cases hd0 : dir = FLOW_OFFLOAD_DIR_ORIGINAL
      · have hfr := nf_flow_nat_port_frame
          (skb_store16 skb (thoff + off_source)
            (flow.tuplehash FLOW_OFFLOAD_DIR_REPLY).tuple.dst_port)
          thoff protocol (load16 skb.data (thoff + off_source))
          (flow.tuplehash FLOW_OFFLOAD_DIR_REPLY).tuple.dst_port
        rw [if_pos hd0, e _ hfr.1 hfr.2, if_pos hd0]
        exact nf_flow_nat_port_rewritten_twice skb thoff protocol off_source _ (by decide)
      · by_cases hd1 : dir = FLOW_OFFLOAD_DIR_REPLY
        · have hfr := nf_flow_nat_port_frame
            (skb_store16 skb (thoff + off_dest)
              (flow.tuplehash FLOW_OFFLOAD_DIR_ORIGINAL).tuple.src_port)
            thoff protocol (load16 skb.data (thoff + off_dest))
            (flow.tuplehash FLOW_OFFLOAD_DIR_ORIGINAL).tuple.src_port
          rw [if_neg hd0, if_pos hd1, e _ hfr.1 hfr.2, if_neg hd0, if_pos hd1]
          exact nf_flow_nat_port_rewritten_twice skb thoff protocol off_dest _ (by decide)
        · rw [if_neg hd0, if_neg hd1, e skb rfl rfl, if_neg hd0, if_neg hd1]
  rw [key]
  exact ⟨hok, rfl, rfl, rfl, fun _ => rfl⟩

theorem nf_flow_snat_port_twice_witness :
    (nf_flow_snat_port snat_flow (sample_skb 40 CHECKSUM_NONE) 0 IPPROTO_TCP
      FLOW_OFFLOAD_DIR_ORIGINAL).2 = 0 ∧
    (nf_flow_snat_port snat_flow
      (nf_flow_snat_port snat_flow (sample_skb 40 CHECKSUM_NONE) 0 IPPROTO_TCP
        FLOW_OFFLOAD_DIR_ORIGINAL).1 0 IPPROTO_TCP FLOW_OFFLOAD_DIR_ORIGINAL).2 = 0 ∧
    (nf_flow_snat_port snat_flow
      (nf_flow_snat_port snat_flow (sample_skb 40 CHECKSUM_NONE) 0 IPPROTO_TCP
        FLOW_OFFLOAD_DIR_ORIGINAL).1 0 IPPROTO_TCP FLOW_OFFLOAD_DIR_ORIGINAL).1 =
      (nf_flow_snat_port snat_flow (sample_skb 40 CHECKSUM_NONE) 0 IPPROTO_TCP
        FLOW_OFFLOAD_DIR_ORIGINAL).1 :=
  ⟨by decide,
    (nf_flow_snat_port_twice snat_flow (sample_skb 40 CHECKSUM_NONE) 0 IPPROTO_TCP
      FLOW_OFFLOAD_DIR_ORIGINAL (by decide)).1,
    (nf_flow_snat_port_twice snat_flow (sample_skb 40 CHECKSUM_NONE) 0 IPPROTO_TCP
      FLOW_OFFLOAD_DIR_ORIGINAL (by decide)).2.1⟩

end NfFlowTable
